import Mathlib

/-! # trivialdns: the resolution decision engine

A shallow embedding of `trivialdns.go` (package `main`) and of the few library
operations it calls, followed by theorems about the embedded program.

Conventions of the embedding.

* Go strings are Lean `String`s; the `strings` helpers are defined on the
  character list of the string.  All separators and character sets used by the
  program are ASCII, so working on characters or on UTF-8 bytes is the same.
* A Go `map[string]V` is an association list `List (String × V)` read with
  `mapGet` (first binding of the key) and written with `mapSet` (the binding of
  the key is replaced in place, or appended when the key is new).
* A Go `int` is an integer between `math.MinInt` and `math.MaxInt`.  It is taken
  to be 64 bits wide, as on a 64-bit platform (on a 32-bit platform `2^31` stands
  for `2^63` throughout); `+= 1` is `int.add _ 1`, which wraps around from
  `math.MaxInt` to `math.MinInt` as Go's arithmetic does.
* Everything a request handler does to the outside is recorded in a `Run`: the
  server fields, the messages handed to `w.WriteMsg` and the exchanges made with
  an upstream server.  A handler is a function on `Run`; one that can panic
  returns a `Result`, which keeps the state reached when the panic was raised.
* What the handler cannot decide by itself (the random source, the fresh message
  id, the upstream's reaction, `net.ParseIP`) is read from an `Env`.
* Logging (`debug`, `log.Printf`, `PrintStack`) changes nothing that is modelled
  and is left out.
-/

namespace TrivialDns

/-! ## The type `int` -/

/-- The constant `math.MaxInt`, for an `int` of 64 bits: `2^63 - 1`. -/
def math.MaxInt : Int := 9223372036854775807

/-- The constant `math.MinInt`, for an `int` of 64 bits: `-2^63`. -/
def math.MinInt : Int := -9223372036854775808

/-- The sum `a + b` of two `int`s: the sum of the integers brought back between
`math.MinInt` and `math.MaxInt` modulo `2^64` (two's complement; an overflow wraps
around and does not panic). -/
def int.add (a b : Int) : Int :=
  (a + b + 9223372036854775808) % 18446744073709551616 - 9223372036854775808

/-! ## Go maps -/

/-- Reading `m[k]` with the comma-ok form: the value bound to `k`, if any. -/
def mapGet {V : Type} : List (String × V) → String → Option V
  | [], _ => none
  | (k', v) :: rest, k => if k' = k then some v else mapGet rest k

/-- The assignment `m[k] = v`: replaces the binding of `k`, or adds one. -/
def mapSet {V : Type} : List (String × V) → String → V → List (String × V)
  | [], k, v => [(k, v)]
  | (k', v') :: rest, k, v =>
    if k' = k then (k, v) :: rest else (k', v') :: mapSet rest k v

/-- The keys visited by `for k := range m`: every key of the map once (here in the
order of their first binding; Go leaves the order unspecified). -/
def mapKeys {V : Type} : List (String × V) → List String
  | [] => []
  | (k, _) :: rest => k :: (mapKeys rest).filter (fun k' => k' ≠ k)

/-! ## Package `unicode` -/

namespace unicode

/-- The function `unicode.IsSpace`: the Latin-1 spaces `\t`, `\n`, `\v`, `\f`, `\r`,
space, U+0085, U+00A0, and the other code points with the White_Space property. -/
def IsSpace (r : Char) : Bool :=
  r.toNat = 0x09 || r.toNat = 0x0A || r.toNat = 0x0B || r.toNat = 0x0C ||
  r.toNat = 0x0D || r.toNat = 0x20 || r.toNat = 0x85 || r.toNat = 0xA0 ||
  r.toNat = 0x1680 || (0x2000 ≤ r.toNat && r.toNat ≤ 0x200A) ||
  r.toNat = 0x2028 || r.toNat = 0x2029 || r.toNat = 0x202F || r.toNat = 0x205F ||
  r.toNat = 0x3000

end unicode

/-! ## Package `strings` -/

namespace strings

/-- Pieces of a character list between occurrences of `sep`; the empty list
gives one empty piece, as `strings.Split("", sep)` does. -/
def splitOn (sep : Char) : List Char → List (List Char)
  | [] => [[]]
  | c :: cs =>
    if c = sep then [] :: splitOn sep cs
    else
      match splitOn sep cs with
      | [] => [[c]]
      | p :: ps => (c :: p) :: ps

/-- The call `strings.Split(s, sep)` for a separator of one character. -/
def Split (s : String) (sep : Char) : List String :=
  (splitOn sep s.data).map String.mk

/-- The call `strings.Join(parts, sep)`. -/
def Join (parts : List String) (sep : String) : String :=
  sep.intercalate parts

/-- The call `strings.HasSuffix(s, suffix)`. -/
def HasSuffix (s suffix : String) : Bool :=
  suffix.data.isSuffixOf s.data

/-- The call `strings.TrimSuffix(s, suffix)`: `s[:len(s)-len(suffix)]` when `s`
ends with `suffix`, else `s`. -/
def TrimSuffix (s suffix : String) : String :=
  if HasSuffix s suffix then
    String.mk (s.data.take (s.data.length - suffix.data.length))
  else s

/-- The call `strings.ContainsAny(s, chars)`: some character of `s` occurs in
`chars`. -/
def ContainsAny (s chars : String) : Bool :=
  s.data.any (fun c => chars.data.contains c)

/-- The call `strings.Contains(s, substr)` for a `substr` of one character. -/
def Contains (s : String) (c : Char) : Bool :=
  s.data.contains c

/-- The call `strings.TrimSpace(s)`: leading and trailing white space removed. -/
def TrimSpace (s : String) : String :=
  String.mk ((s.data.dropWhile unicode.IsSpace).reverse.dropWhile unicode.IsSpace).reverse

/-- The scan of `strings.Fields`: `cur` holds, reversed, the characters of the field
being read. -/
def fieldsFrom (cur : List Char) : List Char → List (List Char)
  | [] => if cur = [] then [] else [cur.reverse]
  | c :: cs =>
    if unicode.IsSpace c then
      if cur = [] then fieldsFrom [] cs else cur.reverse :: fieldsFrom [] cs
    else fieldsFrom (c :: cur) cs

/-- The call `strings.Fields(s)`: the maximal runs of characters that are not white
space. -/
def Fields (s : String) : List String :=
  (fieldsFrom [] s.data).map String.mk

end strings

/-! ## Package `sort` -/

namespace sort

/-- The call `sort.Strings(x)`: `x` in increasing order, strings being compared
character by character (for UTF-8 the same as byte by byte). -/
def Strings (x : List String) : List String :=
  x.insertionSort (fun a b => ¬ b.data < a.data)

end sort

/-! ## Package `net` -/

namespace net

/-- The type `net.IP`, a byte slice; `nil` is the empty list. -/
abbrev IP := List Nat

end net

/-! ## Package `github.com/miekg/dns` -/

namespace dns

/-- The constant `dns.TypeA`. -/
def TypeA : Nat := 1
/-- The constant `dns.TypeOPT`. -/
def TypeOPT : Nat := 41
/-- The constant `dns.ClassINET`. -/
def ClassINET : Nat := 1
/-- The constant `dns.OpcodeQuery`. -/
def OpcodeQuery : Int := 0
/-- The constant `dns.RcodeSuccess`. -/
def RcodeSuccess : Int := 0
/-- The constant `dns.RcodeServerFailure`. -/
def RcodeServerFailure : Int := 2
/-- The constant `dns.RcodeRefused`. -/
def RcodeRefused : Int := 5

/-- The struct `dns.Question`. -/
structure Question where
  Name : String
  Qtype : Nat
  Qclass : Nat
deriving DecidableEq, Repr

/-- The struct `dns.RR_Header`. -/
structure RR_Header where
  Name : String := ""
  Rrtype : Nat := 0
  Class : Nat := 0
  Ttl : Nat := 0
  Rdlength : Nat := 0
deriving DecidableEq, Repr

/-- A resource record (`dns.RR`): its header and its data.

The library builds every record, whether unpacked from the wire or made by its
own constructors, with the Go type registered for `Hdr.Rrtype` (`*dns.A` for
`TypeA`, `*dns.OPT` for `TypeOPT`), and so does this program.  A record is
therefore represented by its header and, for an address record, the field `A`;
the Go type is read off `Hdr.Rrtype`. -/
structure RR where
  Hdr : RR_Header
  A : net.IP := []
deriving DecidableEq, Repr

/-- The type assertion `rr.(*dns.A)` in its comma-ok form. -/
def RR.assertA (rr : RR) : Option RR :=
  if rr.Hdr.Rrtype = TypeA then some rr else none

/-- The method `(*OPT).Do`: bit 15 of the TTL field of the header. -/
def RR.Do (rr : RR) : Bool :=
  (rr.Hdr.Ttl / 2 ^ 15) % 2 = 1

/-- The method `(*OPT).UDPSize`: the class field of the header. -/
def RR.UDPSize (rr : RR) : Nat :=
  rr.Hdr.Class

/-- The struct `dns.MsgHdr`. -/
structure MsgHdr where
  Id : Nat := 0
  Response : Bool := false
  Opcode : Int := 0
  Authoritative : Bool := false
  Truncated : Bool := false
  RecursionDesired : Bool := false
  RecursionAvailable : Bool := false
  Zero : Bool := false
  AuthenticatedData : Bool := false
  CheckingDisabled : Bool := false
  Rcode : Int := 0
deriving DecidableEq, Repr

/-- The struct `dns.Msg`; `new(dns.Msg)` is `{}`. -/
structure Msg extends MsgHdr where
  Compress : Bool := false
  Question : List Question := []
  Answer : List RR := []
  Ns : List RR := []
  Extra : List RR := []
deriving DecidableEq, Repr

/-- The method `(*Msg).SetReply`: id, opcode and the first question are copied
from the request, the response bit is set, `rd` and `cd` are copied for a
standard query, and the rcode is success. -/
def Msg.SetReply (m request : Msg) : Msg :=
  let m := { m with Id := request.Id, Response := true, Opcode := request.Opcode }
  let m :=
    if m.Opcode = OpcodeQuery then
      { m with RecursionDesired := request.RecursionDesired,
               CheckingDisabled := request.CheckingDisabled }
    else m
  let m := { m with Rcode := RcodeSuccess }
  match request.Question with
  | [] => m
  | q :: _ => { m with Question := [q] }

/-- The method `(*Msg).SetRcode`: `SetReply` followed by setting the rcode. -/
def Msg.SetRcode (m request : Msg) (rcode : Int) : Msg :=
  { m.SetReply request with Rcode := rcode }

/-- The method `(*Msg).SetQuestion` with the fresh id `id` drawn by `dns.Id()`. -/
def Msg.SetQuestion (m : Msg) (id : Nat) (z : String) (t : Nat) : Msg :=
  { m with Id := id, RecursionDesired := true, Question := [⟨z, t, ClassINET⟩] }

/-- The method `(*Msg).SetEdns0`: appends to the extra section an OPT record named
`.` whose UDP size is `udpsize` and whose DO bit is `d`. -/
def Msg.SetEdns0 (m : Msg) (udpsize : Nat) (d : Bool) : Msg :=
  let e : RR :=
    { Hdr := { Name := ".", Rrtype := TypeOPT, Class := udpsize,
               Ttl := if d then 2 ^ 15 else 0 } }
  { m with Extra := m.Extra ++ [e] }

/-- The function `dns.IsFqdn`: the name ends with a dot that is not escaped.  The
characters of `s` are read from the last one; `rest` is `s[:len(s)-1]`.  With `i` the
byte index of the last character that is not a backslash (`-1` when there is none),
`len(s)-i` is the number of backslashes that end `rest` plus the length in bytes of
that character (plus 1 when there is none). -/
def IsFqdn (s : String) : Bool :=
  match s.data.reverse with
  | [] => false  -- s == ""
  | c :: rest =>
    if c ≠ '.' then false
    else
      match rest with
      | [] => true  -- s == "" after the dot is removed
      | e :: _ =>
        -- no escape character before the final dot
        if e ≠ '\\' then true
        else
          -- an odd or an even number of escape characters before the dot
          match rest.dropWhile (fun r => r = '\\') with
          | [] => ((rest.takeWhile (fun r => r = '\\')).length + 1) % 2 ≠ 0
          | l :: _ =>
            ((rest.takeWhile (fun r => r = '\\')).length + l.utf8Size) % 2 ≠ 0

/-- The function `dns.Fqdn`. -/
def Fqdn (s : String) : String :=
  if IsFqdn s then s else s ++ "."

end dns

/-! ## The server -/

/-- The function `looksLikeDomainName`. -/
def looksLikeDomainName (s : String) : Bool :=
  -- domain names should have alphabet characters in them
  strings.ContainsAny s "abcdefghijklmnopqrstuvwxyz"

/-- The struct `TrivialDnsServer` (the mutex protects `stats` and has no state
of its own here). -/
structure TrivialDnsServer where
  Servers : List String
  Database : List (String × String)
  stats : List (String × Int)
deriving DecidableEq, Repr

/-- What the handler reads from outside the program. -/
structure Env where
  /-- The function `net.ParseIP`; a `nil` result is `[]`. -/
  ParseIP : String → net.IP
  /-- The state of the random source read by `rand.Intn`. -/
  seed : Nat
  /-- The id drawn by `dns.Id()` for a new question. -/
  Id : Nat
  /-- The method `(*dns.Client).Exchange`: the error, or the response. -/
  Exchange : dns.Msg → String → Except String dns.Msg

/-- The server together with the trace of one run of a handler. -/
structure Run where
  self : TrivialDnsServer
  /-- The messages handed to `w.WriteMsg`, oldest first. -/
  written : List dns.Msg := []
  /-- The exchanges made: the message sent and the server it was sent to. -/
  exchanged : List (dns.Msg × String) := []
deriving DecidableEq, Repr

/-- The outcome of a call that may panic. -/
inductive Result (α : Type) where
  /-- The call returned `a`. -/
  | ok (a : α) (s : Run)
  /-- The call panicked; `s` is the state reached at that point. -/
  | panic (s : Run)
deriving DecidableEq, Repr

/-- The value `m[k]` of a counter map, `0` for an absent key. -/
def statValue (m : List (String × Int)) (k : String) : Int :=
  (mapGet m k).getD 0

/-- The method `w.WriteMsg(m)`. -/
def Run.WriteMsg (s : Run) (m : dns.Msg) : Run :=
  { s with written := s.written ++ [m] }

/-- Recording the call `c.Exchange(r, upstreamServer)`. -/
def Run.Exchange (s : Run) (r : dns.Msg) (upstreamServer : String) : Run :=
  { s with exchanged := s.exchanged ++ [(r, upstreamServer)] }

/-- The function `rand.Intn(n)`: panics for `n ≤ 0`, else a number below `n`. -/
def Env.Intn (env : Env) (n : Nat) : Option Nat :=
  if n = 0 then none else some (env.seed % n)

namespace TrivialDnsServer

/-- The method `Count`: `self.stats[statname] += 1`. -/
def Count (statname : String) (s : Run) : Run :=
  { s with self :=
      { s.self with
        stats := mapSet s.self.stats statname
          (int.add (statValue s.self.stats statname) 1) } }

/-- The method `refuseWithCode`.  The assertion `r.(*dns.OPT)` is made on a record
whose type is `TypeOPT`, so it succeeds (see `dns.RR`); `Do` reads the header. -/
def refuseWithCode (req : dns.Msg) (code : Int) (s : Run) : Run :=
  let m : dns.Msg := {}
  let m :=
    req.Extra.foldl
      (fun m r => if r.Hdr.Rrtype = dns.TypeOPT then m.SetEdns0 4096 r.Do else m) m
  let m := m.SetRcode req code
  s.WriteMsg m

/-- The struct `StatTuple`. -/
structure StatTuple where
  Key : String
  Value : Int
deriving DecidableEq, Repr

/-- The method `GetStats`: the result, and the server as the call leaves it. -/
def GetStats (s : Run) : List StatTuple × Run :=
  let keys := mapKeys s.self.stats
  let keys := sort.Strings keys
  let result := keys.map (fun k => (⟨k, statValue s.self.stats k⟩ : StatTuple))
  (result, s)

/-- The method `refuse`. -/
def refuse (req : dns.Msg) (s : Run) : Run :=
  let s := Count "refusals" s
  refuseWithCode req dns.RcodeRefused s

/-- The method `refuseOnPanic`. -/
def refuseOnPanic (req : dns.Msg) (s : Run) : Run :=
  let s := Count "panic_refusals" s
  refuseWithCode req dns.RcodeServerFailure s

/-- The method `getSingleSimpleQuestion`; `nil` is `none`. -/
def getSingleSimpleQuestion (m : dns.Msg) : Option dns.Question :=
  match m.Question with
  | [q] =>
    if q.Qtype ≠ dns.TypeA ∨ q.Qclass ≠ dns.ClassINET then none
    else some q
  | _ => none  -- len(m.Question) != 1

/-- The method `getSingleSimpleAnswer`; `nil` is `none`, and the address pointed to
is returned by value. -/
def getSingleSimpleAnswer (m : dns.Msg) : Option net.IP :=
  match m.Answer with
  | [rr] =>
    match rr.assertA with
    | none => none
    | some a =>
      if a.Hdr.Rrtype ≠ dns.TypeA ∨ a.Hdr.Class ≠ dns.ClassINET then none
      else some a.A
  | _ => none  -- len(m.Answer) != 1

/-- The method `respondSuccessively`; dereferencing a `nil` question panics. -/
def respondSuccessively (r : dns.Msg) (addr : net.IP) (s : Run) : Result Unit :=
  match getSingleSimpleQuestion r with
  | none => .panic s
  | some q =>
    let a : dns.RR :=
      { Hdr := { Name := q.Name, Rrtype := dns.TypeA, Class := dns.ClassINET,
                 Ttl := 30, Rdlength := 4 },
        A := addr }
    let m : dns.Msg := {}
    let m := m.SetReply r
    let m := { m with Answer := [a] }
    let m := { m with Authoritative := false }
    .ok () (s.WriteMsg m)

/-- The method `exchangeWithUpstream`: `rand.Intn` panics on an empty server
list, and so would the indexing. -/
def exchangeWithUpstream (env : Env) (r : dns.Msg) (s : Run) :
    Result (Except String dns.Msg) :=
  let s := Count "upstream_queries" s
  match env.Intn s.self.Servers.length with
  | none => .panic s
  | some i =>
    match s.self.Servers[i]? with
    | none => .panic s
    | some upstreamServer =>
      .ok (env.Exchange r upstreamServer) (s.Exchange r upstreamServer)

/-- The method `redirectQuery`. -/
def redirectQuery (env : Env) (r : dns.Msg) (newName : String) (s : Run) :
    Result Unit :=
  let s := Count "redirected_requests" s
  let newName := if ¬ strings.HasSuffix newName "." then newName ++ "." else newName
  let newR : dns.Msg := {}
  let newR := newR.SetQuestion env.Id (dns.Fqdn newName) dns.TypeA
  match exchangeWithUpstream env newR s with
  | .panic s => .panic s
  | .ok (.ok response) s =>
    match getSingleSimpleAnswer response with
    | none =>
      let s := Count "redirected_nowhere" s
      .ok () (refuse r s)
    | some ip =>
      let s := Count "redirected_successively" s
      respondSuccessively r ip s
  | .ok (.error _) s =>
    let s := Count "upstream_errors" s
    .ok () (refuse r s)

/-- The method `proxyToUpstream`. -/
def proxyToUpstream (env : Env) (r : dns.Msg) (s : Run) : Result Unit :=
  let s := Count "proxied_requests" s
  match exchangeWithUpstream env r s with
  | .panic s => .panic s
  | .ok (.ok response) s =>
    let s := if response.Answer.length = 0 then Count "proxied_refusals" s else s
    .ok () (s.WriteMsg response)
  | .ok (.error _) s =>
    let s := Count "upstream_errors" s
    .ok () (refuse r s)

/-- The `for len(parts) >= 2` loop of `tryAnswer`: the first label is
overwritten with `*`, the joined name is looked up, and on a miss the first
label is dropped. -/
def wildcardLoop (db : List (String × String)) : List String → Option String
  | _ :: p :: rest =>
    let wildcard_name := strings.Join ("*" :: p :: rest) "."
    match mapGet db wildcard_name with
    | some value => some value
    | none => wildcardLoop db (p :: rest)
  | _ => none

/-- The lookup part of `tryAnswer` (from `value, ok := self.Database[name]` to
`if !b_found`): the value found, or `none` where `tryAnswer` returns false. -/
def lookup (db : List (String × String)) (name : String) : Option String :=
  match mapGet db name with
  | some value => some value
  | none => wildcardLoop db (strings.Split name '.')

/-- The method `tryAnswer`. -/
def tryAnswer (env : Env) (r : dns.Msg) (s : Run) : Result Bool :=
  match getSingleSimpleQuestion r with
  | none => .ok false s
  | some q =>
    let name := strings.TrimSuffix q.Name "."
    if name = "panic.com" then .panic s
    else
      match lookup s.self.Database name with
      | none => .ok false s
      | some value =>
        if looksLikeDomainName value then
          match redirectQuery env r value s with
          | .panic s => .panic s
          | .ok _ s => .ok true s
        else
          let addr := env.ParseIP value
          let s := Count "local_responses" s
          match respondSuccessively r addr s with
          | .panic s => .panic s
          | .ok _ s => .ok true s

/-- The body of `ServeDNS`, without the deferred function. -/
def ServeDNS.body (env : Env) (r : dns.Msg) (s : Run) : Result Unit :=
  let s := Count "requests" s
  match tryAnswer env r s with
  | .panic s => .panic s
  | .ok true s => .ok () s
  | .ok false s => proxyToUpstream env r s

/-- The method `ServeDNS`: the deferred function recovers a panic of the body
and calls `refuseOnPanic`. -/
def ServeDNS (env : Env) (r : dns.Msg) (s : Run) : Result Unit :=
  match ServeDNS.body env r s with
  | .ok _ s => .ok () s
  | .panic s => .ok () (refuseOnPanic r s)

end TrivialDnsServer

/-- The function `readAllLinesFromFile`; `file` is what opening and scanning the
file gives, an error or the lines read by the scanner. -/
def readAllLinesFromFile (file : Except String (List String)) :
    Except String (List String) :=
  match file with
  | .error err => .error err
  | .ok scanned =>
    .ok (scanned.foldl
      (fun lines line =>
        let line := strings.TrimSpace line
        if line = "" then lines else lines ++ [line]) [])

/-- The function `readUpstreamServersFromConfig`; `file` is the nameservers file, and
`log.Fatalf` ends the process with the error. -/
def readUpstreamServersFromConfig (file : Except String (List String)) :
    Except String (List String) :=
  match readAllLinesFromFile file with
  | .error err => .error err
  | .ok lines =>
    .ok (lines.foldl
      (fun servers line =>
        let line := if ¬ strings.Contains line ':' then line ++ ":53" else line
        servers ++ [line]) [])

/-- The body of the loop of `readDatabaseFromConfig` for one line (`strings.Split`
never returns an empty slice, so `parts[0]` exists). -/
def readDatabaseFromConfig.step (db : List (String × String)) (sourceLine : String) :
    List (String × String) :=
  -- remove comments
  let parts := strings.Split sourceLine '#'
  let line := strings.TrimSpace (parts.headD "")
  if line = "" then db
  else
    let parts := strings.Fields line
    match parts with
    | [domain, target] => mapSet db domain target
    | _ => db  -- len(parts) != 2

/-- The function `readDatabaseFromConfig`; `file` is the hosts file.  On a read error
the database is empty (the rewriting of the file is left out). -/
def readDatabaseFromConfig (file : Except String (List String)) :
    List (String × String) :=
  match readAllLinesFromFile file with
  | .error _ => []
  | .ok lines => lines.foldl readDatabaseFromConfig.step []

open TrivialDnsServer

/-! ## Reference definitions used to state the properties -/

/-- The value of counter `k` in a run. -/
def Run.stat (s : Run) (k : String) : Int := statValue s.self.stats k

/-- The wildcard candidates of a name with labels `L0, L1, ..., Ln`, in the
order of the reference definition: `*.L1.L2...Ln`, `*.L2...Ln`, ..., `*.Ln`. -/
def wildcardCandidates (labels : List String) : List String :=
  (List.range (labels.length - 1)).map
    (fun i => "*." ++ strings.Join (labels.drop (i + 1)) ".")

/-- The reference lookup: the target of the name itself when it is a key, else the
target of the first wildcard candidate that is a key, else not found. -/
def lookupSpec (db : List (String × String)) (name : String) : Option String :=
  match mapGet db name with
  | some target => some target
  | none => (wildcardCandidates (strings.Split name '.')).findSome? (mapGet db)

/-- The target of a redirect with one trailing dot: a dot is appended unless the
target already ends with a dot. -/
def fullyQualified (target : String) : String :=
  if strings.HasSuffix target "." then target else target ++ "."

/-- The query a redirect sends upstream: a message with nothing but the id `id`,
the `rd` bit and the single question, type A, class IN, whose name is what `dns.Fqdn`
makes of the target with one trailing dot (see `Fqdn_fullyQualified`: that name
itself, unless its final dot is escaped by a backslash). -/
def redirectQuestion (id : Nat) (target : String) : dns.Msg :=
  { Id := id, RecursionDesired := true,
    Question := [⟨dns.Fqdn (fullyQualified target), dns.TypeA, dns.ClassINET⟩] }

/-- The address record put in a local answer for the question `q`. -/
def answerRecord (q : dns.Question) (addr : net.IP) : dns.RR :=
  { Hdr := { Name := q.Name, Rrtype := dns.TypeA, Class := dns.ClassINET, Ttl := 30,
             Rdlength := 4 },
    A := addr }

/-- The message written by `respondSuccessively` for the question `q` of `r`. -/
def localReply (r : dns.Msg) (q : dns.Question) (addr : net.IP) : dns.Msg :=
  { ({} : dns.Msg).SetReply r with
    Answer := [answerRecord q addr], Authoritative := false }

/-- The message written by `refuseWithCode req code`. -/
def refusalMsg (req : dns.Msg) (code : Int) : dns.Msg :=
  (req.Extra.foldl
    (fun m r => if r.Hdr.Rrtype = dns.TypeOPT then m.SetEdns0 4096 r.Do else m)
    ({} : dns.Msg)).SetRcode req code

/-- The state in which a call ended, whether it returned or panicked. -/
def Result.run {α : Type} : Result α → Run
  | .ok _ s => s
  | .panic s => s

/-- The run `s` with another override table installed. -/
def Run.withDatabase (s : Run) (db : List (String × String)) : Run :=
  { s with self := { s.self with Database := db } }

/-- The nine ways the body of `ServeDNS` can run for a request `r` from a state `s`,
each with the conditions under which it is taken and the outcome it produces. -/
inductive Path (env : Env) (r : dns.Msg) (s : Run) : Result Unit → Prop where
  /-- The fault trigger: `tryAnswer` panics on the name `panic.com`. -/
  | fault (q : dns.Question) (hq : getSingleSimpleQuestion r = some q)
      (hname : strings.TrimSuffix q.Name "." = "panic.com") :
      Path env r s (.panic (Count "requests" s))
  /-- The local answer: the name resolves to a target that does not look like a
  domain name. -/
  | localAnswer (q : dns.Question) (value : String)
      (hq : getSingleSimpleQuestion r = some q)
      (hname : strings.TrimSuffix q.Name "." ≠ "panic.com")
      (hfound : lookup s.self.Database (strings.TrimSuffix q.Name ".") = some value)
      (hip : looksLikeDomainName value = false) :
      Path env r s
        (.ok () ((Count "local_responses" (Count "requests" s)).WriteMsg
          (localReply r q (env.ParseIP value))))
  /-- The redirect with an empty server list: `rand.Intn(0)` panics. -/
  | redirectEmpty (q : dns.Question) (value : String)
      (hq : getSingleSimpleQuestion r = some q)
      (hname : strings.TrimSuffix q.Name "." ≠ "panic.com")
      (hfound : lookup s.self.Database (strings.TrimSuffix q.Name ".") = some value)
      (hdom : looksLikeDomainName value = true) (hsrv : s.self.Servers = []) :
      Path env r s
        (.panic (Count "upstream_queries" (Count "redirected_requests"
          (Count "requests" s))))
  /-- The redirect whose exchange fails. -/
  | redirectError (q : dns.Question) (value server e : String)
      (hq : getSingleSimpleQuestion r = some q)
      (hname : strings.TrimSuffix q.Name "." ≠ "panic.com")
      (hfound : lookup s.self.Database (strings.TrimSuffix q.Name ".") = some value)
      (hdom : looksLikeDomainName value = true)
      (hpick : s.self.Servers[env.seed % s.self.Servers.length]? = some server)
      (hx : env.Exchange (redirectQuestion env.Id value) server = .error e) :
      Path env r s
        (.ok () (refuse r (Count "upstream_errors"
          ((Count "upstream_queries" (Count "redirected_requests"
            (Count "requests" s))).Exchange (redirectQuestion env.Id value) server))))
  /-- The redirect whose exchange succeeds without a single simple answer. -/
  | redirectNowhere (q : dns.Question) (value server : String) (response : dns.Msg)
      (hq : getSingleSimpleQuestion r = some q)
      (hname : strings.TrimSuffix q.Name "." ≠ "panic.com")
      (hfound : lookup s.self.Database (strings.TrimSuffix q.Name ".") = some value)
      (hdom : looksLikeDomainName value = true)
      (hpick : s.self.Servers[env.seed % s.self.Servers.length]? = some server)
      (hx : env.Exchange (redirectQuestion env.Id value) server = .ok response)
      (ha : getSingleSimpleAnswer response = none) :
      Path env r s
        (.ok () (refuse r (Count "redirected_nowhere"
          ((Count "upstream_queries" (Count "redirected_requests"
            (Count "requests" s))).Exchange (redirectQuestion env.Id value) server))))
  /-- The redirect whose exchange succeeds with a single simple answer. -/
  | redirectSuccess (q : dns.Question) (value server : String) (response : dns.Msg)
      (ip : net.IP) (hq : getSingleSimpleQuestion r = some q)
      (hname : strings.TrimSuffix q.Name "." ≠ "panic.com")
      (hfound : lookup s.self.Database (strings.TrimSuffix q.Name ".") = some value)
      (hdom : looksLikeDomainName value = true)
      (hpick : s.self.Servers[env.seed % s.self.Servers.length]? = some server)
      (hx : env.Exchange (redirectQuestion env.Id value) server = .ok response)
      (ha : getSingleSimpleAnswer response = some ip) :
      Path env r s
        (.ok () ((Count "redirected_successively"
          ((Count "upstream_queries" (Count "redirected_requests"
            (Count "requests" s))).Exchange (redirectQuestion env.Id value) server)).WriteMsg
          (localReply r q ip)))
  /-- The proxy with an empty server list: `rand.Intn(0)` panics. -/
  | proxyEmpty
      (ht : tryAnswer env r (Count "requests" s) = .ok false (Count "requests" s))
      (hsrv : s.self.Servers = []) :
      Path env r s
        (.panic (Count "upstream_queries" (Count "proxied_requests"
          (Count "requests" s))))
  /-- The proxy whose exchange fails. -/
  | proxyError (server e : String)
      (ht : tryAnswer env r (Count "requests" s) = .ok false (Count "requests" s))
      (hpick : s.self.Servers[env.seed % s.self.Servers.length]? = some server)
      (hx : env.Exchange r server = .error e) :
      Path env r s
        (.ok () (refuse r (Count "upstream_errors"
          ((Count "upstream_queries" (Count "proxied_requests"
            (Count "requests" s))).Exchange r server))))
  /-- The proxy whose exchange succeeds. -/
  | proxySuccess (server : String) (response : dns.Msg)
      (ht : tryAnswer env r (Count "requests" s) = .ok false (Count "requests" s))
      (hpick : s.self.Servers[env.seed % s.self.Servers.length]? = some server)
      (hx : env.Exchange r server = .ok response) :
      Path env r s
        (.ok () ((if response.Answer.length = 0 then
              Count "proxied_refusals"
                ((Count "upstream_queries" (Count "proxied_requests"
                  (Count "requests" s))).Exchange r server)
            else (Count "upstream_queries" (Count "proxied_requests"
              (Count "requests" s))).Exchange r server).WriteMsg response))

/-- The string is written with decimal digits and dots only, as every IPv4 literal
is. -/
def dottedDecimal (t : String) : Bool :=
  t.data.all (fun c => c.isDigit || c == '.')

/-- The kinds of path through the state machine of the resolution engine. -/
inductive PathKind where
  /-- The fault trigger. -/
  | faultTrigger
  /-- AnswerLocal from the table. -/
  | localAnswer
  /-- Redirect, no upstream server to pick. -/
  | redirectEmpty
  /-- Redirect, exchange error. -/
  | redirectError
  /-- Redirect, no usable answer. -/
  | redirectNowhere
  /-- Redirect, one usable answer. -/
  | redirectSuccess
  /-- Proxy, no upstream server to pick. -/
  | proxyEmpty
  /-- Proxy, exchange error. -/
  | proxyError
  /-- Proxy, response relayed. -/
  | proxySuccess
deriving DecidableEq, Repr

/-- The paths on which the engine itself refuses the request: a redirect or a proxy
whose exchange failed, and a redirect without a usable answer. -/
def PathKind.refuses : PathKind → Bool
  | .redirectError | .redirectNowhere | .proxyError => true
  | _ => false

/-- The fault paths: the fault trigger, and an upstream needed with no server to
pick. -/
def PathKind.faults : PathKind → Bool
  | .faultTrigger | .redirectEmpty | .proxyEmpty => true
  | _ => false

/-- The Proxy state of the specification: which of its outcomes a request gets. -/
def proxyKind (env : Env) (r : dns.Msg) (s : Run) : PathKind :=
  match s.self.Servers[env.seed % s.self.Servers.length]? with
  | none => .proxyEmpty
  | some server =>
    match env.Exchange r server with
    | .error _ => .proxyError
    | .ok _ => .proxySuccess

/-- The state machine of the specification (section 4.3, with the fault trigger and
the empty server list): the path a request takes, decided from the request, the
override table, the server picked and the outcome of the exchange. -/
def pathOf (env : Env) (r : dns.Msg) (s : Run) : PathKind :=
  match getSingleSimpleQuestion r with
  | none => proxyKind env r s
  | some q =>
    if strings.TrimSuffix q.Name "." = "panic.com" then .faultTrigger
    else
      match lookup s.self.Database (strings.TrimSuffix q.Name ".") with
      | none => proxyKind env r s
      | some target =>
        if looksLikeDomainName target then
          match s.self.Servers[env.seed % s.self.Servers.length]? with
          | none => .redirectEmpty
          | some server =>
            match env.Exchange (redirectQuestion env.Id target) server with
            | .error _ => .redirectError
            | .ok response =>
              if getSingleSimpleAnswer response = none then .redirectNowhere
              else .redirectSuccess
        else .localAnswer

/-- The state in which `ServeDNS` ends, given the outcome of its body: the deferred
function calls `refuseOnPanic` after a panic. -/
def recovered (r : dns.Msg) : Result Unit → Run
  | .ok _ s => s
  | .panic s => refuseOnPanic r s

/-- What one line of the hosts file contributes to the override table, in the words
of the specification: the line is cut at its first `#`, trimmed and split on white
space, and it contributes the pair of its two fields if it has exactly two. -/
def contribution (line : String) : Option (String × String) :=
  match strings.Fields
      (strings.TrimSpace (String.mk (line.data.takeWhile (fun c => c ≠ '#')))) with
  | [domain, target] => some (domain, target)
  | _ => none

/-- Last-loaded wins: the target of the last pair of `pairs` whose domain is
`domain`. -/
def lastTarget (pairs : List (String × String)) (domain : String) : Option String :=
  mapGet pairs.reverse domain

/-- The address specifies a port, in the `host:port` syntax of the network library:
decimal digits follow its last colon, and the host before that colon has no colon of
its own unless it is written in brackets, as in `[::1]:53`. -/
def specifiesPort (addr : String) : Bool :=
  let port := (addr.data.reverse.takeWhile (fun c => c ≠ ':')).reverse
  match addr.data.reverse.dropWhile (fun c => c ≠ ':') with
  | [] => false
  | _ :: hostReversed =>
    let host := hostReversed.reverse
    !port.isEmpty && port.all Char.isDigit &&
      (!host.contains ':' || (host.head? = some '[' && host.getLast? = some ']'))

/-! ## Inputs used in the examples -/

/-- A query with the single question `name`, type A, class IN. -/
def queryA (name : String) : dns.Msg :=
  { Id := 4660, RecursionDesired := true,
    Question := [⟨name, dns.TypeA, dns.ClassINET⟩] }

/-- A response whose answer section is the single record `rr`. -/
def responseWith (rr : dns.RR) : dns.Msg :=
  { Id := 1, Response := true, Answer := [rr] }

/-- The override table of the concrete scenario of the specification. -/
def scenarioTable : List (String × String) :=
  [("foo.test", "1.2.3.4"), ("*.bar.test", "baz.test"), ("baz.test", "5.6.7.8")]

/-- A server with the scenario table, one upstream server and no counter yet. -/
def scenarioRun : Run :=
  { self := { Servers := ["192.0.2.1:53"], Database := scenarioTable, stats := [] } }

/-- An environment in which the upstream answers the question `baz.test.` with the
address 5.6.7.8 and fails on every other question. -/
def scenarioEnv : Env :=
  { ParseIP := fun s =>
      if s = "1.2.3.4" then [0, 0, 0, 0, 0, 0, 0, 0, 0, 0, 255, 255, 1, 2, 3, 4] else [],
    seed := 0,
    Id := 1,
    Exchange := fun m _ =>
      if m.Question = [⟨"baz.test.", dns.TypeA, dns.ClassINET⟩] then
        .ok (responseWith
          { Hdr := { Name := "baz.test.", Rrtype := dns.TypeA, Class := dns.ClassINET,
                     Ttl := 300, Rdlength := 4 },
            A := [5, 6, 7, 8] })
      else .error "i/o timeout" }

/-- An A record for `baz.test.` whose class is CHAOS (3), not IN. -/
def chaosRecord : dns.RR :=
  { Hdr := { Name := "baz.test.", Rrtype := dns.TypeA, Class := 3, Ttl := 300,
             Rdlength := 4 },
    A := [5, 6, 7, 8] }

/-- An environment whose upstream answers every query with `chaosRecord` alone. -/
def chaosEnv : Env :=
  { ParseIP := fun _ => [], seed := 0, Id := 1,
    Exchange := fun _ _ => .ok (responseWith chaosRecord) }

/-- An environment whose upstream answers every query with a CNAME record followed
by one A record. -/
def cnameEnv : Env :=
  { ParseIP := fun _ => [], seed := 0, Id := 1,
    Exchange := fun _ _ =>
      .ok { Id := 1, Response := true,
            Answer :=
              [{ Hdr := { Name := "baz.test.", Rrtype := 5, Class := dns.ClassINET,
                          Ttl := 300, Rdlength := 10 } },
               { Hdr := { Name := "qux.test.", Rrtype := dns.TypeA,
                          Class := dns.ClassINET, Ttl := 300, Rdlength := 4 },
                 A := [5, 6, 7, 8] }] } }

/-- A query for `other.test.` that carries one OPT record with UDP size 1232 and
the DO bit set. -/
def ednsQuery : dns.Msg :=
  { Id := 4662, RecursionDesired := true,
    Question := [⟨"other.test.", dns.TypeA, dns.ClassINET⟩],
    Extra := [{ Hdr := { Name := ".", Rrtype := dns.TypeOPT, Class := 1232,
                         Ttl := 2 ^ 15 } }] }

/-- The scenario server without any upstream server. -/
def orphanRun : Run :=
  { self := { Servers := [], Database := scenarioTable, stats := [] } }

/-- A server whose table has two targets without a lowercase letter that are not IP
addresses. -/
def oddTargetsRun : Run :=
  { self := { Servers := ["192.0.2.1:53"],
              Database := [("shout.test", "EXAMPLE.COM"), ("short.test", "1.2.3")],
              stats := [] } }

/-- The scenario server after a very long run: the counters named are at
`math.MaxInt`. -/
def saturatedRun : Run :=
  { self :=
      { Servers := ["192.0.2.1:53"], Database := scenarioTable,
        stats :=
          [("requests", math.MaxInt), ("local_responses", math.MaxInt),
           ("refusals", math.MaxInt), ("panic_refusals", math.MaxInt),
           ("redirected_successively", math.MaxInt),
           ("upstream_errors", math.MaxInt)] } }

/-- A server whose table has the single key `panic.com`, the fault trigger. -/
def triggerRun (target : String) (servers : List String) : Run :=
  { self := { Servers := servers, Database := [("panic.com", target)], stats := [] } }

/-- A server whose table maps `six.test` to the IPv6 literal `fe80::1`. -/
def sixRun (servers : List String) : Run :=
  { self := { Servers := servers, Database := [("six.test", "fe80::1")], stats := [] } }

/-- An environment in which `net.ParseIP` knows the literal `fe80::1` and the
upstream fails on every question. -/
def sixEnv : Env :=
  { ParseIP := fun s =>
      if s = "fe80::1" then [254, 128, 0, 0, 0, 0, 0, 0, 0, 0, 0, 0, 0, 0, 0, 1] else [],
    seed := 0,
    Id := 1,
    Exchange := fun _ _ => .error "i/o timeout" }

/-! ## The type `int` and the counters -/

theorem int_add_one (v : Int) (hlo : math.MinInt ≤ v) (hhi : v < math.MaxInt) :
    int.add v 1 = v + 1 := by
  unfold int.add
  unfold math.MinInt at hlo
  unfold math.MaxInt at hhi
  omega

@[simp] theorem int_add_one_ne (v : Int) : int.add v 1 ≠ v := by
  unfold int.add
  omega

@[simp] theorem int_ne_add_one (v : Int) : v ≠ int.add v 1 :=
  fun h => int_add_one_ne v h.symm

theorem int_add_one_le (v : Int) (hlo : math.MinInt ≤ v) : int.add v 1 ≤ v + 1 := by
  unfold int.add
  unfold math.MinInt at hlo
  omega

theorem int_add_MaxInt : int.add math.MaxInt 1 = math.MinInt := by decide

/-! ## Counters, writes and exchanges -/

theorem mapGet_mapSet {V : Type} (m : List (String × V)) (k k' : String) (v : V) :
    mapGet (mapSet m k v) k' = if k = k' then some v else mapGet m k' := by
  induction m with
  | nil => simp [mapSet, mapGet]
  | cons hd tl ih =>
    obtain ⟨a, b⟩ := hd
    by_cases h : a = k
    · subst h
      by_cases h' : a = k' <;> simp [mapSet, mapGet, h']
    · by_cases h' : k = k'
      · subst h'
        simp [mapSet, mapGet, h, ih]
      · by_cases h2 : a = k'
        · subst h2
          simp [mapSet, mapGet, h, h']
        · simp [mapSet, mapGet, h, h', h2, ih]

theorem stat_Count (n k : String) (s : Run) :
    (Count n s).stat k = if n = k then int.add (s.stat k) 1 else s.stat k := by
  unfold Run.stat Count statValue
  simp only [mapGet_mapSet]
  split <;> simp_all

@[simp] theorem written_Count (n : String) (s : Run) : (Count n s).written = s.written := rfl

@[simp] theorem exchanged_Count (n : String) (s : Run) :
    (Count n s).exchanged = s.exchanged := rfl

@[simp] theorem Servers_Count (n : String) (s : Run) :
    (Count n s).self.Servers = s.self.Servers := rfl

@[simp] theorem Database_Count (n : String) (s : Run) :
    (Count n s).self.Database = s.self.Database := rfl

@[simp] theorem written_WriteMsg (s : Run) (m : dns.Msg) :
    (s.WriteMsg m).written = s.written ++ [m] := rfl

@[simp] theorem exchanged_WriteMsg (s : Run) (m : dns.Msg) :
    (s.WriteMsg m).exchanged = s.exchanged := rfl

@[simp] theorem stat_WriteMsg (s : Run) (m : dns.Msg) (k : String) :
    (s.WriteMsg m).stat k = s.stat k := rfl

@[simp] theorem self_WriteMsg (s : Run) (m : dns.Msg) : (s.WriteMsg m).self = s.self := rfl

@[simp] theorem written_Exchange (s : Run) (m : dns.Msg) (u : String) :
    (s.Exchange m u).written = s.written := rfl

@[simp] theorem exchanged_Exchange (s : Run) (m : dns.Msg) (u : String) :
    (s.Exchange m u).exchanged = s.exchanged ++ [(m, u)] := rfl

@[simp] theorem stat_Exchange (s : Run) (m : dns.Msg) (u : String) (k : String) :
    (s.Exchange m u).stat k = s.stat k := rfl

@[simp] theorem self_Exchange (s : Run) (m : dns.Msg) (u : String) :
    (s.Exchange m u).self = s.self := rfl

theorem exchangeWithUpstream_pick (env : Env) (r : dns.Msg) (s : Run) (server : String)
    (hpick : s.self.Servers[env.seed % s.self.Servers.length]? = some server) :
    exchangeWithUpstream env r s
      = .ok (env.Exchange r server) ((Count "upstream_queries" s).Exchange r server) := by
  have hne : s.self.Servers.length ≠ 0 := by
    intro h0
    rw [List.getElem?_eq_none (by omega)] at hpick
    cases hpick
  simp [exchangeWithUpstream, Env.Intn, hne, hpick]

theorem exchangeWithUpstream_empty (env : Env) (r : dns.Msg) (s : Run)
    (hsrv : s.self.Servers = []) :
    exchangeWithUpstream env r s = .panic (Count "upstream_queries" s) := by
  simp [exchangeWithUpstream, Env.Intn, hsrv]

theorem exists_pick (env : Env) (s : Run) (hsrv : s.self.Servers ≠ []) :
    ∃ server ∈ s.self.Servers,
      s.self.Servers[env.seed % s.self.Servers.length]? = some server := by
  have hpos : 0 < s.self.Servers.length := List.length_pos.mpr hsrv
  have hlt : env.seed % s.self.Servers.length < s.self.Servers.length := Nat.mod_lt _ hpos
  exact ⟨s.self.Servers[env.seed % s.self.Servers.length], List.getElem_mem _,
    List.getElem?_eq_getElem hlt⟩

/-! ## The override lookup -/

theorem intercalate_go_append (a b s : String) (l : List String) :
    String.intercalate.go (a ++ b) s l = a ++ String.intercalate.go b s l := by
  induction l generalizing b with
  | nil => simp [String.intercalate.go]
  | cons x xs ih =>
    simp only [String.intercalate.go]
    rw [String.append_assoc, String.append_assoc, ih, String.append_assoc]

theorem Join_star (p : String) (rest : List String) :
    strings.Join ("*" :: p :: rest) "." = "*." ++ strings.Join (p :: rest) "." := by
  simp only [strings.Join, String.intercalate, String.intercalate.go]
  have h : "*" ++ "." ++ p = "*." ++ p := by
    rw [show ("*" : String) ++ "." = "*." from by decide]
  rw [h, intercalate_go_append]

theorem wildcardCandidates_cons (l0 p : String) (rest : List String) :
    wildcardCandidates (l0 :: p :: rest)
      = ("*." ++ strings.Join (p :: rest) ".") :: wildcardCandidates (p :: rest) := by
  simp only [wildcardCandidates, List.length_cons, Nat.add_sub_cancel]
  rw [List.range_succ_eq_map]
  simp [Function.comp_def]

theorem wildcardLoop_eq (db : List (String × String)) (labels : List String) :
    wildcardLoop db labels = (wildcardCandidates labels).findSome? (mapGet db) := by
  induction labels with
  | nil => simp [wildcardLoop, wildcardCandidates]
  | cons l0 tl ih =>
    cases tl with
    | nil => simp [wildcardLoop, wildcardCandidates]
    | cons p rest =>
      rw [wildcardCandidates_cons, wildcardLoop, Join_star, List.findSome?_cons]
      cases h : mapGet db ("*." ++ strings.Join (p :: rest) ".") with
      | none => simpa using ih
      | some v => simp

theorem lookup_eq_lookupSpec (db : List (String × String)) (name : String) :
    lookup db name = lookupSpec db name := by
  unfold lookup lookupSpec
  cases mapGet db name with
  | some v => rfl
  | none => exact wildcardLoop_eq db _

/-! ## The paths of `ServeDNS` -/

theorem respondSuccessively_eligible (r : dns.Msg) (q : dns.Question) (addr : net.IP)
    (s : Run) (hq : getSingleSimpleQuestion r = some q) :
    respondSuccessively r addr s
      = .ok () (s.WriteMsg
          { ({} : dns.Msg).SetReply r with
            Answer := [{ Hdr := { Name := q.Name, Rrtype := dns.TypeA,
                                  Class := dns.ClassINET, Ttl := 30, Rdlength := 4 },
                         A := addr }],
            Authoritative := false }) := by
  simp [respondSuccessively, hq]

theorem tryAnswer_ineligible (env : Env) (r : dns.Msg) (s : Run)
    (hq : getSingleSimpleQuestion r = none) : tryAnswer env r s = .ok false s := by
  simp [tryAnswer, hq]

theorem tryAnswer_panic (env : Env) (r : dns.Msg) (q : dns.Question) (s : Run)
    (hq : getSingleSimpleQuestion r = some q)
    (hname : strings.TrimSuffix q.Name "." = "panic.com") :
    tryAnswer env r s = .panic s := by
  simp [tryAnswer, hq, hname]

theorem tryAnswer_miss (env : Env) (r : dns.Msg) (q : dns.Question) (s : Run)
    (hq : getSingleSimpleQuestion r = some q)
    (hname : strings.TrimSuffix q.Name "." ≠ "panic.com")
    (hmiss : lookup s.self.Database (strings.TrimSuffix q.Name ".") = none) :
    tryAnswer env r s = .ok false s := by
  simp [tryAnswer, hq, hname, hmiss]

theorem tryAnswer_local (env : Env) (r : dns.Msg) (q : dns.Question) (s : Run)
    (value : String) (hq : getSingleSimpleQuestion r = some q)
    (hname : strings.TrimSuffix q.Name "." ≠ "panic.com")
    (hfound : lookup s.self.Database (strings.TrimSuffix q.Name ".") = some value)
    (hip : looksLikeDomainName value = false) :
    tryAnswer env r s
      = .ok true ((Count "local_responses" s).WriteMsg
          { ({} : dns.Msg).SetReply r with
            Answer := [{ Hdr := { Name := q.Name, Rrtype := dns.TypeA,
                                  Class := dns.ClassINET, Ttl := 30, Rdlength := 4 },
                         A := env.ParseIP value }],
            Authoritative := false }) := by
  simp [tryAnswer, hq, hname, hfound, hip, respondSuccessively_eligible _ q]

theorem tryAnswer_redirect (env : Env) (r : dns.Msg) (q : dns.Question) (s : Run)
    (value : String) (hq : getSingleSimpleQuestion r = some q)
    (hname : strings.TrimSuffix q.Name "." ≠ "panic.com")
    (hfound : lookup s.self.Database (strings.TrimSuffix q.Name ".") = some value)
    (hdom : looksLikeDomainName value = true) :
    tryAnswer env r s
      = match redirectQuery env r value s with
        | .panic s => .panic s
        | .ok _ s => .ok true s := by
  simp only [tryAnswer, hq, hname, hfound, hdom, if_true, if_false]

theorem tryAnswer_false_iff (env : Env) (r : dns.Msg) (q : dns.Question) (s : Run)
    (hq : getSingleSimpleQuestion r = some q)
    (hname : strings.TrimSuffix q.Name "." ≠ "panic.com") :
    (∃ s', tryAnswer env r s = .ok false s')
      ↔ lookup s.self.Database (strings.TrimSuffix q.Name ".") = none := by
  constructor
  · rintro ⟨s', h⟩
    cases hl : lookup s.self.Database (strings.TrimSuffix q.Name ".") with
    | none => rfl
    | some value =>
      exfalso
      cases hd : looksLikeDomainName value with
      | false =>
        rw [tryAnswer_local env r q s value hq hname hl hd] at h
        cases h
      | true =>
        rw [tryAnswer_redirect env r q s value hq hname hl hd] at h
        cases hr : redirectQuery env r value s with
        | ok a s2 => rw [hr] at h; cases h
        | panic s2 => rw [hr] at h; cases h
  · intro hl
    exact ⟨s, tryAnswer_miss env r q s hq hname hl⟩

theorem lookup_none_iff (db : List (String × String)) (name : String) :
    lookup db name = none ↔
      mapGet db name = none ∧
        ∀ c ∈ wildcardCandidates (strings.Split name '.'), mapGet db c = none := by
  rw [lookup_eq_lookupSpec]
  unfold lookupSpec
  cases h : mapGet db name with
  | some v => simp
  | none => simp [List.findSome?_eq_none_iff]

theorem HasSuffix_dot (s : String) :
    strings.HasSuffix s "." = true ↔ s.data.getLast? = some '.' := by
  unfold strings.HasSuffix
  rw [List.isSuffixOf_iff_suffix, List.getLast?_eq_some_iff]
  constructor
  · rintro ⟨t, ht⟩
    exact ⟨t, ht.symm⟩
  · rintro ⟨t, ht⟩
    exact ⟨t, ht.symm⟩

theorem HasSuffix_dot_append (s : String) : strings.HasSuffix (s ++ ".") "." = true := by
  rw [HasSuffix_dot]
  simp [String.data_append]

theorem fullyQualified_eq (target : String) :
    (if ¬ strings.HasSuffix target "." then target ++ "." else target)
      = fullyQualified target := by
  unfold fullyQualified
  by_cases h : strings.HasSuffix target "." = true <;> simp [h]

theorem HasSuffix_fullyQualified (target : String) :
    strings.HasSuffix (fullyQualified target) "." = true := by
  unfold fullyQualified
  by_cases h : strings.HasSuffix target "." = true
  · simp [h]
  · simp [h, HasSuffix_dot_append]

/-- A name that ends with a dot and has no backslash is fully qualified for the
library. -/
theorem IsFqdn_of_no_escape (s : String) (hdot : strings.HasSuffix s "." = true)
    (hesc : '\\' ∉ s.data) : dns.IsFqdn s = true := by
  have hlast := (HasSuffix_dot s).mp hdot
  unfold dns.IsFqdn
  cases hr : s.data.reverse with
  | nil =>
    have : s.data = [] := by simpa using hr
    rw [this] at hlast
    cases hlast
  | cons c rest =>
    have hs : s.data = rest.reverse ++ [c] := by
      have := congrArg List.reverse hr
      simpa using this
    have hc : c = '.' := by
      rw [hs] at hlast
      simpa using hlast
    subst hc
    cases rest with
    | nil => simp
    | cons e tl =>
      have he : e ≠ '\\' := by
        intro h
        apply hesc
        rw [hs, h]
        simp
      simp [he]

/-- For a target without a backslash `dns.Fqdn` leaves the target with one trailing
dot as it is. -/
theorem Fqdn_fullyQualified (target : String) (hesc : '\\' ∉ target.data) :
    dns.Fqdn (fullyQualified target) = fullyQualified target := by
  have h : dns.IsFqdn (fullyQualified target) = true := by
    apply IsFqdn_of_no_escape _ (HasSuffix_fullyQualified target)
    unfold fullyQualified
    by_cases hd : strings.HasSuffix target "." = true
    · simpa [hd] using hesc
    · simp only [hd]
      simp [String.data_append, hesc]
  simp [dns.Fqdn, h]

theorem eligible_question (r : dns.Msg) (q : dns.Question)
    (hq : getSingleSimpleQuestion r = some q) :
    r.Question = [q] ∧ q.Qtype = dns.TypeA ∧ q.Qclass = dns.ClassINET := by
  unfold getSingleSimpleQuestion at hq
  split at hq
  · rename_i q' hq'
    split at hq
    · cases hq
    · rename_i hne
      simp only [not_or, not_not] at hne
      cases hq
      exact ⟨hq', hne.1, hne.2⟩
  · cases hq

theorem SetReply_fields (r : dns.Msg) :
    (({} : dns.Msg).SetReply r).Id = r.Id ∧ (({} : dns.Msg).SetReply r).Response = true ∧
    (({} : dns.Msg).SetReply r).Rcode = dns.RcodeSuccess ∧
    (({} : dns.Msg).SetReply r).Answer = [] ∧ (({} : dns.Msg).SetReply r).Extra = [] ∧
    (({} : dns.Msg).SetReply r).Question = r.Question.take 1 := by
  unfold dns.Msg.SetReply
  cases hQ : r.Question <;> simp only [] <;> split <;> simp

theorem refuseWithCode_eq_WriteMsg (req : dns.Msg) (code : Int) (s : Run) :
    refuseWithCode req code s = s.WriteMsg (refusalMsg req code) := rfl

theorem respondSuccessively_localReply (r : dns.Msg) (q : dns.Question) (addr : net.IP)
    (s : Run) (hq : getSingleSimpleQuestion r = some q) :
    respondSuccessively r addr s = .ok () (s.WriteMsg (localReply r q addr)) := by
  simp [respondSuccessively, hq, localReply, answerRecord]

theorem redirectQuestion_eq (id : Nat) (target : String) :
    ({} : dns.Msg).SetQuestion id
        (dns.Fqdn (if ¬ strings.HasSuffix target "." then target ++ "." else target))
        dns.TypeA
      = redirectQuestion id target := by
  rw [fullyQualified_eq]
  rfl

theorem redirectQuery_error (env : Env) (r : dns.Msg) (target : String) (s : Run)
    (server e : String)
    (hpick : s.self.Servers[env.seed % s.self.Servers.length]? = some server)
    (hx : env.Exchange (redirectQuestion env.Id target) server = .error e) :
    redirectQuery env r target s
      = .ok () (refuse r (Count "upstream_errors"
          ((Count "upstream_queries" (Count "redirected_requests" s)).Exchange
            (redirectQuestion env.Id target) server))) := by
  unfold redirectQuery
  simp only [redirectQuestion_eq]
  rw [exchangeWithUpstream_pick env _ _ server (by simpa using hpick), hx]

theorem redirectQuery_nowhere (env : Env) (r : dns.Msg) (target : String) (s : Run)
    (server : String) (response : dns.Msg)
    (hpick : s.self.Servers[env.seed % s.self.Servers.length]? = some server)
    (hx : env.Exchange (redirectQuestion env.Id target) server = .ok response)
    (ha : getSingleSimpleAnswer response = none) :
    redirectQuery env r target s
      = .ok () (refuse r (Count "redirected_nowhere"
          ((Count "upstream_queries" (Count "redirected_requests" s)).Exchange
            (redirectQuestion env.Id target) server))) := by
  unfold redirectQuery
  simp only [redirectQuestion_eq]
  rw [exchangeWithUpstream_pick env _ _ server (by simpa using hpick), hx]
  simp only [ha]

theorem redirectQuery_success (env : Env) (r : dns.Msg) (target : String) (s : Run)
    (server : String) (response : dns.Msg) (ip : net.IP)
    (hpick : s.self.Servers[env.seed % s.self.Servers.length]? = some server)
    (hx : env.Exchange (redirectQuestion env.Id target) server = .ok response)
    (ha : getSingleSimpleAnswer response = some ip) :
    redirectQuery env r target s
      = respondSuccessively r ip (Count "redirected_successively"
          ((Count "upstream_queries" (Count "redirected_requests" s)).Exchange
            (redirectQuestion env.Id target) server)) := by
  unfold redirectQuery
  simp only [redirectQuestion_eq]
  rw [exchangeWithUpstream_pick env _ _ server (by simpa using hpick), hx]
  simp only [ha]

theorem redirectQuery_empty (env : Env) (r : dns.Msg) (target : String) (s : Run)
    (hsrv : s.self.Servers = []) :
    redirectQuery env r target s
      = .panic (Count "upstream_queries" (Count "redirected_requests" s)) := by
  unfold redirectQuery
  simp only [redirectQuestion_eq]
  rw [exchangeWithUpstream_empty env _ _ (by simpa using hsrv)]

theorem proxyToUpstream_error (env : Env) (r : dns.Msg) (s : Run) (server e : String)
    (hpick : s.self.Servers[env.seed % s.self.Servers.length]? = some server)
    (hx : env.Exchange r server = .error e) :
    proxyToUpstream env r s
      = .ok () (refuse r (Count "upstream_errors"
          ((Count "upstream_queries" (Count "proxied_requests" s)).Exchange r server))) := by
  unfold proxyToUpstream
  simp only []
  rw [exchangeWithUpstream_pick env _ _ server (by simpa using hpick), hx]

theorem proxyToUpstream_success (env : Env) (r : dns.Msg) (s : Run) (server : String)
    (response : dns.Msg)
    (hpick : s.self.Servers[env.seed % s.self.Servers.length]? = some server)
    (hx : env.Exchange r server = .ok response) :
    proxyToUpstream env r s
      = .ok () ((if response.Answer.length = 0 then
            Count "proxied_refusals"
              ((Count "upstream_queries" (Count "proxied_requests" s)).Exchange r server)
          else (Count "upstream_queries" (Count "proxied_requests" s)).Exchange r server).WriteMsg
          response) := by
  unfold proxyToUpstream
  simp only []
  rw [exchangeWithUpstream_pick env _ _ server (by simpa using hpick), hx]

theorem proxyToUpstream_empty (env : Env) (r : dns.Msg) (s : Run)
    (hsrv : s.self.Servers = []) :
    proxyToUpstream env r s
      = .panic (Count "upstream_queries" (Count "proxied_requests" s)) := by
  unfold proxyToUpstream
  simp only []
  rw [exchangeWithUpstream_empty env _ _ (by simpa using hsrv)]

theorem ServeDNS_local (env : Env) (r : dns.Msg) (q : dns.Question) (s : Run)
    (value : String) (hq : getSingleSimpleQuestion r = some q)
    (hname : strings.TrimSuffix q.Name "." ≠ "panic.com")
    (hfound : lookup s.self.Database (strings.TrimSuffix q.Name ".") = some value)
    (hip : looksLikeDomainName value = false) :
    ServeDNS env r s
      = .ok () ((Count "local_responses" (Count "requests" s)).WriteMsg
          (localReply r q (env.ParseIP value))) := by
  have h := tryAnswer_local env r q (Count "requests" s) value hq hname
    (by simpa using hfound) hip
  simp only [ServeDNS, ServeDNS.body, h]
  rfl

theorem ServeDNS_panic (env : Env) (r : dns.Msg) (q : dns.Question) (s : Run)
    (hq : getSingleSimpleQuestion r = some q)
    (hname : strings.TrimSuffix q.Name "." = "panic.com") :
    ServeDNS.body env r s = .panic (Count "requests" s) ∧
      ServeDNS env r s = .ok () (refuseOnPanic r (Count "requests" s)) := by
  have h := tryAnswer_panic env r q (Count "requests" s) hq hname
  simp only [ServeDNS, ServeDNS.body, h, and_self]

theorem ServeDNS_redirect_error (env : Env) (r : dns.Msg) (q : dns.Question) (s : Run)
    (value server e : String) (hq : getSingleSimpleQuestion r = some q)
    (hname : strings.TrimSuffix q.Name "." ≠ "panic.com")
    (hfound : lookup s.self.Database (strings.TrimSuffix q.Name ".") = some value)
    (hdom : looksLikeDomainName value = true)
    (hpick : s.self.Servers[env.seed % s.self.Servers.length]? = some server)
    (hx : env.Exchange (redirectQuestion env.Id value) server = .error e) :
    ServeDNS env r s
      = .ok () (refuse r (Count "upstream_errors"
          ((Count "upstream_queries" (Count "redirected_requests"
            (Count "requests" s))).Exchange (redirectQuestion env.Id value) server))) := by
  have h := tryAnswer_redirect env r q (Count "requests" s) value hq hname
    (by simpa using hfound) hdom
  rw [redirectQuery_error env r value _ server e (by simpa using hpick) hx] at h
  simp only [ServeDNS, ServeDNS.body, h]

theorem ServeDNS_redirect_nowhere (env : Env) (r : dns.Msg) (q : dns.Question) (s : Run)
    (value server : String) (response : dns.Msg)
    (hq : getSingleSimpleQuestion r = some q)
    (hname : strings.TrimSuffix q.Name "." ≠ "panic.com")
    (hfound : lookup s.self.Database (strings.TrimSuffix q.Name ".") = some value)
    (hdom : looksLikeDomainName value = true)
    (hpick : s.self.Servers[env.seed % s.self.Servers.length]? = some server)
    (hx : env.Exchange (redirectQuestion env.Id value) server = .ok response)
    (ha : getSingleSimpleAnswer response = none) :
    ServeDNS env r s
      = .ok () (refuse r (Count "redirected_nowhere"
          ((Count "upstream_queries" (Count "redirected_requests"
            (Count "requests" s))).Exchange (redirectQuestion env.Id value) server))) := by
  have h := tryAnswer_redirect env r q (Count "requests" s) value hq hname
    (by simpa using hfound) hdom
  rw [redirectQuery_nowhere env r value _ server response (by simpa using hpick) hx ha] at h
  simp only [ServeDNS, ServeDNS.body, h]

theorem ServeDNS_redirect_success (env : Env) (r : dns.Msg) (q : dns.Question) (s : Run)
    (value server : String) (response : dns.Msg) (ip : net.IP)
    (hq : getSingleSimpleQuestion r = some q)
    (hname : strings.TrimSuffix q.Name "." ≠ "panic.com")
    (hfound : lookup s.self.Database (strings.TrimSuffix q.Name ".") = some value)
    (hdom : looksLikeDomainName value = true)
    (hpick : s.self.Servers[env.seed % s.self.Servers.length]? = some server)
    (hx : env.Exchange (redirectQuestion env.Id value) server = .ok response)
    (ha : getSingleSimpleAnswer response = some ip) :
    ServeDNS env r s
      = .ok () ((Count "redirected_successively"
          ((Count "upstream_queries" (Count "redirected_requests"
            (Count "requests" s))).Exchange (redirectQuestion env.Id value) server)).WriteMsg
          (localReply r q ip)) := by
  have h := tryAnswer_redirect env r q (Count "requests" s) value hq hname
    (by simpa using hfound) hdom
  rw [redirectQuery_success env r value _ server response ip (by simpa using hpick) hx ha,
    respondSuccessively_localReply r q ip _ hq] at h
  simp only [ServeDNS, ServeDNS.body, h]

theorem ServeDNS_redirect_empty (env : Env) (r : dns.Msg) (q : dns.Question) (s : Run)
    (value : String) (hq : getSingleSimpleQuestion r = some q)
    (hname : strings.TrimSuffix q.Name "." ≠ "panic.com")
    (hfound : lookup s.self.Database (strings.TrimSuffix q.Name ".") = some value)
    (hdom : looksLikeDomainName value = true) (hsrv : s.self.Servers = []) :
    ServeDNS.body env r s
        = .panic (Count "upstream_queries" (Count "redirected_requests"
            (Count "requests" s))) ∧
      ServeDNS env r s
        = .ok () (refuseOnPanic r (Count "upstream_queries" (Count "redirected_requests"
            (Count "requests" s)))) := by
  have h := tryAnswer_redirect env r q (Count "requests" s) value hq hname
    (by simpa using hfound) hdom
  rw [redirectQuery_empty env r value _ (by simpa using hsrv)] at h
  simp only [ServeDNS, ServeDNS.body, h, and_self]

theorem ServeDNS_proxy_error (env : Env) (r : dns.Msg) (s : Run) (server e : String)
    (ht : tryAnswer env r (Count "requests" s) = .ok false (Count "requests" s))
    (hpick : s.self.Servers[env.seed % s.self.Servers.length]? = some server)
    (hx : env.Exchange r server = .error e) :
    ServeDNS env r s
      = .ok () (refuse r (Count "upstream_errors"
          ((Count "upstream_queries" (Count "proxied_requests"
            (Count "requests" s))).Exchange r server))) := by
  have hp := proxyToUpstream_error env r (Count "requests" s) server e
    (by simpa using hpick) hx
  simp only [ServeDNS, ServeDNS.body, ht]
  rw [hp]

theorem ServeDNS_proxy_success (env : Env) (r : dns.Msg) (s : Run) (server : String)
    (response : dns.Msg)
    (ht : tryAnswer env r (Count "requests" s) = .ok false (Count "requests" s))
    (hpick : s.self.Servers[env.seed % s.self.Servers.length]? = some server)
    (hx : env.Exchange r server = .ok response) :
    ServeDNS env r s
      = .ok () ((if response.Answer.length = 0 then
            Count "proxied_refusals"
              ((Count "upstream_queries" (Count "proxied_requests"
                (Count "requests" s))).Exchange r server)
          else (Count "upstream_queries" (Count "proxied_requests"
            (Count "requests" s))).Exchange r server).WriteMsg response) := by
  have hp := proxyToUpstream_success env r (Count "requests" s) server response
    (by simpa using hpick) hx
  simp only [ServeDNS, ServeDNS.body, ht]
  rw [hp]

theorem ServeDNS_proxy_empty (env : Env) (r : dns.Msg) (s : Run)
    (ht : tryAnswer env r (Count "requests" s) = .ok false (Count "requests" s))
    (hsrv : s.self.Servers = []) :
    ServeDNS.body env r s
        = .panic (Count "upstream_queries" (Count "proxied_requests" (Count "requests" s))) ∧
      ServeDNS env r s
        = .ok () (refuseOnPanic r (Count "upstream_queries" (Count "proxied_requests"
            (Count "requests" s)))) := by
  have hp := proxyToUpstream_empty env r (Count "requests" s) (by simpa using hsrv)
  simp only [ServeDNS, ServeDNS.body, ht]
  rw [hp]
  exact ⟨rfl, rfl⟩

theorem refuse_eq (req : dns.Msg) (s : Run) :
    refuse req s = (Count "refusals" s).WriteMsg (refusalMsg req dns.RcodeRefused) := rfl

theorem refuseOnPanic_eq (req : dns.Msg) (s : Run) :
    refuseOnPanic req s
      = (Count "panic_refusals" s).WriteMsg (refusalMsg req dns.RcodeServerFailure) := rfl

theorem refuse_loop (extra : List dns.RR) (m : dns.Msg) :
    extra.foldl
        (fun m r => if r.Hdr.Rrtype = dns.TypeOPT then m.SetEdns0 4096 r.Do else m) m
      = { m with
          Extra := m.Extra ++
            (extra.filter (fun r => r.Hdr.Rrtype = dns.TypeOPT)).map
              (fun r => { Hdr := { Name := ".", Rrtype := dns.TypeOPT, Class := 4096,
                                   Ttl := if r.Do then 2 ^ 15 else 0 } }) } := by
  induction extra generalizing m with
  | nil => simp
  | cons r rest ih =>
    rw [List.foldl_cons, ih]
    by_cases h : r.Hdr.Rrtype = dns.TypeOPT
    · simp [h, dns.Msg.SetEdns0]
    · simp [h]

theorem refusalMsg_fields (req : dns.Msg) (code : Int) :
    (refusalMsg req code).Rcode = code ∧ (refusalMsg req code).Response = true ∧
    (refusalMsg req code).Id = req.Id ∧ (refusalMsg req code).Answer = [] ∧
    (refusalMsg req code).Question = req.Question.take 1 ∧
    (refusalMsg req code).Extra
      = (req.Extra.filter (fun r => r.Hdr.Rrtype = dns.TypeOPT)).map
          (fun r => { Hdr := { Name := ".", Rrtype := dns.TypeOPT, Class := 4096,
                               Ttl := if r.Do then 2 ^ 15 else 0 } }) := by
  unfold refusalMsg
  rw [refuse_loop]
  unfold dns.Msg.SetRcode dns.Msg.SetReply
  cases hQ : req.Question <;> simp only [] <;> split <;> simp

theorem localReply_fields (r : dns.Msg) (q : dns.Question) (addr : net.IP) :
    (localReply r q addr).Answer = [answerRecord q addr] ∧
    (localReply r q addr).Authoritative = false ∧
    (localReply r q addr).Response = true ∧ (localReply r q addr).Id = r.Id ∧
    (localReply r q addr).Rcode = dns.RcodeSuccess ∧
    (localReply r q addr).Question = r.Question.take 1 := by
  obtain ⟨h1, h2, h3, _, _, h6⟩ := SetReply_fields r
  exact ⟨rfl, rfl, h2, h1, h3, h6⟩

theorem getSingleSimpleAnswer_eq_some (m : dns.Msg) (rr : dns.RR)
    (hans : m.Answer = [rr]) (ht : rr.Hdr.Rrtype = dns.TypeA)
    (hc : rr.Hdr.Class = dns.ClassINET) : getSingleSimpleAnswer m = some rr.A := by
  simp [getSingleSimpleAnswer, hans, dns.RR.assertA, ht, hc]

theorem getSingleSimpleAnswer_eq_none (m : dns.Msg)
    (h : ¬ ∃ rr, m.Answer = [rr] ∧ rr.Hdr.Rrtype = dns.TypeA ∧
      rr.Hdr.Class = dns.ClassINET) : getSingleSimpleAnswer m = none := by
  unfold getSingleSimpleAnswer
  split
  · rename_i rr hans
    unfold dns.RR.assertA
    by_cases ht : rr.Hdr.Rrtype = dns.TypeA
    · have hc : rr.Hdr.Class ≠ dns.ClassINET := fun hc => h ⟨rr, hans, ht, hc⟩
      simp [ht, hc]
    · simp [ht]
  · rfl

theorem getSingleSimpleQuestion_eq_none (r : dns.Msg)
    (h : ¬ ∃ q, r.Question = [q] ∧ q.Qtype = dns.TypeA ∧ q.Qclass = dns.ClassINET) :
    getSingleSimpleQuestion r = none := by
  cases hg : getSingleSimpleQuestion r with
  | none => rfl
  | some q => exact absurd ⟨q, eligible_question r q hg⟩ h

theorem stats_Count (n : String) (s : Run) :
    (Count n s).self.stats
      = mapSet s.self.stats n (int.add (statValue s.self.stats n) 1) := rfl

theorem getSingleSimpleQuestion_ineligible (r : dns.Msg)
    (h : r.Question.length ≠ 1 ∨
      ∃ q ∈ r.Question, q.Qtype ≠ dns.TypeA ∨ q.Qclass ≠ dns.ClassINET) :
    getSingleSimpleQuestion r = none := by
  apply getSingleSimpleQuestion_eq_none
  rintro ⟨q, hQ, ht, hc⟩
  rcases h with h | ⟨q', hmem, h⟩
  · simp [hQ] at h
  · rw [hQ, List.mem_singleton] at hmem
    subst hmem
    rcases h with h | h
    · exact h ht
    · exact h hc

theorem ServeDNS_of_body (env : Env) (r : dns.Msg) (s : Run) :
    ServeDNS env r s
      = .ok () (match ServeDNS.body env r s with
          | .ok _ s' => s'
          | .panic s' => refuseOnPanic r s') := by
  unfold ServeDNS
  cases ServeDNS.body env r s <;> rfl

theorem body_of_proxied (env : Env) (r : dns.Msg) (s : Run)
    (ht : tryAnswer env r (Count "requests" s) = .ok false (Count "requests" s)) :
    ServeDNS.body env r s = proxyToUpstream env r (Count "requests" s) := by
  simp only [ServeDNS.body, ht]

theorem body_of_panic (env : Env) (r : dns.Msg) (s s' : Run)
    (ht : tryAnswer env r (Count "requests" s) = .panic s') :
    ServeDNS.body env r s = .panic s' := by
  simp only [ServeDNS.body, ht]

theorem body_of_answered (env : Env) (r : dns.Msg) (s s' : Run)
    (ht : tryAnswer env r (Count "requests" s) = .ok true s') :
    ServeDNS.body env r s = .ok () s' := by
  simp only [ServeDNS.body, ht]

theorem body_path_proxied (env : Env) (r : dns.Msg) (s : Run)
    (ht : tryAnswer env r (Count "requests" s) = .ok false (Count "requests" s)) :
    Path env r s (ServeDNS.body env r s) := by
  rw [body_of_proxied env r s ht]
  by_cases hsrv : s.self.Servers = []
  · rw [proxyToUpstream_empty env r _ (show (Count "requests" s).self.Servers = [] from hsrv)]
    exact Path.proxyEmpty ht hsrv
  · obtain ⟨server, _, hpick⟩ := exists_pick env s hsrv
    cases hx : env.Exchange r server with
    | error e =>
      rw [proxyToUpstream_error env r _ server e (by simpa using hpick) hx]
      exact Path.proxyError server e ht hpick hx
    | ok response =>
      rw [proxyToUpstream_success env r _ server response (by simpa using hpick) hx]
      exact Path.proxySuccess server response ht hpick hx

/-- Every run of the body of `ServeDNS` follows one of the nine paths. -/
theorem body_path (env : Env) (r : dns.Msg) (s : Run) :
    Path env r s (ServeDNS.body env r s) := by
  cases hq : getSingleSimpleQuestion r with
  | none => exact body_path_proxied env r s (tryAnswer_ineligible env r _ hq)
  | some q =>
    by_cases hname : strings.TrimSuffix q.Name "." = "panic.com"
    · rw [body_of_panic env r s _ (tryAnswer_panic env r q _ hq hname)]
      exact Path.fault q hq hname
    · cases hfound : lookup s.self.Database (strings.TrimSuffix q.Name ".") with
      | none =>
        exact body_path_proxied env r s
          (tryAnswer_miss env r q _ hq hname (by simpa using hfound))
      | some value =>
        cases hdom : looksLikeDomainName value with
        | false =>
          rw [body_of_answered env r s _
            (tryAnswer_local env r q _ value hq hname (by simpa using hfound) hdom)]
          exact Path.localAnswer q value hq hname hfound hdom
        | true =>
          have ht := tryAnswer_redirect env r q (Count "requests" s) value hq hname
            (by simpa using hfound) hdom
          by_cases hsrv : s.self.Servers = []
          · rw [redirectQuery_empty env r value _ (by simpa using hsrv)] at ht
            rw [body_of_panic env r s _ ht]
            exact Path.redirectEmpty q value hq hname hfound hdom hsrv
          · obtain ⟨server, _, hpick⟩ := exists_pick env s hsrv
            cases hx : env.Exchange (redirectQuestion env.Id value) server with
            | error e =>
              rw [redirectQuery_error env r value _ server e (by simpa using hpick) hx]
                at ht
              rw [body_of_answered env r s _ ht]
              exact Path.redirectError q value server e hq hname hfound hdom hpick hx
            | ok response =>
              cases ha : getSingleSimpleAnswer response with
              | none =>
                rw [redirectQuery_nowhere env r value _ server response
                  (by simpa using hpick) hx ha] at ht
                rw [body_of_answered env r s _ ht]
                exact Path.redirectNowhere q value server response hq hname hfound hdom
                  hpick hx ha
              | some ip =>
                rw [redirectQuery_success env r value _ server response ip
                  (by simpa using hpick) hx ha,
                  respondSuccessively_localReply r q ip _ hq] at ht
                rw [body_of_answered env r s _ ht]
                exact Path.redirectSuccess q value server response ip hq hname hfound
                  hdom hpick hx ha

/-- A panic of the body leaves the writes, `refusals` and `panic_refusals` as they
were when the request came in. -/
theorem body_panic_frame (env : Env) (r : dns.Msg) (s s1 : Run)
    (hb : ServeDNS.body env r s = .panic s1) :
    s1.written = s.written ∧ s1.stat "refusals" = s.stat "refusals" ∧
      s1.stat "panic_refusals" = s.stat "panic_refusals" := by
  have hp := body_path env r s
  rw [hb] at hp
  generalize hres : Result.panic s1 = res at hp
  cases hp <;> cases hres <;> simp [stat_Count]

theorem alphabet_data :
    "abcdefghijklmnopqrstuvwxyz".data
      = ['a', 'b', 'c', 'd', 'e', 'f', 'g', 'h', 'i', 'j', 'k', 'l', 'm', 'n', 'o', 'p',
         'q', 'r', 's', 't', 'u', 'v', 'w', 'x', 'y', 'z'] := rfl

theorem alphabet_contains (c : Char) :
    "abcdefghijklmnopqrstuvwxyz".data.contains c = true ↔ 'a' ≤ c ∧ c ≤ 'z' := by
  rw [alphabet_data]
  constructor
  · intro h
    simp only [List.contains, List.elem_eq_mem, decide_eq_true_eq, List.mem_cons,
      List.mem_singleton, List.mem_nil_iff, or_false] at h
    rcases h with h | h | h | h | h | h | h | h | h | h | h | h | h | h | h | h | h | h |
      h | h | h | h | h | h | h | h <;> subst h <;> decide
  · rintro ⟨h1, h2⟩
    have h1' : 97 ≤ c.toNat := h1
    have h2' : c.toNat ≤ 122 := h2
    have hc : c = Char.ofNat c.toNat := (Char.ofNat_toNat c).symm
    generalize c.toNat = n at h1' h2' hc
    subst hc
    interval_cases n <;> decide

theorem looksLikeDomainName_iff (t : String) :
    looksLikeDomainName t = true ↔ ∃ c ∈ t.data, 'a' ≤ c ∧ c ≤ 'z' := by
  unfold looksLikeDomainName strings.ContainsAny
  rw [List.any_eq_true]
  constructor
  · rintro ⟨c, hc, h⟩
    exact ⟨c, hc, (alphabet_contains c).mp h⟩
  · rintro ⟨c, hc, h⟩
    exact ⟨c, hc, (alphabet_contains c).mpr h⟩

theorem Do_opt (d : Bool) :
    dns.RR.Do { Hdr := { Name := ".", Rrtype := dns.TypeOPT, Class := 4096,
                         Ttl := if d then 2 ^ 15 else 0 } } = d := by
  cases d <;> rfl

/-- A target written with digits and dots only, such as an IPv4 literal, does not
look like a domain name. -/
theorem looksLikeDomainName_dottedDecimal (t : String) (h : dottedDecimal t = true) :
    looksLikeDomainName t = false := by
  cases hl : looksLikeDomainName t with
  | false => rfl
  | true =>
    exfalso
    obtain ⟨c, hc, h1, h2⟩ := (looksLikeDomainName_iff t).mp hl
    unfold dottedDecimal at h
    rw [List.all_eq_true] at h
    have hcd := h c hc
    have h1' : 97 ≤ c.toNat := h1
    simp only [Bool.or_eq_true, beq_iff_eq] at hcd
    rcases hcd with hd | hd
    · simp only [Char.isDigit, Bool.and_eq_true, decide_eq_true_eq] at hd
      have hd2 : c.toNat ≤ 57 := hd.2
      omega
    · subst hd
      exact absurd h1 (by decide)

theorem exchanged_ite_Count (c : Prop) [Decidable c] (n : String) (a : Run) :
    (if c then Count n a else a).exchanged = a.exchanged := by
  split <;> rfl

theorem written_ite_Count (c : Prop) [Decidable c] (n : String) (a : Run) :
    (if c then Count n a else a).written = a.written := by
  split <;> rfl

theorem ne_append_singleton {α : Type} (l : List α) (x : α) : l ≠ l ++ [x] := by
  intro h
  have := congrArg List.length h
  simp at this

theorem append_singleton_inj {α : Type} (l : List α) (x y : α)
    (h : l ++ [x] = l ++ [y]) : x = y := by
  simpa using h

/-! ## At most one exchange -/

/-- On every path the body of `ServeDNS` counts at most one upstream query and makes
at most one exchange. -/
theorem body_at_most_one (env : Env) (r : dns.Msg) (s : Run) (res : Result Unit)
    (hp : Path env r s res) :
    (res.run.stat "upstream_queries" = s.stat "upstream_queries" ∨
      res.run.stat "upstream_queries" = int.add (s.stat "upstream_queries") 1) ∧
    (res.run.exchanged = s.exchanged ∨
      ∃ m server, res.run.exchanged = s.exchanged ++ [(m, server)]) := by
  cases hp with
  | fault q hq hname => exact ⟨Or.inl (by simp [Result.run, stat_Count]), Or.inl rfl⟩
  | localAnswer q value hq hname hfound hip =>
    exact ⟨Or.inl (by simp [Result.run, stat_Count]), Or.inl rfl⟩
  | redirectEmpty q value hq hname hfound hdom hsrv =>
    exact ⟨Or.inr (by simp [Result.run, stat_Count]), Or.inl rfl⟩
  | redirectError q value server e hq hname hfound hdom hpick hx =>
    exact ⟨Or.inr (by simp [Result.run, refuse_eq, stat_Count]), Or.inr ⟨_, _, rfl⟩⟩
  | redirectNowhere q value server response hq hname hfound hdom hpick hx ha =>
    exact ⟨Or.inr (by simp [Result.run, refuse_eq, stat_Count]), Or.inr ⟨_, _, rfl⟩⟩
  | redirectSuccess q value server response ip hq hname hfound hdom hpick hx ha =>
    exact ⟨Or.inr (by simp [Result.run, stat_Count]), Or.inr ⟨_, _, rfl⟩⟩
  | proxyEmpty ht hsrv =>
    exact ⟨Or.inr (by simp [Result.run, stat_Count]), Or.inl rfl⟩
  | proxyError server e ht hpick hx =>
    exact ⟨Or.inr (by simp [Result.run, refuse_eq, stat_Count]), Or.inr ⟨_, _, rfl⟩⟩
  | proxySuccess server response ht hpick hx =>
    refine ⟨Or.inr ?_, Or.inr ⟨r, server, ?_⟩⟩
    · simp only [Result.run, stat_WriteMsg]
      split <;> simp [stat_Count]
    · simp only [Result.run, exchanged_WriteMsg, exchanged_ite_Count]
      rfl

/-- The state `ServeDNS` ends in: the state the body returned in, or the state of
its panic after `refuseOnPanic`. -/
theorem ServeDNS_cases (env : Env) (r : dns.Msg) (s : Run) :
    (∃ s', ServeDNS.body env r s = .ok () s' ∧ ServeDNS env r s = .ok () s') ∨
    (∃ s1, ServeDNS.body env r s = .panic s1 ∧
      ServeDNS env r s = .ok () (refuseOnPanic r s1)) := by
  cases hb : ServeDNS.body env r s with
  | ok u s' => exact Or.inl ⟨s', rfl, by simp [ServeDNS, hb]⟩
  | panic s1 => exact Or.inr ⟨s1, rfl, by simp [ServeDNS, hb]⟩

/-- The redirect path: what `ServeDNS` leaves in the trace and in `proxied_requests`
when the name resolves to a target that looks like a domain name. -/
theorem ServeDNS_redirect_trace (env : Env) (r : dns.Msg) (q : dns.Question) (s : Run)
    (target : String) (hq : getSingleSimpleQuestion r = some q)
    (hname : strings.TrimSuffix q.Name "." ≠ "panic.com")
    (hfound : lookup s.self.Database (strings.TrimSuffix q.Name ".") = some target)
    (hdom : looksLikeDomainName target = true) :
    ∃ s', ServeDNS env r s = .ok () s' ∧
      s'.stat "proxied_requests" = s.stat "proxied_requests" ∧
      (s'.exchanged = s.exchanged ∨
        ∃ server, s'.exchanged = s.exchanged ++ [(redirectQuestion env.Id target, server)]) := by
  by_cases hsrv : s.self.Servers = []
  · exact ⟨_, (ServeDNS_redirect_empty env r q s target hq hname hfound hdom hsrv).2,
      by simp [refuseOnPanic_eq, stat_Count], Or.inl rfl⟩
  · obtain ⟨server, _, hpick⟩ := exists_pick env s hsrv
    cases hx : env.Exchange (redirectQuestion env.Id target) server with
    | error e =>
      exact ⟨_, ServeDNS_redirect_error env r q s target server e hq hname hfound hdom
        hpick hx, by simp [refuse_eq, stat_Count], Or.inr ⟨server, rfl⟩⟩
    | ok response =>
      cases ha : getSingleSimpleAnswer response with
      | none =>
        exact ⟨_, ServeDNS_redirect_nowhere env r q s target server response hq hname
          hfound hdom hpick hx ha, by simp [refuse_eq, stat_Count], Or.inr ⟨server, rfl⟩⟩
      | some ip =>
        exact ⟨_, ServeDNS_redirect_success env r q s target server response ip hq hname
          hfound hdom hpick hx ha, by simp [stat_Count], Or.inr ⟨server, rfl⟩⟩

/-! ## The path taken and the counters it moves -/

theorem pick_empty (env : Env) (s : Run) (hsrv : s.self.Servers = []) :
    s.self.Servers[env.seed % s.self.Servers.length]? = none := by
  simp [hsrv]

theorem proxyKind_of_path (env : Env) (r : dns.Msg) (s : Run) :
    (s.self.Servers = [] → proxyKind env r s = .proxyEmpty) ∧
    (∀ server e, s.self.Servers[env.seed % s.self.Servers.length]? = some server →
      env.Exchange r server = .error e → proxyKind env r s = .proxyError) ∧
    (∀ server response, s.self.Servers[env.seed % s.self.Servers.length]? = some server →
      env.Exchange r server = .ok response → proxyKind env r s = .proxySuccess) := by
  refine ⟨?_, ?_, ?_⟩
  · intro hsrv
    simp [proxyKind, hsrv]
  · intro server e hpick hx
    simp [proxyKind, hpick, hx]
  · intro server response hpick hx
    simp [proxyKind, hpick, hx]

/-- A request that `tryAnswer` leaves to the proxy is not eligible, or misses the
table. -/
theorem pathOf_proxied (env : Env) (r : dns.Msg) (s : Run)
    (ht : tryAnswer env r (Count "requests" s) = .ok false (Count "requests" s)) :
    pathOf env r s = proxyKind env r s := by
  unfold pathOf
  cases hq : getSingleSimpleQuestion r with
  | none => rfl
  | some q =>
    by_cases hname : strings.TrimSuffix q.Name "." = "panic.com"
    · rw [tryAnswer_panic env r q _ hq hname] at ht
      cases ht
    · have hmiss := (tryAnswer_false_iff env r q (Count "requests" s) hq hname).mp ⟨_, ht⟩
      have hmiss' : lookup s.self.Database (strings.TrimSuffix q.Name ".") = none := by
        simpa using hmiss
      simp [hname, hmiss']

theorem ServeDNS_recovered (env : Env) (r : dns.Msg) (s : Run) :
    ServeDNS env r s = .ok () (recovered r (ServeDNS.body env r s)) := by
  cases hb : ServeDNS.body env r s <;> simp [ServeDNS, hb, recovered]

/-- The path kind computed by `pathOf` is the path the body takes. -/
theorem pathOf_of_path (env : Env) (r : dns.Msg) (s : Run) (res : Result Unit)
    (hp : Path env r s res) :
    (pathOf env r s = .faultTrigger ∧ res = .panic (Count "requests" s)) ∨
    (pathOf env r s = .localAnswer ∧
      ∃ q value, res = .ok () ((Count "local_responses" (Count "requests" s)).WriteMsg
        (localReply r q (env.ParseIP value)))) ∨
    (pathOf env r s = .redirectEmpty ∧
      res = .panic (Count "upstream_queries" (Count "redirected_requests"
        (Count "requests" s)))) ∨
    (pathOf env r s = .redirectError ∧
      ∃ m server, res = .ok () (refuse r (Count "upstream_errors"
        ((Count "upstream_queries" (Count "redirected_requests"
          (Count "requests" s))).Exchange m server)))) ∨
    (pathOf env r s = .redirectNowhere ∧
      ∃ m server, res = .ok () (refuse r (Count "redirected_nowhere"
        ((Count "upstream_queries" (Count "redirected_requests"
          (Count "requests" s))).Exchange m server)))) ∨
    (pathOf env r s = .redirectSuccess ∧
      ∃ m server q ip, res = .ok () ((Count "redirected_successively"
        ((Count "upstream_queries" (Count "redirected_requests"
          (Count "requests" s))).Exchange m server)).WriteMsg (localReply r q ip))) ∨
    (pathOf env r s = .proxyEmpty ∧
      res = .panic (Count "upstream_queries" (Count "proxied_requests"
        (Count "requests" s)))) ∨
    (pathOf env r s = .proxyError ∧
      ∃ server, res = .ok () (refuse r (Count "upstream_errors"
        ((Count "upstream_queries" (Count "proxied_requests"
          (Count "requests" s))).Exchange r server)))) ∨
    (pathOf env r s = .proxySuccess ∧
      ∃ server response, env.Exchange r server = .ok response ∧
        res = .ok () ((if response.Answer.length = 0 then
            Count "proxied_refusals"
              ((Count "upstream_queries" (Count "proxied_requests"
                (Count "requests" s))).Exchange r server)
          else (Count "upstream_queries" (Count "proxied_requests"
            (Count "requests" s))).Exchange r server).WriteMsg response)) := by
  cases hp with
  | fault q hq hname =>
    exact Or.inl ⟨by simp [pathOf, hq, hname], rfl⟩
  | localAnswer q value hq hname hfound hip =>
    exact Or.inr (Or.inl ⟨by simp [pathOf, hq, hname, hfound, hip], q, value, rfl⟩)
  | redirectEmpty q value hq hname hfound hdom hsrv =>
    exact Or.inr (Or.inr (Or.inl ⟨by simp [pathOf, hq, hname, hfound, hdom, hsrv], rfl⟩))
  | redirectError q value server e hq hname hfound hdom hpick hx =>
    exact Or.inr (Or.inr (Or.inr (Or.inl
      ⟨by simp [pathOf, hq, hname, hfound, hdom, hpick, hx], _, _, rfl⟩)))
  | redirectNowhere q value server response hq hname hfound hdom hpick hx ha =>
    exact Or.inr (Or.inr (Or.inr (Or.inr (Or.inl
      ⟨by simp [pathOf, hq, hname, hfound, hdom, hpick, hx, ha], _, _, rfl⟩))))
  | redirectSuccess q value server response ip hq hname hfound hdom hpick hx ha =>
    exact Or.inr (Or.inr (Or.inr (Or.inr (Or.inr (Or.inl
      ⟨by simp [pathOf, hq, hname, hfound, hdom, hpick, hx, ha], _, _, _, _, rfl⟩)))))
  | proxyEmpty ht hsrv =>
    exact Or.inr (Or.inr (Or.inr (Or.inr (Or.inr (Or.inr (Or.inl
      ⟨by rw [pathOf_proxied env r s ht]; exact (proxyKind_of_path env r s).1 hsrv,
        rfl⟩))))))
  | proxyError server e ht hpick hx =>
    exact Or.inr (Or.inr (Or.inr (Or.inr (Or.inr (Or.inr (Or.inr (Or.inl
      ⟨by rw [pathOf_proxied env r s ht]
          exact (proxyKind_of_path env r s).2.1 server e hpick hx,
        _, rfl⟩)))))))
  | proxySuccess server response ht hpick hx =>
    exact Or.inr (Or.inr (Or.inr (Or.inr (Or.inr (Or.inr (Or.inr (Or.inr
      ⟨by rw [pathOf_proxied env r s ht]
          exact (proxyKind_of_path env r s).2.2 server response hpick hx,
        _, _, hx, rfl⟩)))))))

/-! ## Repeated counting -/

theorem mapGet_Count (n k : String) (s : Run) :
    mapGet (Count n s).self.stats k
      = if n = k then some (int.add (statValue s.self.stats n) 1)
        else mapGet s.self.stats k := by
  rw [stats_Count, mapGet_mapSet]

/-- Counting `k` times from 0 gives `k`, as long as `k` is an `int`. -/
theorem stat_iterate_Count (n : String) (k : Nat) (s : Run) (h0 : s.stat n = 0)
    (hk : (k : Int) ≤ math.MaxInt) :
    ((Count n)^[k] s).stat n = k := by
  induction k with
  | zero => simpa using h0
  | succ k ih =>
    have hk' : (k : Int) < math.MaxInt := by
      push_cast at hk
      omega
    rw [Function.iterate_succ_apply', stat_Count, if_pos rfl, ih (le_of_lt hk'),
      int_add_one _ (by unfold math.MinInt; omega) hk']
    push_cast
    rfl

/-! ## The sorted keys of a map -/

theorem insertionSort_congr {α : Type} (r r' : α → α → Prop) [DecidableRel r]
    [DecidableRel r'] (h : ∀ a b, r a b ↔ r' a b) (l : List α) :
    l.insertionSort r = l.insertionSort r' := by
  have hins : ∀ (a : α) (l : List α), l.orderedInsert r a = l.orderedInsert r' a := by
    intro a l
    induction l with
    | nil => rfl
    | cons b l ih => simp only [List.orderedInsert, h a b, ih]
  induction l with
  | nil => rfl
  | cons a l ih => simp only [List.insertionSort, ih, hins]

theorem sort_Strings_eq (l : List String) : sort.Strings l = l.insertionSort (· ≤ ·) := by
  unfold sort.Strings
  apply insertionSort_congr
  intro a b
  rw [← not_lt, String.lt_iff_toList_lt]
  rfl

theorem sort_Strings_sorted (l : List String) : (sort.Strings l).Sorted (· ≤ ·) := by
  rw [sort_Strings_eq]
  exact List.sorted_insertionSort _ l

theorem sort_Strings_perm (l : List String) : (sort.Strings l).Perm l := by
  rw [sort_Strings_eq]
  exact List.perm_insertionSort _ l

theorem sort_Strings_of_perm (l l' : List String) (h : l.Perm l') :
    sort.Strings l = sort.Strings l' :=
  List.eq_of_perm_of_sorted
    (((sort_Strings_perm l).trans h).trans (sort_Strings_perm l').symm)
    (sort_Strings_sorted l) (sort_Strings_sorted l')

theorem mem_mapKeys {V : Type} (m : List (String × V)) (k : String) :
    k ∈ mapKeys m ↔ ∃ v, mapGet m k = some v := by
  induction m with
  | nil => simp [mapKeys, mapGet]
  | cons hd tl ih =>
    obtain ⟨a, b⟩ := hd
    by_cases h : a = k
    · subst h
      simp [mapKeys, mapGet]
    · have h' : k ≠ a := fun e => h e.symm
      simp [mapKeys, mapGet, h, h', ih]

theorem nodup_mapKeys {V : Type} (m : List (String × V)) : (mapKeys m).Nodup := by
  induction m with
  | nil => simp [mapKeys]
  | cons hd tl ih =>
    obtain ⟨a, b⟩ := hd
    simp only [mapKeys, List.nodup_cons]
    exact ⟨by simp, ih.filter _⟩

/-! ## Loading the override table -/

theorem splitOn_ne_nil (sep : Char) (l : List Char) : strings.splitOn sep l ≠ [] := by
  induction l with
  | nil => simp [strings.splitOn]
  | cons c cs ih =>
    unfold strings.splitOn
    split
    · simp
    · split <;> simp

theorem splitOn_head (sep : Char) (l : List Char) :
    (strings.splitOn sep l).headD [] = l.takeWhile (fun c => c ≠ sep) := by
  induction l with
  | nil => simp [strings.splitOn]
  | cons c cs ih =>
    unfold strings.splitOn
    by_cases h : c = sep
    · simp [h]
    · simp only [h, if_false]
      cases hs : strings.splitOn sep cs with
      | nil => exact absurd hs (splitOn_ne_nil sep cs)
      | cons p ps =>
        rw [hs] at ih
        simp only [List.headD_cons] at ih
        simp [List.takeWhile, h, ih]

theorem Split_head (s : String) (sep : Char) :
    (strings.Split s sep).headD "" = String.mk (s.data.takeWhile (fun c => c ≠ sep)) := by
  unfold strings.Split
  have h := splitOn_head sep s.data
  cases hs : strings.splitOn sep s.data with
  | nil => exact absurd hs (splitOn_ne_nil sep s.data)
  | cons p ps =>
    rw [hs] at h
    simp only [List.headD_cons] at h
    simp [h]

/-- One turn of the loop of `readDatabaseFromConfig`: the contribution of the line is
written into the table, and a line without contribution leaves the table as it
is. -/
theorem step_eq (db : List (String × String)) (sourceLine : String) :
    readDatabaseFromConfig.step db sourceLine
      = match contribution sourceLine with
        | some (domain, target) => mapSet db domain target
        | none => db := by
  unfold readDatabaseFromConfig.step contribution
  simp only [Split_head]
  by_cases he : strings.TrimSpace
      (String.mk (sourceLine.data.takeWhile (fun c => c ≠ '#'))) = ""
  · rw [he]
    simp [strings.Fields, strings.fieldsFrom]
  · simp only [he, if_false]
    split <;> simp_all

theorem step_some (db : List (String × String)) (sourceLine domain target : String)
    (h : contribution sourceLine = some (domain, target)) :
    readDatabaseFromConfig.step db sourceLine = mapSet db domain target := by
  rw [step_eq, h]

theorem step_none (db : List (String × String)) (sourceLine : String)
    (h : contribution sourceLine = none) :
    readDatabaseFromConfig.step db sourceLine = db := by
  rw [step_eq, h]

theorem mapGet_append {V : Type} (a b : List (String × V)) (k : String) :
    mapGet (a ++ b) k = (mapGet a k).or (mapGet b k) := by
  induction a with
  | nil => simp [mapGet]
  | cons hd tl ih =>
    obtain ⟨k', v⟩ := hd
    by_cases h : k' = k <;> simp [mapGet, h, ih]

theorem mapGet_isSome_iff {V : Type} (m : List (String × V)) (k : String) :
    (∃ v, mapGet m k = some v) ↔ ∃ p ∈ m, p.1 = k := by
  induction m with
  | nil => simp [mapGet]
  | cons hd tl ih =>
    obtain ⟨a, b⟩ := hd
    by_cases h : a = k
    · simp [mapGet, h]
    · simp [mapGet, h, ih]

theorem mapGet_foldl_step (lines : List String) (db : List (String × String))
    (k : String) :
    mapGet (lines.foldl readDatabaseFromConfig.step db) k
      = (lastTarget (lines.filterMap contribution) k).or (mapGet db k) := by
  induction lines generalizing db with
  | nil => simp [lastTarget, mapGet]
  | cons x xs ih =>
    rw [List.foldl_cons, ih]
    cases hc : contribution x with
    | none =>
      rw [step_none db x hc]
      simp [List.filterMap_cons, hc]
    | some p =>
      obtain ⟨d, t⟩ := p
      rw [step_some db x d t hc, mapGet_mapSet]
      simp only [List.filterMap_cons, hc, lastTarget, List.reverse_cons, mapGet_append]
      cases mapGet (List.filterMap contribution xs).reverse k with
      | some v => simp
      | none =>
        by_cases hd : d = k <;> simp [mapGet, hd]

theorem readAllLinesFromFile_ok (scanned : List String) :
    readAllLinesFromFile (.ok scanned)
      = .ok ((scanned.map strings.TrimSpace).filter (fun line => line ≠ "")) := by
  have h : ∀ (acc : List String),
      scanned.foldl
        (fun lines line =>
          let line := strings.TrimSpace line
          if line = "" then lines else lines ++ [line]) acc
      = acc ++ (scanned.map strings.TrimSpace).filter (fun line => line ≠ "") := by
    induction scanned with
    | nil => simp
    | cons x xs ih =>
      intro acc
      rw [List.foldl_cons, ih]
      by_cases hx : strings.TrimSpace x = "" <;> simp [hx]
  simp only [readAllLinesFromFile, h, List.nil_append]

/-! ## Loading the server list -/

theorem readUpstreamServersFromConfig_ok (scanned : List String) :
    readUpstreamServersFromConfig (.ok scanned)
      = .ok (((scanned.map strings.TrimSpace).filter (fun line => line ≠ "")).map
          (fun line => if strings.Contains line ':' then line else line ++ ":53")) := by
  have h : ∀ (lines acc : List String),
      lines.foldl
        (fun servers line =>
          let line := if ¬ strings.Contains line ':' then line ++ ":53" else line
          servers ++ [line]) acc
      = acc ++ lines.map
          (fun line => if strings.Contains line ':' then line else line ++ ":53") := by
    intro lines
    induction lines with
    | nil => simp
    | cons x xs ih =>
      intro acc
      rw [List.foldl_cons, ih]
      by_cases hx : strings.Contains x ':' = true <;> simp [hx]
  simp only [readUpstreamServersFromConfig, readAllLinesFromFile_ok, h, List.nil_append]

theorem Contains_of_specifiesPort (addr : String) (h : specifiesPort addr = true) :
    strings.Contains addr ':' = true := by
  unfold specifiesPort at h
  unfold strings.Contains
  cases hd : addr.data.reverse.dropWhile (fun c => c ≠ ':') with
  | nil =>
    rw [hd] at h
    cases h
  | cons c rest =>
    have hne : addr.data.reverse.dropWhile (fun c => c ≠ ':') ≠ [] := by
      rw [hd]
      simp
    rw [Ne, List.dropWhile_eq_nil_iff] at hne
    push_neg at hne
    obtain ⟨x, hx, hxc⟩ := hne
    have hx' : x = ':' := by simpa using hxc
    subst hx'
    simpa using hx

/-! ## The claims -/

/-- C1. The override lookup of `tryAnswer` is the reference lookup: the exact key
wins whenever it is present, otherwise the first key among the candidates
`*.L1...Ln`, ..., `*.Ln` (in that order) gives the target, and `tryAnswer` returns
false for an eligible name other than the fault trigger exactly when neither the
name nor any candidate is a key.  A name of one label has no candidate, and
`a.b.c.com` is found through the only entry `*.c.com`. -/
theorem C1_lookup_refines_reference :
    (∀ (db : List (String × String)) (name : String),
        lookup db name = lookupSpec db name) ∧
    (∀ (db : List (String × String)) (name target : String),
        mapGet db name = some target → lookup db name = some target) ∧
    (∀ (db : List (String × String)) (name : String),
        lookup db name = none ↔
          mapGet db name = none ∧
            ∀ c ∈ wildcardCandidates (strings.Split name '.'), mapGet db c = none) ∧
    (∀ (env : Env) (r : dns.Msg) (s : Run) (q : dns.Question),
        getSingleSimpleQuestion r = some q →
        strings.TrimSuffix q.Name "." ≠ "panic.com" →
        ((∃ s', tryAnswer env r s = .ok false s') ↔
          lookupSpec s.self.Database (strings.TrimSuffix q.Name ".") = none)) ∧
    (∀ name : String, (strings.Split name '.').length = 1 →
        wildcardCandidates (strings.Split name '.') = []) ∧
    wildcardCandidates (strings.Split "a.b.c.com" '.')
      = ["*.b.c.com", "*.c.com", "*.com"] ∧
    (∀ target : String, lookup [("*.c.com", target)] "a.b.c.com" = some target) := by
  refine ⟨lookup_eq_lookupSpec, ?_, lookup_none_iff, ?_, ?_, by decide, ?_⟩
  · intro db name target h
    simp [lookup, h]
  · intro env r s q hq hname
    rw [← lookup_eq_lookupSpec]
    exact tryAnswer_false_iff env r q s hq hname
  · intro name h
    simp [wildcardCandidates, h]
  · intro target
    have hs : strings.Split "a.b.c.com" '.' = ["a", "b", "c", "com"] := by decide
    have h1 : strings.Join ["*", "b", "c", "com"] "." = "*.b.c.com" := by decide
    have h2 : strings.Join ["*", "c", "com"] "." = "*.c.com" := by decide
    have e1 : mapGet [("*.c.com", target)] "a.b.c.com" = none := by simp [mapGet]
    have e2 : mapGet [("*.c.com", target)] "*.b.c.com" = none := by simp [mapGet]
    have e3 : mapGet [("*.c.com", target)] "*.c.com" = some target := by simp [mapGet]
    have hl : lookup [("*.c.com", target)] "a.b.c.com"
        = wildcardLoop [("*.c.com", target)] (strings.Split "a.b.c.com" '.') := by
      simp only [lookup, e1]
    rw [hl, hs]
    simp only [wildcardLoop, h1, h2, e2, e3]

/-- The query `other.test.` of the scenario misses the table: `tryAnswer` returns false. -/
theorem C1_lookup_refines_reference_witness :
    getSingleSimpleQuestion (queryA "other.test.")
        = some ⟨"other.test.", dns.TypeA, dns.ClassINET⟩ ∧
      strings.TrimSuffix "other.test." "." ≠ "panic.com" ∧
      ((∃ s', tryAnswer scenarioEnv (queryA "other.test.") scenarioRun = .ok false s') ↔
        lookupSpec scenarioRun.self.Database (strings.TrimSuffix "other.test." ".") = none) :=
  ⟨by decide, by decide,
    C1_lookup_refines_reference.2.2.2.1 scenarioEnv (queryA "other.test.") scenarioRun
      ⟨"other.test.", dns.TypeA, dns.ClassINET⟩ (by decide) (by decide)⟩

/-- C2, as stated, fails in two ways.  An IP literal may have a letter `a..z`: the
target `fe80::1` of `six.test` is an address for `net.ParseIP`, yet the request is
redirected, the client gets a refusal without any answer and `local_responses` stays
0.  And the counter is a Go `int`: a local answer given when `local_responses` is
`math.MaxInt` leaves it at `math.MinInt`, which is not that value plus 1. -/
theorem C2_counterexample :
    getSingleSimpleQuestion (queryA "six.test.")
        = some ⟨"six.test.", dns.TypeA, dns.ClassINET⟩ ∧
    strings.TrimSuffix "six.test." "." ≠ "panic.com" ∧
    lookup (sixRun ["192.0.2.1:53"]).self.Database (strings.TrimSuffix "six.test." ".")
        = some "fe80::1" ∧
    sixEnv.ParseIP "fe80::1" = [254, 128, 0, 0, 0, 0, 0, 0, 0, 0, 0, 0, 0, 0, 0, 1] ∧
    ((ServeDNS sixEnv (queryA "six.test.") (sixRun ["192.0.2.1:53"])).run.exchanged.map
        (fun x => (x.1.Question, x.2))
        = [([⟨"fe80::1.", dns.TypeA, dns.ClassINET⟩], "192.0.2.1:53")] ∧
      (ServeDNS sixEnv (queryA "six.test.") (sixRun ["192.0.2.1:53"])).run.written.map
        (fun m => (m.Rcode, m.Answer)) = [(dns.RcodeRefused, [])] ∧
      (ServeDNS sixEnv (queryA "six.test.") (sixRun ["192.0.2.1:53"])).run.stat
        "local_responses" = 0) ∧
    (saturatedRun.stat "local_responses" = math.MaxInt ∧
      (ServeDNS scenarioEnv (queryA "foo.test.") saturatedRun).run.written.map
        (fun m => (m.Rcode, m.Answer.map (fun rr => rr.A)))
        = [(dns.RcodeSuccess, [[0, 0, 0, 0, 0, 0, 0, 0, 0, 0, 255, 255, 1, 2, 3, 4]])] ∧
      (ServeDNS scenarioEnv (queryA "foo.test.") saturatedRun).run.stat "local_responses"
        = math.MinInt ∧
      math.MinInt ≠ math.MaxInt + 1) :=
  ⟨by decide, by decide, by decide, by decide, ⟨by decide, by decide, by decide⟩,
    ⟨by decide, by decide, by decide, by decide⟩⟩

/-- C2, amended. A request with exactly one question of type A and class IN whose
name, other than the fault trigger, resolves in the override table (by the exact key
or by a wildcard key) to a target without any character in `a..z`, as every IPv4
literal in dotted-decimal form is (first part): `ServeDNS` writes one message, the
reply to the request whose answer section is the single A record with the name of the
question, class IN, TTL 30 and the address `net.ParseIP` gives for the target, not
authoritative; and `local_responses` grows by 1 as a Go `int`, that is by exactly 1
from any `int` value below `math.MaxInt`, and from `math.MaxInt` to `math.MinInt`. -/
theorem C2_local_answer :
    (∀ target : String, dottedDecimal target = true →
      ∀ c ∈ target.data, ¬ ('a' ≤ c ∧ c ≤ 'z')) ∧
    ∀ (env : Env) (r : dns.Msg) (q : dns.Question) (s : Run) (target : String),
      getSingleSimpleQuestion r = some q →
      strings.TrimSuffix q.Name "." ≠ "panic.com" →
      lookup s.self.Database (strings.TrimSuffix q.Name ".") = some target →
      (∀ c ∈ target.data, ¬ ('a' ≤ c ∧ c ≤ 'z')) →
      ∃ s' reply, ServeDNS env r s = .ok () s' ∧
        s'.written = s.written ++ [reply] ∧
        reply.Response = true ∧ reply.Id = r.Id ∧ reply.Question = [q] ∧
        reply.Rcode = dns.RcodeSuccess ∧
        reply.Answer
          = [{ Hdr := { Name := q.Name, Rrtype := dns.TypeA, Class := dns.ClassINET,
                        Ttl := 30, Rdlength := 4 },
               A := env.ParseIP target }] ∧
        reply.Authoritative = false ∧
        s'.stat "local_responses" = int.add (s.stat "local_responses") 1 ∧
        (math.MinInt ≤ s.stat "local_responses" →
          s.stat "local_responses" < math.MaxInt →
          s'.stat "local_responses" = s.stat "local_responses" + 1) ∧
        (s.stat "local_responses" = math.MaxInt →
          s'.stat "local_responses" = math.MinInt) := by
  have hno : ∀ t : String, (∀ c ∈ t.data, ¬ ('a' ≤ c ∧ c ≤ 'z')) ↔
      looksLikeDomainName t = false := by
    intro t
    rw [← Bool.not_eq_true, looksLikeDomainName_iff]
    push_neg
    rfl
  refine ⟨fun t hd => (hno t).mpr (looksLikeDomainName_dottedDecimal t hd), ?_⟩
  intro env r q s target hq hname hfound hlit
  have hip : looksLikeDomainName target = false := (hno target).mp hlit
  obtain ⟨h1, h2, h3, h4, h5, h6⟩ := localReply_fields r q (env.ParseIP target)
  have hst : ((Count "local_responses" (Count "requests" s)).WriteMsg
      (localReply r q (env.ParseIP target))).stat "local_responses"
        = int.add (s.stat "local_responses") 1 := by
    simp [stat_Count]
  refine ⟨_, localReply r q (env.ParseIP target),
    ServeDNS_local env r q s target hq hname hfound hip, ?_, h3, h4, ?_, h5, h1, h2, hst,
    ?_, ?_⟩
  · simp
  · rw [h6, (eligible_question r q hq).1]
    rfl
  · intro hlo hhi
    rw [hst, int_add_one _ hlo hhi]
  · intro hmax
    rw [hst, hmax, int_add_MaxInt]

/-- The scenario query `foo.test.` is answered with 1.2.3.4, a dotted-decimal
literal. -/
theorem C2_local_answer_witness :
    getSingleSimpleQuestion (queryA "foo.test.") = some ⟨"foo.test.", dns.TypeA, dns.ClassINET⟩ ∧
    strings.TrimSuffix "foo.test." "." ≠ "panic.com" ∧
    lookup scenarioRun.self.Database (strings.TrimSuffix "foo.test." ".") = some "1.2.3.4" ∧
    dottedDecimal "1.2.3.4" = true ∧
    (∀ c ∈ "1.2.3.4".data, ¬ ('a' ≤ c ∧ c ≤ 'z')) ∧
    (ServeDNS scenarioEnv (queryA "foo.test.") scenarioRun).run.self.stats
      = [("requests", 1), ("local_responses", 1)] ∧
    ∃ s' reply, ServeDNS scenarioEnv (queryA "foo.test.") scenarioRun = .ok () s' ∧
      s'.written = scenarioRun.written ++ [reply] ∧
      reply.Response = true ∧ reply.Id = (queryA "foo.test.").Id ∧
      reply.Question = [⟨"foo.test.", dns.TypeA, dns.ClassINET⟩] ∧
      reply.Rcode = dns.RcodeSuccess ∧
      reply.Answer
        = [{ Hdr := { Name := "foo.test.", Rrtype := dns.TypeA, Class := dns.ClassINET,
                      Ttl := 30, Rdlength := 4 },
             A := scenarioEnv.ParseIP "1.2.3.4" }] ∧
      reply.Authoritative = false ∧
      s'.stat "local_responses" = int.add (scenarioRun.stat "local_responses") 1 ∧
      (math.MinInt ≤ scenarioRun.stat "local_responses" →
        scenarioRun.stat "local_responses" < math.MaxInt →
        s'.stat "local_responses" = scenarioRun.stat "local_responses" + 1) ∧
      (scenarioRun.stat "local_responses" = math.MaxInt →
        s'.stat "local_responses" = math.MinInt) :=
  ⟨by decide, by decide, by decide, by decide,
    C2_local_answer.1 "1.2.3.4" (by decide), by decide,
    C2_local_answer.2 scenarioEnv (queryA "foo.test.")
      ⟨"foo.test.", dns.TypeA, dns.ClassINET⟩ scenarioRun "1.2.3.4" (by decide) (by decide)
      (by decide) (C2_local_answer.1 "1.2.3.4" (by decide))⟩

/-- C3, as stated, fails on the scenario table, for the query `a.bar.test.` whose
target is `baz.test`.  When the upstream answers the redirect with exactly one A
record, of class CHAOS, the client gets a refusal that carries no answer and
`redirected_successively` stays 0.  When the server list is empty, no query is sent
upstream at all, and the client gets a SERVER-FAILURE response.  It fails as well for
the fault trigger: with the key `panic.com` bound to `baz.test` nothing is sent
upstream for the query `panic.com.`; for a domain name in capitals, `EXAMPLE.COM`,
which is answered without any query; and at `math.MaxInt`, from where
`redirected_successively` goes to `math.MinInt`. -/
theorem C3_counterexample :
    getSingleSimpleQuestion (queryA "a.bar.test.")
        = some ⟨"a.bar.test.", dns.TypeA, dns.ClassINET⟩ ∧
    lookup scenarioTable (strings.TrimSuffix "a.bar.test." ".") = some "baz.test" ∧
    looksLikeDomainName "baz.test" = true ∧
    ((ServeDNS chaosEnv (queryA "a.bar.test.") scenarioRun).run.exchanged
        = [(redirectQuestion chaosEnv.Id "baz.test", "192.0.2.1:53")] ∧
      chaosEnv.Exchange (redirectQuestion chaosEnv.Id "baz.test") "192.0.2.1:53"
        = .ok (responseWith chaosRecord) ∧
      (responseWith chaosRecord).Answer = [chaosRecord] ∧
      chaosRecord.Hdr.Rrtype = dns.TypeA ∧
      (ServeDNS chaosEnv (queryA "a.bar.test.") scenarioRun).run.written.map
        (fun m => (m.Rcode, m.Answer)) = [(dns.RcodeRefused, [])] ∧
      (ServeDNS chaosEnv (queryA "a.bar.test.") scenarioRun).run.stat
        "redirected_successively" = 0) ∧
    ((ServeDNS scenarioEnv (queryA "a.bar.test.") orphanRun).run.exchanged = [] ∧
      (ServeDNS scenarioEnv (queryA "a.bar.test.") orphanRun).run.written.map
        (fun m => (m.Rcode, m.Answer)) = [(dns.RcodeServerFailure, [])]) ∧
    (getSingleSimpleQuestion (queryA "panic.com.")
        = some ⟨"panic.com.", dns.TypeA, dns.ClassINET⟩ ∧
      lookup (triggerRun "baz.test" ["192.0.2.1:53"]).self.Database
        (strings.TrimSuffix "panic.com." ".") = some "baz.test" ∧
      (ServeDNS scenarioEnv (queryA "panic.com.")
        (triggerRun "baz.test" ["192.0.2.1:53"])).run.exchanged = [] ∧
      (ServeDNS scenarioEnv (queryA "panic.com.")
        (triggerRun "baz.test" ["192.0.2.1:53"])).run.written.map
        (fun m => (m.Rcode, m.Answer)) = [(dns.RcodeServerFailure, [])]) ∧
    (lookup oddTargetsRun.self.Database (strings.TrimSuffix "shout.test." ".")
        = some "EXAMPLE.COM" ∧
      (ServeDNS scenarioEnv (queryA "shout.test.") oddTargetsRun).run.exchanged = []) ∧
    (saturatedRun.stat "redirected_successively" = math.MaxInt ∧
      (ServeDNS scenarioEnv (queryA "a.bar.test.") saturatedRun).run.written.map
        (fun m => (m.Rcode, m.Answer.map (fun rr => rr.A)))
        = [(dns.RcodeSuccess, [[5, 6, 7, 8]])] ∧
      (ServeDNS scenarioEnv (queryA "a.bar.test.") saturatedRun).run.stat
        "redirected_successively" = math.MinInt ∧
      math.MinInt ≠ math.MaxInt + 1) :=
  ⟨by decide, by decide, by decide,
    ⟨by decide, rfl, by decide, by decide, by decide, by decide⟩,
    ⟨by decide, by decide⟩,
    ⟨by decide, by decide, by decide, by decide⟩,
    ⟨by decide, by decide⟩,
    ⟨by decide, by decide, by decide, by decide⟩⟩

/-- C3, amended. An eligible request whose name, other than the fault trigger,
resolves in the override table to a target with a character in `a..z`, on a server
with at least one upstream: exactly one exchange is made, with a freshly built message
whose single question has type A, class IN and the name `dns.Fqdn` makes of the target
with one trailing dot (for a target without a backslash that name itself), whatever
the table says about the target; and if that exchange succeeds with an answer section
of exactly one A record of class IN, the client receives one reply with exactly one A
record carrying that address under the name of the original question with TTL 30,
`redirected_successively` grows by 1 as a Go `int` (by exactly 1 from any `int` value below
`math.MaxInt`, and from `math.MaxInt` to `math.MinInt`) and `local_responses` does not
change. -/
theorem C3_redirect (env : Env) (r : dns.Msg) (q : dns.Question) (s : Run)
    (target : String) (hq : getSingleSimpleQuestion r = some q)
    (hname : strings.TrimSuffix q.Name "." ≠ "panic.com")
    (hfound : lookup s.self.Database (strings.TrimSuffix q.Name ".") = some target)
    (hdom : ∃ c ∈ target.data, 'a' ≤ c ∧ c ≤ 'z')
    (hsrv : s.self.Servers ≠ []) :
    ∃ server ∈ s.self.Servers, ∃ sent s',
      ServeDNS env r s = .ok () s' ∧
      s'.exchanged = s.exchanged ++ [(sent, server)] ∧
      sent = { Id := env.Id, RecursionDesired := true,
               Question :=
                 [⟨dns.Fqdn (if strings.HasSuffix target "." then target else target ++ "."),
                   dns.TypeA, dns.ClassINET⟩] } ∧
      ('\\' ∉ target.data →
        sent.Question
          = [⟨if strings.HasSuffix target "." then target else target ++ ".",
              dns.TypeA, dns.ClassINET⟩]) ∧
      ∀ response rr, env.Exchange sent server = .ok response →
        response.Answer = [rr] → rr.Hdr.Rrtype = dns.TypeA →
        rr.Hdr.Class = dns.ClassINET →
        ∃ reply, s'.written = s.written ++ [reply] ∧
          reply.Response = true ∧ reply.Id = r.Id ∧ reply.Rcode = dns.RcodeSuccess ∧
          reply.Answer
            = [{ Hdr := { Name := q.Name, Rrtype := dns.TypeA, Class := dns.ClassINET,
                          Ttl := 30, Rdlength := 4 },
                 A := rr.A }] ∧
          s'.stat "redirected_successively"
            = int.add (s.stat "redirected_successively") 1 ∧
          (math.MinInt ≤ s.stat "redirected_successively" →
            s.stat "redirected_successively" < math.MaxInt →
            s'.stat "redirected_successively" = s.stat "redirected_successively" + 1) ∧
          (s.stat "redirected_successively" = math.MaxInt →
            s'.stat "redirected_successively" = math.MinInt) ∧
          s'.stat "local_responses" = s.stat "local_responses" := by
  have hdom' : looksLikeDomainName target = true := (looksLikeDomainName_iff target).mpr hdom
  have hesc : '\\' ∉ target.data →
      (redirectQuestion env.Id target).Question
        = [⟨if strings.HasSuffix target "." then target else target ++ ".",
            dns.TypeA, dns.ClassINET⟩] := by
    intro h
    have := Fqdn_fullyQualified target h
    simp only [redirectQuestion, this]
    rfl
  obtain ⟨server, hmem, hpick⟩ := exists_pick env s hsrv
  refine ⟨server, hmem, redirectQuestion env.Id target, ?_⟩
  cases hx : env.Exchange (redirectQuestion env.Id target) server with
  | error e =>
    refine ⟨_, ServeDNS_redirect_error env r q s target server e hq hname hfound hdom'
      hpick hx, ?_, rfl, hesc, ?_⟩
    · simp [refuse_eq]
    · intro response rr hok
      cases hok
  | ok response =>
    cases ha : getSingleSimpleAnswer response with
    | none =>
      refine ⟨_, ServeDNS_redirect_nowhere env r q s target server response hq hname
        hfound hdom' hpick hx ha, ?_, rfl, hesc, ?_⟩
      · simp [refuse_eq]
      · intro response' rr hok hans ht hc
        cases hok
        rw [getSingleSimpleAnswer_eq_some response rr hans ht hc] at ha
        cases ha
    | some ip =>
      refine ⟨_, ServeDNS_redirect_success env r q s target server response ip hq hname
        hfound hdom' hpick hx ha, ?_, rfl, hesc, ?_⟩
      · simp
      · intro response' rr hok hans ht hc
        cases hok
        rw [getSingleSimpleAnswer_eq_some response rr hans ht hc] at ha
        cases ha
        obtain ⟨h1, _, h3, h4, h5, _⟩ := localReply_fields r q rr.A
        have hst : ((Count "redirected_successively"
            ((Count "upstream_queries" (Count "redirected_requests"
              (Count "requests" s))).Exchange (redirectQuestion env.Id target)
                server)).WriteMsg (localReply r q rr.A)).stat "redirected_successively"
              = int.add (s.stat "redirected_successively") 1 := by
          simp [stat_Count]
        refine ⟨localReply r q rr.A, by simp, h3, h4, h5, h1, hst, ?_, ?_, ?_⟩
        · intro hlo hhi
          rw [hst, int_add_one _ hlo hhi]
        · intro hmax
          rw [hst, hmax, int_add_MaxInt]
        · simp [stat_Count]

/-- The scenario of the specification: `a.bar.test.` is redirected to `baz.test.`
although `baz.test` is itself a key, and the answer 5.6.7.8 comes back.  A target
whose final dot is escaped gets one more dot from `dns.Fqdn`. -/
theorem C3_redirect_witness :
    getSingleSimpleQuestion (queryA "a.bar.test.")
        = some ⟨"a.bar.test.", dns.TypeA, dns.ClassINET⟩ ∧
    strings.TrimSuffix "a.bar.test." "." ≠ "panic.com" ∧
    lookup scenarioRun.self.Database (strings.TrimSuffix "a.bar.test." ".")
        = some "baz.test" ∧
    (∃ c ∈ "baz.test".data, 'a' ≤ c ∧ c ≤ 'z') ∧
    scenarioRun.self.Servers ≠ [] ∧
    (ServeDNS scenarioEnv (queryA "a.bar.test.") scenarioRun).run.exchanged.map
        (fun x => (x.1.Question, x.2))
      = [([⟨"baz.test.", dns.TypeA, dns.ClassINET⟩], "192.0.2.1:53")] ∧
    dns.Fqdn (if strings.HasSuffix "a\\." "." then "a\\." else "a\\." ++ ".")
      = "a\\.." ∧
    (ServeDNS scenarioEnv (queryA "a.bar.test.") scenarioRun).run.written.map
        (fun m => m.Answer)
      = [[answerRecord ⟨"a.bar.test.", dns.TypeA, dns.ClassINET⟩ [5, 6, 7, 8]]] ∧
    ∃ server ∈ scenarioRun.self.Servers, ∃ sent s',
      ServeDNS scenarioEnv (queryA "a.bar.test.") scenarioRun = .ok () s' ∧
      s'.exchanged = scenarioRun.exchanged ++ [(sent, server)] ∧
      sent = { Id := scenarioEnv.Id, RecursionDesired := true,
               Question :=
                 [⟨dns.Fqdn (if strings.HasSuffix "baz.test" "." then "baz.test"
                     else "baz.test" ++ "."), dns.TypeA, dns.ClassINET⟩] } ∧
      ('\\' ∉ "baz.test".data →
        sent.Question
          = [⟨if strings.HasSuffix "baz.test" "." then "baz.test" else "baz.test" ++ ".",
              dns.TypeA, dns.ClassINET⟩]) ∧
      ∀ response rr, scenarioEnv.Exchange sent server = .ok response →
        response.Answer = [rr] → rr.Hdr.Rrtype = dns.TypeA →
        rr.Hdr.Class = dns.ClassINET →
        ∃ reply, s'.written = scenarioRun.written ++ [reply] ∧
          reply.Response = true ∧ reply.Id = (queryA "a.bar.test.").Id ∧
          reply.Rcode = dns.RcodeSuccess ∧
          reply.Answer
            = [{ Hdr := { Name := "a.bar.test.", Rrtype := dns.TypeA,
                          Class := dns.ClassINET, Ttl := 30, Rdlength := 4 },
                 A := rr.A }] ∧
          s'.stat "redirected_successively"
            = int.add (scenarioRun.stat "redirected_successively") 1 ∧
          (math.MinInt ≤ scenarioRun.stat "redirected_successively" →
            scenarioRun.stat "redirected_successively" < math.MaxInt →
            s'.stat "redirected_successively"
              = scenarioRun.stat "redirected_successively" + 1) ∧
          (scenarioRun.stat "redirected_successively" = math.MaxInt →
            s'.stat "redirected_successively" = math.MinInt) ∧
          s'.stat "local_responses" = scenarioRun.stat "local_responses" :=
  ⟨by decide, by decide, by decide, ⟨'b', by decide, by decide, by decide⟩, by decide,
    by decide, by decide, by decide,
    C3_redirect scenarioEnv (queryA "a.bar.test.")
      ⟨"a.bar.test.", dns.TypeA, dns.ClassINET⟩ scenarioRun "baz.test"
      (by decide) (by decide) (by decide) ⟨'b', by decide, by decide, by decide⟩
      (by decide)⟩

/-- C4, as stated, fails at the end of the range of a counter: the counters are Go
`int`s, and a redirect refused when `refusals` is `math.MaxInt` leaves it at
`math.MinInt`, which is not that value plus 1.  Here the upstream answers the redirect
of `a.bar.test.` with a CNAME record followed by one A record. -/
theorem C4_counterexample :
    saturatedRun.stat "refusals" = math.MaxInt ∧
    (ServeDNS cnameEnv (queryA "a.bar.test.") saturatedRun).run.exchanged
      = [(redirectQuestion cnameEnv.Id "baz.test", "192.0.2.1:53")] ∧
    (ServeDNS cnameEnv (queryA "a.bar.test.") saturatedRun).run.written.map
      (fun m => m.Rcode) = [dns.RcodeRefused] ∧
    (ServeDNS cnameEnv (queryA "a.bar.test.") saturatedRun).run.stat "refusals"
      = math.MinInt ∧
    math.MinInt ≠ math.MaxInt + 1 :=
  ⟨by decide, by decide, by decide, by decide, by decide⟩

/-- C4, amended. On the redirect path (an eligible request whose name, other than the
fault trigger, resolves to a target with a character in `a..z`), an exchange is made
whenever there is an upstream server, and every outcome of the exchange made other
than a successful response whose answer section is exactly one A record of class IN
ends in one REFUSED response to the request and one more `refusals`: after an exchange
error `upstream_errors` grows by 1 and `redirected_nowhere` is unchanged; after a
successful exchange without such an answer section (no answer, several answers such as
a CNAME followed by an A record, a single record that is not an A record of class IN)
`redirected_nowhere` grows by 1 and `upstream_errors` is unchanged;
`redirected_successively` never changes.  A counter grows by 1 as a Go `int`
(`int.add`): by exactly 1 from any `int` value below `math.MaxInt`, and from `math.MaxInt`
to `math.MinInt`. -/
theorem C4_redirect_refused (env : Env) (r : dns.Msg) (q : dns.Question) (s : Run)
    (target : String) (hq : getSingleSimpleQuestion r = some q)
    (hname : strings.TrimSuffix q.Name "." ≠ "panic.com")
    (hfound : lookup s.self.Database (strings.TrimSuffix q.Name ".") = some target)
    (hdom : ∃ c ∈ target.data, 'a' ≤ c ∧ c ≤ 'z') :
    (∀ v : Int, math.MinInt ≤ v → v < math.MaxInt → int.add v 1 = v + 1) ∧
    int.add math.MaxInt 1 = math.MinInt ∧
    ∃ s', ServeDNS env r s = .ok () s' ∧
      (s.self.Servers ≠ [] → ∃ server ∈ s.self.Servers,
        s'.exchanged = s.exchanged ++ [(redirectQuestion env.Id target, server)]) ∧
      ∀ server, s'.exchanged = s.exchanged ++ [(redirectQuestion env.Id target, server)] →
        (∀ e, env.Exchange (redirectQuestion env.Id target) server = .error e →
          (∃ m, s'.written = s.written ++ [m] ∧ m.Rcode = dns.RcodeRefused ∧
            m.Response = true ∧ m.Id = r.Id ∧ m.Answer = []) ∧
          s'.stat "refusals" = int.add (s.stat "refusals") 1 ∧
          s'.stat "upstream_errors" = int.add (s.stat "upstream_errors") 1 ∧
          s'.stat "redirected_nowhere" = s.stat "redirected_nowhere" ∧
          s'.stat "redirected_successively" = s.stat "redirected_successively") ∧
        (∀ response,
          env.Exchange (redirectQuestion env.Id target) server = .ok response →
          (¬ ∃ rr, response.Answer = [rr] ∧ rr.Hdr.Rrtype = dns.TypeA ∧
            rr.Hdr.Class = dns.ClassINET) →
          (∃ m, s'.written = s.written ++ [m] ∧ m.Rcode = dns.RcodeRefused ∧
            m.Response = true ∧ m.Id = r.Id ∧ m.Answer = []) ∧
          s'.stat "refusals" = int.add (s.stat "refusals") 1 ∧
          s'.stat "redirected_nowhere" = int.add (s.stat "redirected_nowhere") 1 ∧
          s'.stat "upstream_errors" = s.stat "upstream_errors" ∧
          s'.stat "redirected_successively" = s.stat "redirected_successively") := by
  have hdom' : looksLikeDomainName target = true := (looksLikeDomainName_iff target).mpr hdom
  refine ⟨int_add_one, int_add_MaxInt, ?_⟩
  obtain ⟨f1, f2, f3, f4, _, _⟩ := refusalMsg_fields r dns.RcodeRefused
  by_cases hsrv : s.self.Servers = []
  · refine ⟨_, (ServeDNS_redirect_empty env r q s target hq hname hfound hdom' hsrv).2,
      fun h => absurd hsrv h, ?_⟩
    intro server hex
    exact absurd hex (ne_append_singleton s.exchanged _)
  · obtain ⟨server, hmem, hpick⟩ := exists_pick env s hsrv
    cases hx : env.Exchange (redirectQuestion env.Id target) server with
    | error e =>
      refine ⟨_, ServeDNS_redirect_error env r q s target server e hq hname hfound hdom'
        hpick hx, fun _ => ⟨server, hmem, rfl⟩, ?_⟩
      intro server' hex
      have hs : server = server' := by
        have := append_singleton_inj s.exchanged _ _ hex
        simpa using this
      subst hs
      refine ⟨?_, ?_⟩
      · intro e' _
        refine ⟨⟨refusalMsg r dns.RcodeRefused, rfl, f1, f2, f3, f4⟩, ?_⟩
        simp [refuse_eq, stat_Count]
      · intro response hok
        rw [hx] at hok
        cases hok
    | ok response =>
      cases ha : getSingleSimpleAnswer response with
      | none =>
        refine ⟨_, ServeDNS_redirect_nowhere env r q s target server response hq hname
          hfound hdom' hpick hx ha, fun _ => ⟨server, hmem, rfl⟩, ?_⟩
        intro server' hex
        have hs : server = server' := by
          have := append_singleton_inj s.exchanged _ _ hex
          simpa using this
        subst hs
        refine ⟨?_, ?_⟩
        · intro e hok
          rw [hx] at hok
          cases hok
        · intro response' _ _
          refine ⟨⟨refusalMsg r dns.RcodeRefused, rfl, f1, f2, f3, f4⟩, ?_⟩
          simp [refuse_eq, stat_Count]
      | some ip =>
        refine ⟨_, ServeDNS_redirect_success env r q s target server response ip hq hname
          hfound hdom' hpick hx ha, fun _ => ⟨server, hmem, rfl⟩, ?_⟩
        intro server' hex
        have hs : server = server' := by
          have := append_singleton_inj s.exchanged _ _ hex
          simpa using this
        subst hs
        refine ⟨?_, ?_⟩
        · intro e hok
          rw [hx] at hok
          cases hok
        · intro response' hok hno
          rw [hx] at hok
          cases hok
          rw [getSingleSimpleAnswer_eq_none response hno] at ha
          cases ha

/-- The example of the claim: the upstream answers the redirect of `a.bar.test.` with
a CNAME record followed by one A record, and the client is refused. -/
theorem C4_redirect_refused_witness :
    getSingleSimpleQuestion (queryA "a.bar.test.")
        = some ⟨"a.bar.test.", dns.TypeA, dns.ClassINET⟩ ∧
    strings.TrimSuffix "a.bar.test." "." ≠ "panic.com" ∧
    lookup scenarioRun.self.Database (strings.TrimSuffix "a.bar.test." ".")
        = some "baz.test" ∧
    (∃ c ∈ "baz.test".data, 'a' ≤ c ∧ c ≤ 'z') ∧
    (ServeDNS cnameEnv (queryA "a.bar.test.") scenarioRun).run.written.map
        (fun m => m.Rcode) = [dns.RcodeRefused] ∧
    (ServeDNS cnameEnv (queryA "a.bar.test.") scenarioRun).run.self.stats
      = [("requests", 1), ("redirected_requests", 1), ("upstream_queries", 1),
         ("redirected_nowhere", 1), ("refusals", 1)] ∧
    (∀ v : Int, math.MinInt ≤ v → v < math.MaxInt → int.add v 1 = v + 1) ∧
    int.add math.MaxInt 1 = math.MinInt ∧
    ∃ s', ServeDNS cnameEnv (queryA "a.bar.test.") scenarioRun = .ok () s' ∧
      (scenarioRun.self.Servers ≠ [] → ∃ server ∈ scenarioRun.self.Servers,
        s'.exchanged
          = scenarioRun.exchanged ++ [(redirectQuestion cnameEnv.Id "baz.test", server)]) ∧
      ∀ server,
        s'.exchanged
          = scenarioRun.exchanged ++ [(redirectQuestion cnameEnv.Id "baz.test", server)] →
        (∀ e,
          cnameEnv.Exchange (redirectQuestion cnameEnv.Id "baz.test") server = .error e →
          (∃ m, s'.written = scenarioRun.written ++ [m] ∧ m.Rcode = dns.RcodeRefused ∧
            m.Response = true ∧ m.Id = (queryA "a.bar.test.").Id ∧ m.Answer = []) ∧
          s'.stat "refusals" = int.add (scenarioRun.stat "refusals") 1 ∧
          s'.stat "upstream_errors" = int.add (scenarioRun.stat "upstream_errors") 1 ∧
          s'.stat "redirected_nowhere" = scenarioRun.stat "redirected_nowhere" ∧
          s'.stat "redirected_successively"
            = scenarioRun.stat "redirected_successively") ∧
        (∀ response,
          cnameEnv.Exchange (redirectQuestion cnameEnv.Id "baz.test") server
            = .ok response →
          (¬ ∃ rr, response.Answer = [rr] ∧ rr.Hdr.Rrtype = dns.TypeA ∧
            rr.Hdr.Class = dns.ClassINET) →
          (∃ m, s'.written = scenarioRun.written ++ [m] ∧ m.Rcode = dns.RcodeRefused ∧
            m.Response = true ∧ m.Id = (queryA "a.bar.test.").Id ∧ m.Answer = []) ∧
          s'.stat "refusals" = int.add (scenarioRun.stat "refusals") 1 ∧
          s'.stat "redirected_nowhere"
            = int.add (scenarioRun.stat "redirected_nowhere") 1 ∧
          s'.stat "upstream_errors" = scenarioRun.stat "upstream_errors" ∧
          s'.stat "redirected_successively"
            = scenarioRun.stat "redirected_successively") :=
  ⟨by decide, by decide, by decide, ⟨'b', by decide, by decide, by decide⟩, by decide,
    by decide,
    C4_redirect_refused cnameEnv (queryA "a.bar.test.")
      ⟨"a.bar.test.", dns.TypeA, dns.ClassINET⟩ scenarioRun "baz.test"
      (by decide) (by decide) (by decide) ⟨'b', by decide, by decide, by decide⟩⟩

/-- C5, as stated, fails for the fault trigger: the name `panic.com` has no match in
the scenario table, yet nothing is passed to the upstream for the query `panic.com.`
and the client gets a SERVER-FAILURE response.  With an empty server list nothing is
passed to the upstream for the miss `other.test.` either.  And the counters are Go
`int`s: a failed exchange when `refusals` is `math.MaxInt` leaves it at
`math.MinInt`. -/
theorem C5_counterexample :
    (getSingleSimpleQuestion (queryA "panic.com.")
        = some ⟨"panic.com.", dns.TypeA, dns.ClassINET⟩ ∧
      lookup scenarioRun.self.Database (strings.TrimSuffix "panic.com." ".") = none ∧
      (ServeDNS scenarioEnv (queryA "panic.com.") scenarioRun).run.exchanged = [] ∧
      (ServeDNS scenarioEnv (queryA "panic.com.") scenarioRun).run.written.map
        (fun m => m.Rcode) = [dns.RcodeServerFailure]) ∧
    (getSingleSimpleQuestion (queryA "other.test.")
        = some ⟨"other.test.", dns.TypeA, dns.ClassINET⟩ ∧
      lookup orphanRun.self.Database (strings.TrimSuffix "other.test." ".") = none ∧
      (ServeDNS scenarioEnv (queryA "other.test.") orphanRun).run.exchanged = [] ∧
      (ServeDNS scenarioEnv (queryA "other.test.") orphanRun).run.written.map
        (fun m => m.Rcode) = [dns.RcodeServerFailure]) ∧
    (saturatedRun.stat "refusals" = math.MaxInt ∧
      saturatedRun.stat "upstream_errors" = math.MaxInt ∧
      (ServeDNS scenarioEnv (queryA "other.test.") saturatedRun).run.exchanged
        = [(queryA "other.test.", "192.0.2.1:53")] ∧
      scenarioEnv.Exchange (queryA "other.test.") "192.0.2.1:53" = .error "i/o timeout" ∧
      (ServeDNS scenarioEnv (queryA "other.test.") saturatedRun).run.stat "refusals"
        = math.MinInt ∧
      (ServeDNS scenarioEnv (queryA "other.test.") saturatedRun).run.stat
        "upstream_errors" = math.MinInt ∧
      math.MinInt ≠ math.MaxInt + 1) :=
  ⟨⟨by decide, by decide, by decide, by decide⟩,
    ⟨by decide, by decide, by decide, by decide⟩,
    ⟨by decide, by decide, by decide, rfl, by decide, by decide, by decide⟩⟩

/-- C5, amended. An eligible request whose name, other than the fault trigger, has no
exact and no wildcard match: the only message handed to an upstream server is the
request itself, to one server whenever there is one (with an empty server list no
exchange is made); after a successful exchange the one message written is the upstream
response itself and `proxied_refusals` grows by 1 exactly when that response has no
answer; after a failed exchange the client receives one REFUSED response and
`upstream_errors` and `refusals` each grow by 1.  A counter grows by 1 as a Go `int`
(`int.add`): by exactly 1 from any `int` value below `math.MaxInt`, and from `math.MaxInt`
to `math.MinInt`. -/
theorem C5_proxy (env : Env) (r : dns.Msg) (q : dns.Question) (s : Run)
    (hq : getSingleSimpleQuestion r = some q)
    (hname : strings.TrimSuffix q.Name "." ≠ "panic.com")
    (hmiss : lookup s.self.Database (strings.TrimSuffix q.Name ".") = none) :
    (∀ v : Int, math.MinInt ≤ v → v < math.MaxInt → int.add v 1 = v + 1) ∧
    int.add math.MaxInt 1 = math.MinInt ∧
    ∃ s', ServeDNS env r s = .ok () s' ∧
      (s.self.Servers ≠ [] →
        ∃ server ∈ s.self.Servers, s'.exchanged = s.exchanged ++ [(r, server)]) ∧
      (s.self.Servers = [] → s'.exchanged = s.exchanged) ∧
      ∀ server, s'.exchanged = s.exchanged ++ [(r, server)] →
        (∀ response, env.Exchange r server = .ok response →
          s'.written = s.written ++ [response] ∧
          (response.Answer = [] →
            s'.stat "proxied_refusals" = int.add (s.stat "proxied_refusals") 1) ∧
          (response.Answer ≠ [] →
            s'.stat "proxied_refusals" = s.stat "proxied_refusals")) ∧
        (∀ e, env.Exchange r server = .error e →
          (∃ m, s'.written = s.written ++ [m] ∧ m.Rcode = dns.RcodeRefused ∧
            m.Response = true ∧ m.Id = r.Id ∧ m.Answer = []) ∧
          s'.stat "upstream_errors" = int.add (s.stat "upstream_errors") 1 ∧
          s'.stat "refusals" = int.add (s.stat "refusals") 1) := by
  refine ⟨int_add_one, int_add_MaxInt, ?_⟩
  obtain ⟨f1, f2, f3, f4, _, _⟩ := refusalMsg_fields r dns.RcodeRefused
  have ht : tryAnswer env r (Count "requests" s) = .ok false (Count "requests" s) :=
    tryAnswer_miss env r q _ hq hname (by simpa using hmiss)
  by_cases hsrv : s.self.Servers = []
  · refine ⟨_, (ServeDNS_proxy_empty env r s ht hsrv).2, fun h => absurd hsrv h,
      fun _ => rfl, ?_⟩
    intro server hex
    exact absurd hex (ne_append_singleton s.exchanged _)
  · obtain ⟨server, hmem, hpick⟩ := exists_pick env s hsrv
    cases hx : env.Exchange r server with
    | error e =>
      refine ⟨_, ServeDNS_proxy_error env r s server e ht hpick hx,
        fun _ => ⟨server, hmem, rfl⟩, fun h => absurd h hsrv, ?_⟩
      intro server' hex
      have hs : server = server' := by
        have := append_singleton_inj s.exchanged _ _ hex
        simpa using this
      subst hs
      refine ⟨?_, ?_⟩
      · intro response hok
        rw [hx] at hok
        cases hok
      · intro e' _
        refine ⟨⟨refusalMsg r dns.RcodeRefused, rfl, f1, f2, f3, f4⟩, ?_⟩
        simp [refuse_eq, stat_Count]
    | ok response =>
      refine ⟨_, ServeDNS_proxy_success env r s server response ht hpick hx,
        fun _ => ⟨server, hmem, ?_⟩, fun h => absurd h hsrv, ?_⟩
      · rw [exchanged_WriteMsg, exchanged_ite_Count]
        rfl
      · intro server' hex
        rw [exchanged_WriteMsg, exchanged_ite_Count] at hex
        have hs : server = server' := by
          have := append_singleton_inj s.exchanged _ _ hex
          simpa using this
        subst hs
        refine ⟨?_, ?_⟩
        · intro response' hok
          rw [hx] at hok
          cases hok
          refine ⟨by rw [written_WriteMsg, written_ite_Count]; rfl, ?_, ?_⟩
          · intro h0
            simp [h0, stat_Count]
          · intro h0
            simp [h0, stat_Count]
        · intro e hok
          rw [hx] at hok
          cases hok

/-- The example of a miss: `other.test.` is proxied, the upstream fails. -/
theorem C5_proxy_witness :
    getSingleSimpleQuestion (queryA "other.test.")
        = some ⟨"other.test.", dns.TypeA, dns.ClassINET⟩ ∧
    strings.TrimSuffix "other.test." "." ≠ "panic.com" ∧
    lookup scenarioRun.self.Database (strings.TrimSuffix "other.test." ".") = none ∧
    (ServeDNS scenarioEnv (queryA "other.test.") scenarioRun).run.exchanged
        = [(queryA "other.test.", "192.0.2.1:53")] ∧
    (ServeDNS scenarioEnv (queryA "other.test.") scenarioRun).run.self.stats
      = [("requests", 1), ("proxied_requests", 1), ("upstream_queries", 1),
         ("upstream_errors", 1), ("refusals", 1)] ∧
    (∀ v : Int, math.MinInt ≤ v → v < math.MaxInt → int.add v 1 = v + 1) ∧
    int.add math.MaxInt 1 = math.MinInt ∧
    ∃ s', ServeDNS scenarioEnv (queryA "other.test.") scenarioRun = .ok () s' ∧
      (scenarioRun.self.Servers ≠ [] →
        ∃ server ∈ scenarioRun.self.Servers,
          s'.exchanged = scenarioRun.exchanged ++ [(queryA "other.test.", server)]) ∧
      (scenarioRun.self.Servers = [] → s'.exchanged = scenarioRun.exchanged) ∧
      ∀ server, s'.exchanged = scenarioRun.exchanged ++ [(queryA "other.test.", server)] →
        (∀ response, scenarioEnv.Exchange (queryA "other.test.") server = .ok response →
          s'.written = scenarioRun.written ++ [response] ∧
          (response.Answer = [] →
            s'.stat "proxied_refusals"
              = int.add (scenarioRun.stat "proxied_refusals") 1) ∧
          (response.Answer ≠ [] →
            s'.stat "proxied_refusals" = scenarioRun.stat "proxied_refusals")) ∧
        (∀ e, scenarioEnv.Exchange (queryA "other.test.") server = .error e →
          (∃ m, s'.written = scenarioRun.written ++ [m] ∧ m.Rcode = dns.RcodeRefused ∧
            m.Response = true ∧ m.Id = (queryA "other.test.").Id ∧ m.Answer = []) ∧
          s'.stat "upstream_errors" = int.add (scenarioRun.stat "upstream_errors") 1 ∧
          s'.stat "refusals" = int.add (scenarioRun.stat "refusals") 1) :=
  ⟨by decide, by decide, by decide, by decide, by decide,
    C5_proxy scenarioEnv (queryA "other.test.") ⟨"other.test.", dns.TypeA, dns.ClassINET⟩
      scenarioRun (by decide) (by decide) (by decide)⟩

/-- C7, as stated, fails at the end of the range of the counter, a Go `int`: the
query `panic.com.` made when `panic_refusals` is `math.MaxInt` leaves it at
`math.MinInt`, which is not that value plus 1. -/
theorem C7_counterexample :
    saturatedRun.stat "panic_refusals" = math.MaxInt ∧
    ServeDNS.body scenarioEnv (queryA "panic.com.") saturatedRun
      = .panic (Count "requests" saturatedRun) ∧
    (ServeDNS scenarioEnv (queryA "panic.com.") saturatedRun).run.written.map
      (fun m => m.Rcode) = [dns.RcodeServerFailure] ∧
    (ServeDNS scenarioEnv (queryA "panic.com.") saturatedRun).run.stat "panic_refusals"
      = math.MinInt ∧
    math.MinInt ≠ math.MaxInt + 1 :=
  ⟨by decide, by decide, by decide, by decide, by decide⟩

/-- C7, amended. A request whose processing panics: `ServeDNS` returns normally,
writes exactly one message, a response to that request with rcode SERVER-FAILURE,
`panic_refusals` grows by 1 as a Go `int` (by exactly 1 from any `int` value below
`math.MaxInt`, and from `math.MaxInt` to `math.MinInt`) and `refusals` does not
change.  An eligible query for `panic.com`, with or without the trailing dot, panics
under every override table. -/
theorem C7_fault_isolation :
    (∀ (env : Env) (r : dns.Msg) (s s1 : Run),
      ServeDNS.body env r s = .panic s1 →
      ∃ s' m, ServeDNS env r s = .ok () s' ∧
        s'.written = s.written ++ [m] ∧
        m.Rcode = dns.RcodeServerFailure ∧ m.Response = true ∧ m.Id = r.Id ∧
        m.Question = r.Question.take 1 ∧
        s'.stat "panic_refusals" = int.add (s.stat "panic_refusals") 1 ∧
        (math.MinInt ≤ s.stat "panic_refusals" → s.stat "panic_refusals" < math.MaxInt →
          s'.stat "panic_refusals" = s.stat "panic_refusals" + 1) ∧
        (s.stat "panic_refusals" = math.MaxInt →
          s'.stat "panic_refusals" = math.MinInt) ∧
        s'.stat "refusals" = s.stat "refusals") ∧
    (∀ (env : Env) (r : dns.Msg) (s : Run) (q : dns.Question),
      getSingleSimpleQuestion r = some q →
      q.Name = "panic.com" ∨ q.Name = "panic.com." →
      ServeDNS.body env r s = .panic (Count "requests" s)) := by
  constructor
  · intro env r s s1 hb
    obtain ⟨hw, hr, hp⟩ := body_panic_frame env r s s1 hb
    obtain ⟨f1, f2, f3, _, f5, _⟩ := refusalMsg_fields r dns.RcodeServerFailure
    have hst : (refuseOnPanic r s1).stat "panic_refusals"
        = int.add (s.stat "panic_refusals") 1 := by
      simp [refuseOnPanic_eq, stat_Count, hp]
    refine ⟨refuseOnPanic r s1, refusalMsg r dns.RcodeServerFailure, ?_, ?_, f1, f2, f3,
      f5, hst, ?_, ?_, ?_⟩
    · simp only [ServeDNS, hb]
    · simp [refuseOnPanic_eq, hw]
    · intro hlo hhi
      rw [hst, int_add_one _ hlo hhi]
    · intro hmax
      rw [hst, hmax, int_add_MaxInt]
    · simp [refuseOnPanic_eq, stat_Count, hr]
  · intro env r s q hq hname
    have ht : strings.TrimSuffix q.Name "." = "panic.com" := by
      rcases hname with h | h <;> rw [h] <;> decide
    exact (ServeDNS_panic env r q s hq ht).1

/-- The query `panic.com.` on the scenario server. -/
theorem C7_fault_isolation_witness :
    getSingleSimpleQuestion (queryA "panic.com.")
        = some ⟨"panic.com.", dns.TypeA, dns.ClassINET⟩ ∧
    ServeDNS.body scenarioEnv (queryA "panic.com.") scenarioRun
        = .panic (Count "requests" scenarioRun) ∧
    (ServeDNS scenarioEnv (queryA "panic.com.") scenarioRun).run.self.stats
      = [("requests", 1), ("panic_refusals", 1)] ∧
    ∃ s' m, ServeDNS scenarioEnv (queryA "panic.com.") scenarioRun = .ok () s' ∧
      s'.written = scenarioRun.written ++ [m] ∧
      m.Rcode = dns.RcodeServerFailure ∧ m.Response = true ∧
      m.Id = (queryA "panic.com.").Id ∧
      m.Question = (queryA "panic.com.").Question.take 1 ∧
      s'.stat "panic_refusals" = int.add (scenarioRun.stat "panic_refusals") 1 ∧
      (math.MinInt ≤ scenarioRun.stat "panic_refusals" →
        scenarioRun.stat "panic_refusals" < math.MaxInt →
        s'.stat "panic_refusals" = scenarioRun.stat "panic_refusals" + 1) ∧
      (scenarioRun.stat "panic_refusals" = math.MaxInt →
        s'.stat "panic_refusals" = math.MinInt) ∧
      s'.stat "refusals" = scenarioRun.stat "refusals" :=
  ⟨by decide,
    C7_fault_isolation.2 scenarioEnv (queryA "panic.com.") scenarioRun
      ⟨"panic.com.", dns.TypeA, dns.ClassINET⟩ (by decide) (Or.inr rfl),
    by decide,
    C7_fault_isolation.1 scenarioEnv (queryA "panic.com.") scenarioRun
      (Count "requests" scenarioRun)
      (C7_fault_isolation.2 scenarioEnv (queryA "panic.com.") scenarioRun
        ⟨"panic.com.", dns.TypeA, dns.ClassINET⟩ (by decide) (Or.inr rfl))⟩

/-- C8. One call of `ServeDNS`, for every request, override table, server list (the
empty one included) and upstream behaviour, returns normally and hands exactly one
message to the response writer. -/
theorem C8_exactly_one_write (env : Env) (r : dns.Msg) (s : Run) :
    ∃ s' m, ServeDNS env r s = .ok () s' ∧ s'.written = s.written ++ [m] := by
  have hp := body_path env r s
  rw [ServeDNS_of_body]
  generalize ServeDNS.body env r s = res at hp
  cases hp with
  | fault q hq hname => exact ⟨_, _, rfl, rfl⟩
  | localAnswer q value hq hname hfound hip => exact ⟨_, _, rfl, rfl⟩
  | redirectEmpty q value hq hname hfound hdom hsrv => exact ⟨_, _, rfl, rfl⟩
  | redirectError q value server e hq hname hfound hdom hpick hx =>
    exact ⟨_, _, rfl, rfl⟩
  | redirectNowhere q value server response hq hname hfound hdom hpick hx ha =>
    exact ⟨_, _, rfl, rfl⟩
  | redirectSuccess q value server response ip hq hname hfound hdom hpick hx ha =>
    exact ⟨_, _, rfl, rfl⟩
  | proxyEmpty ht hsrv => exact ⟨_, _, rfl, rfl⟩
  | proxyError server e ht hpick hx => exact ⟨_, _, rfl, rfl⟩
  | proxySuccess server response ht hpick hx =>
    refine ⟨_, response, rfl, ?_⟩
    show (Run.WriteMsg _ response).written = _
    rw [written_WriteMsg]
    split <;> rfl

/-- C9, as stated, fails: the request `ednsQuery` carries an OPT record with UDP
size 1232 and the DO bit set; the refusal written for it carries one OPT record, with
the DO bit set but with UDP size 4096. -/
theorem C9_counterexample :
    ednsQuery.Extra.map (fun rr => (rr.Hdr.Rrtype, rr.UDPSize, rr.Do))
        = [(dns.TypeOPT, 1232, true)] ∧
    (refuseWithCode ednsQuery dns.RcodeRefused scenarioRun).written.map
        (fun m => (m.Rcode, m.Extra.map (fun rr => (rr.Hdr.Rrtype, rr.UDPSize, rr.Do))))
      = [(dns.RcodeRefused, [(dns.TypeOPT, 4096, true)])] :=
  ⟨by decide, by decide⟩

/-- C9, amended. The message written by `refuseWithCode` has the given rcode; its
extra section holds, for each OPT record of the request in order, one OPT record
with UDP size 4096 and the DO bit of that record, and nothing else; so it carries no
OPT record when the request carries none. -/
theorem C9_refusal_edns (req : dns.Msg) (code : Int) (s : Run) :
    ∃ m, refuseWithCode req code s = s.WriteMsg m ∧
      m.Rcode = code ∧ m.Response = true ∧ m.Id = req.Id ∧
      m.Extra.map (fun rr => (rr.Hdr.Rrtype, rr.UDPSize, rr.Do))
        = (req.Extra.filter (fun rr => rr.Hdr.Rrtype = dns.TypeOPT)).map
            (fun rr => (dns.TypeOPT, 4096, rr.Do)) ∧
      (∀ rr ∈ req.Extra, rr.Hdr.Rrtype = dns.TypeOPT →
        ∃ rr' ∈ m.Extra, rr'.Hdr.Rrtype = dns.TypeOPT ∧ rr'.UDPSize = 4096 ∧
          rr'.Do = rr.Do) ∧
      ((∀ rr ∈ req.Extra, rr.Hdr.Rrtype ≠ dns.TypeOPT) → m.Extra = []) := by
  obtain ⟨f1, f2, f3, _, _, f6⟩ := refusalMsg_fields req code
  refine ⟨refusalMsg req code, rfl, f1, f2, f3, ?_, ?_, ?_⟩
  · rw [f6, List.map_map]
    apply List.map_congr_left
    intro rr _
    simp only [Function.comp, dns.RR.UDPSize, Do_opt]
  · intro rr hmem hopt
    refine ⟨{ Hdr := { Name := ".", Rrtype := dns.TypeOPT, Class := 4096,
                       Ttl := if rr.Do then 2 ^ 15 else 0 } }, ?_, rfl, rfl, ?_⟩
    · rw [f6]
      exact List.mem_map.mpr ⟨rr, List.mem_filter.mpr ⟨hmem, by simpa using hopt⟩, rfl⟩
    · exact Do_opt rr.Do
  · intro hno
    rw [f6]
    have : req.Extra.filter (fun rr => rr.Hdr.Rrtype = dns.TypeOPT) = [] := by
      rw [List.filter_eq_nil_iff]
      intro rr hmem
      simpa using hno rr hmem
    rw [this]
    rfl

/-- The refusal of `ednsQuery` with SERVER-FAILURE. -/
theorem C9_refusal_edns_witness :
    ∃ m, refuseWithCode ednsQuery dns.RcodeServerFailure scenarioRun
        = scenarioRun.WriteMsg m ∧
      m.Rcode = dns.RcodeServerFailure ∧ m.Response = true ∧ m.Id = ednsQuery.Id ∧
      m.Extra.map (fun rr => (rr.Hdr.Rrtype, rr.UDPSize, rr.Do))
        = (ednsQuery.Extra.filter (fun rr => rr.Hdr.Rrtype = dns.TypeOPT)).map
            (fun rr => (dns.TypeOPT, 4096, rr.Do)) ∧
      (∀ rr ∈ ednsQuery.Extra, rr.Hdr.Rrtype = dns.TypeOPT →
        ∃ rr' ∈ m.Extra, rr'.Hdr.Rrtype = dns.TypeOPT ∧ rr'.UDPSize = 4096 ∧
          rr'.Do = rr.Do) ∧
      ((∀ rr ∈ ednsQuery.Extra, rr.Hdr.Rrtype ≠ dns.TypeOPT) → m.Extra = []) :=
  C9_refusal_edns ednsQuery dns.RcodeServerFailure scenarioRun

/-- C10, as stated, fails for the fault trigger and for an empty server list.  With
the key `panic.com` bound to `baz.test`, the query `panic.com.` takes neither path:
no exchange is made, `redirected_requests` stays 0 and the client gets a
SERVER-FAILURE response; bound to `1.2.3.4`, it is not answered locally.  On the
scenario server without upstream servers, the target `baz.test` of `a.bar.test.` has
a character in `a..z`, yet no exchange is made. -/
theorem C10_counterexample :
    getSingleSimpleQuestion (queryA "panic.com.")
        = some ⟨"panic.com.", dns.TypeA, dns.ClassINET⟩ ∧
    (lookup (triggerRun "baz.test" ["192.0.2.1:53"]).self.Database
        (strings.TrimSuffix "panic.com." ".") = some "baz.test" ∧
      looksLikeDomainName "baz.test" = true ∧
      (ServeDNS scenarioEnv (queryA "panic.com.")
        (triggerRun "baz.test" ["192.0.2.1:53"])).run.exchanged = [] ∧
      (ServeDNS scenarioEnv (queryA "panic.com.")
        (triggerRun "baz.test" ["192.0.2.1:53"])).run.stat "redirected_requests" = 0 ∧
      (ServeDNS scenarioEnv (queryA "panic.com.")
        (triggerRun "baz.test" ["192.0.2.1:53"])).run.written.map
        (fun m => (m.Rcode, m.Answer)) = [(dns.RcodeServerFailure, [])]) ∧
    (lookup (triggerRun "1.2.3.4" ["192.0.2.1:53"]).self.Database
        (strings.TrimSuffix "panic.com." ".") = some "1.2.3.4" ∧
      looksLikeDomainName "1.2.3.4" = false ∧
      (ServeDNS scenarioEnv (queryA "panic.com.")
        (triggerRun "1.2.3.4" ["192.0.2.1:53"])).run.written.map
        (fun m => (m.Rcode, m.Answer)) = [(dns.RcodeServerFailure, [])] ∧
      (ServeDNS scenarioEnv (queryA "panic.com.")
        (triggerRun "1.2.3.4" ["192.0.2.1:53"])).run.stat "local_responses" = 0) ∧
    (getSingleSimpleQuestion (queryA "a.bar.test.")
        = some ⟨"a.bar.test.", dns.TypeA, dns.ClassINET⟩ ∧
      lookup orphanRun.self.Database (strings.TrimSuffix "a.bar.test." ".")
        = some "baz.test" ∧
      (ServeDNS scenarioEnv (queryA "a.bar.test.") orphanRun).run.exchanged = [] ∧
      (ServeDNS scenarioEnv (queryA "a.bar.test.") orphanRun).run.written.map
        (fun m => (m.Rcode, m.Answer)) = [(dns.RcodeServerFailure, [])]) :=
  ⟨by decide, ⟨by decide, by decide, by decide, by decide, by decide⟩,
    ⟨by decide, by decide, by decide, by decide⟩,
    ⟨by decide, by decide, by decide, by decide⟩⟩

/-- C10, amended. For an eligible request whose name, other than the fault trigger,
resolves to a target `t`: `looksLikeDomainName t` says whether `t` has a character in
`a..z`; if it has, the redirect path is taken: `redirected_requests` and
`upstream_queries` are counted once, and exactly one exchange, for `t`, is made when
there is an upstream server, while with an empty server list none is made and the
client gets a SERVER-FAILURE response; if it has none, the local answer path is taken,
no exchange is made and `upstream_queries`, `redirected_requests` and
`proxied_requests` are unchanged.  So the redirect path is taken exactly when `t` has
a character in `a..z`.  A counter counted once grows by 1 as a Go `int` (`int.add`):
by exactly 1 from any `int` value below `math.MaxInt`, and from `math.MaxInt` to
`math.MinInt`. -/
theorem C10_target_classification (env : Env) (r : dns.Msg) (q : dns.Question)
    (s : Run) (t : String) (hq : getSingleSimpleQuestion r = some q)
    (hname : strings.TrimSuffix q.Name "." ≠ "panic.com")
    (hfound : lookup s.self.Database (strings.TrimSuffix q.Name ".") = some t) :
    (∀ v : Int, math.MinInt ≤ v → v < math.MaxInt → int.add v 1 = v + 1) ∧
    int.add math.MaxInt 1 = math.MinInt ∧
    (looksLikeDomainName t = true ↔ ∃ c ∈ t.data, 'a' ≤ c ∧ c ≤ 'z') ∧
    ∃ s', ServeDNS env r s = .ok () s' ∧
      ((∃ c ∈ t.data, 'a' ≤ c ∧ c ≤ 'z') →
        s'.stat "redirected_requests" = int.add (s.stat "redirected_requests") 1 ∧
        s'.stat "upstream_queries" = int.add (s.stat "upstream_queries") 1 ∧
        s'.stat "local_responses" = s.stat "local_responses" ∧
        s'.stat "proxied_requests" = s.stat "proxied_requests" ∧
        (s.self.Servers ≠ [] → ∃ server ∈ s.self.Servers,
          s'.exchanged = s.exchanged ++ [(redirectQuestion env.Id t, server)]) ∧
        (s.self.Servers = [] →
          s'.exchanged = s.exchanged ∧
          s'.written = s.written ++ [refusalMsg r dns.RcodeServerFailure])) ∧
      ((¬ ∃ c ∈ t.data, 'a' ≤ c ∧ c ≤ 'z') →
        s'.exchanged = s.exchanged ∧
        s'.written = s.written ++ [localReply r q (env.ParseIP t)] ∧
        s'.stat "local_responses" = int.add (s.stat "local_responses") 1 ∧
        s'.stat "upstream_queries" = s.stat "upstream_queries" ∧
        s'.stat "redirected_requests" = s.stat "redirected_requests" ∧
        s'.stat "proxied_requests" = s.stat "proxied_requests") ∧
      (s'.stat "redirected_requests" ≠ s.stat "redirected_requests" ↔
        ∃ c ∈ t.data, 'a' ≤ c ∧ c ≤ 'z') ∧
      (s'.stat "local_responses" ≠ s.stat "local_responses" ↔
        ¬ ∃ c ∈ t.data, 'a' ≤ c ∧ c ≤ 'z') := by
  refine ⟨int_add_one, int_add_MaxInt, looksLikeDomainName_iff t, ?_⟩
  rw [← looksLikeDomainName_iff]
  cases hdom : looksLikeDomainName t with
  | false =>
    refine ⟨_, ServeDNS_local env r q s t hq hname hfound hdom, ?_, ?_, ?_, ?_⟩
    · intro h
      cases h
    · intro _
      simp [stat_Count]
    · simp [stat_Count]
    · simp [stat_Count]
  | true =>
    by_cases hsrv : s.self.Servers = []
    · refine ⟨_, (ServeDNS_redirect_empty env r q s t hq hname hfound hdom hsrv).2, ?_,
        ?_, ?_, ?_⟩
      · intro _
        simp [refuseOnPanic_eq, stat_Count, hsrv]
      · intro h
        exact absurd rfl h
      · simp [refuseOnPanic_eq, stat_Count]
      · simp [refuseOnPanic_eq, stat_Count]
    · obtain ⟨server, hmem, hpick⟩ := exists_pick env s hsrv
      cases hx : env.Exchange (redirectQuestion env.Id t) server with
      | error e =>
        refine ⟨_, ServeDNS_redirect_error env r q s t server e hq hname hfound hdom hpick
          hx, ?_, ?_, ?_, ?_⟩
        · intro _
          refine ⟨?_, ?_, ?_, ?_, fun _ => ⟨server, hmem, rfl⟩, fun h => absurd h hsrv⟩ <;>
              simp [refuse_eq, stat_Count]
        · intro h
          exact absurd rfl h
        · simp [refuse_eq, stat_Count]
        · simp [refuse_eq, stat_Count]
      | ok response =>
        cases ha : getSingleSimpleAnswer response with
        | none =>
          refine ⟨_, ServeDNS_redirect_nowhere env r q s t server response hq hname hfound
            hdom hpick hx ha, ?_, ?_, ?_, ?_⟩
          · intro _
            refine ⟨?_, ?_, ?_, ?_, fun _ => ⟨server, hmem, rfl⟩,
              fun h => absurd h hsrv⟩ <;> simp [refuse_eq, stat_Count]
          · intro h
            exact absurd rfl h
          · simp [refuse_eq, stat_Count]
          · simp [refuse_eq, stat_Count]
        | some ip =>
          refine ⟨_, ServeDNS_redirect_success env r q s t server response ip hq hname
            hfound hdom hpick hx ha, ?_, ?_, ?_, ?_⟩
          · intro _
            refine ⟨?_, ?_, ?_, ?_, fun _ => ⟨server, hmem, rfl⟩,
              fun h => absurd h hsrv⟩ <;> simp [refuse_eq, stat_Count]
          · intro h
            exact absurd rfl h
          · simp [stat_Count]
          · simp [stat_Count]

/-- The redirected target of the scenario, `baz.test`; the other target, `1.2.3.4`,
is answered without any exchange. -/
theorem C10_target_classification_witness :
    getSingleSimpleQuestion (queryA "a.bar.test.")
        = some ⟨"a.bar.test.", dns.TypeA, dns.ClassINET⟩ ∧
    strings.TrimSuffix "a.bar.test." "." ≠ "panic.com" ∧
    lookup scenarioRun.self.Database (strings.TrimSuffix "a.bar.test." ".")
        = some "baz.test" ∧
    (ServeDNS scenarioEnv (queryA "a.bar.test.") scenarioRun).run.exchanged.length = 1 ∧
    (ServeDNS scenarioEnv (queryA "foo.test.") scenarioRun).run.exchanged.length = 0 ∧
    (ServeDNS scenarioEnv (queryA "a.bar.test.") scenarioRun).run.self.stats
      = [("requests", 1), ("redirected_requests", 1), ("upstream_queries", 1),
         ("redirected_successively", 1)] ∧
    (∀ v : Int, math.MinInt ≤ v → v < math.MaxInt → int.add v 1 = v + 1) ∧
    int.add math.MaxInt 1 = math.MinInt ∧
    (looksLikeDomainName "baz.test" = true ↔
        ∃ c ∈ "baz.test".data, 'a' ≤ c ∧ c ≤ 'z') ∧
    ∃ s', ServeDNS scenarioEnv (queryA "a.bar.test.") scenarioRun = .ok () s' ∧
      ((∃ c ∈ "baz.test".data, 'a' ≤ c ∧ c ≤ 'z') →
        s'.stat "redirected_requests"
          = int.add (scenarioRun.stat "redirected_requests") 1 ∧
        s'.stat "upstream_queries" = int.add (scenarioRun.stat "upstream_queries") 1 ∧
        s'.stat "local_responses" = scenarioRun.stat "local_responses" ∧
        s'.stat "proxied_requests" = scenarioRun.stat "proxied_requests" ∧
        (scenarioRun.self.Servers ≠ [] → ∃ server ∈ scenarioRun.self.Servers,
          s'.exchanged
            = scenarioRun.exchanged
              ++ [(redirectQuestion scenarioEnv.Id "baz.test", server)]) ∧
        (scenarioRun.self.Servers = [] →
          s'.exchanged = scenarioRun.exchanged ∧
          s'.written
            = scenarioRun.written
              ++ [refusalMsg (queryA "a.bar.test.") dns.RcodeServerFailure])) ∧
      ((¬ ∃ c ∈ "baz.test".data, 'a' ≤ c ∧ c ≤ 'z') →
        s'.exchanged = scenarioRun.exchanged ∧
        s'.written
          = scenarioRun.written
            ++ [localReply (queryA "a.bar.test.")
                  ⟨"a.bar.test.", dns.TypeA, dns.ClassINET⟩
                  (scenarioEnv.ParseIP "baz.test")] ∧
        s'.stat "local_responses" = int.add (scenarioRun.stat "local_responses") 1 ∧
        s'.stat "upstream_queries" = scenarioRun.stat "upstream_queries" ∧
        s'.stat "redirected_requests" = scenarioRun.stat "redirected_requests" ∧
        s'.stat "proxied_requests" = scenarioRun.stat "proxied_requests") ∧
      (s'.stat "redirected_requests" ≠ scenarioRun.stat "redirected_requests" ↔
        ∃ c ∈ "baz.test".data, 'a' ≤ c ∧ c ≤ 'z') ∧
      (s'.stat "local_responses" ≠ scenarioRun.stat "local_responses" ↔
        ¬ ∃ c ∈ "baz.test".data, 'a' ≤ c ∧ c ≤ 'z') :=
  ⟨by decide, by decide, by decide, by decide, by decide, by decide,
    C10_target_classification scenarioEnv (queryA "a.bar.test.")
      ⟨"a.bar.test.", dns.TypeA, dns.ClassINET⟩ scenarioRun "baz.test"
      (by decide) (by decide) (by decide)⟩

/-- C11. No retry: one call of `ServeDNS`, for every request, override table, server
list and upstream behaviour, makes at most one exchange, so no second exchange follows
a failed one, and counts at most one upstream query: `upstream_queries` is unchanged
or has been counted once (`int.add`, the `+= 1` of a Go `int`), so that it never grows
by more than 1; and a redirect never falls back to the proxy: for an eligible request
whose name resolves to a target with a character in `a..z`, `proxied_requests` is
unchanged and the only message that can have been exchanged is the fresh question for
the target, never the request. -/
theorem C11_no_retry (env : Env) (r : dns.Msg) (s : Run) :
    ∃ s', ServeDNS env r s = .ok () s' ∧
      (s'.exchanged = s.exchanged ∨
        ∃ m server, s'.exchanged = s.exchanged ++ [(m, server)]) ∧
      (s'.stat "upstream_queries" = s.stat "upstream_queries" ∨
        s'.stat "upstream_queries" = int.add (s.stat "upstream_queries") 1) ∧
      (math.MinInt ≤ s.stat "upstream_queries" →
        s'.stat "upstream_queries" ≤ s.stat "upstream_queries" + 1) ∧
      (∀ (q : dns.Question) (target : String),
        getSingleSimpleQuestion r = some q →
        lookup s.self.Database (strings.TrimSuffix q.Name ".") = some target →
        (∃ c ∈ target.data, 'a' ≤ c ∧ c ≤ 'z') →
        s'.stat "proxied_requests" = s.stat "proxied_requests" ∧
        (s'.exchanged = s.exchanged ∨
          ∃ server,
            s'.exchanged = s.exchanged ++ [(redirectQuestion env.Id target, server)]) ∧
        (redirectQuestion env.Id target).Id = env.Id ∧
        (redirectQuestion env.Id target).Question
          = [⟨dns.Fqdn (if strings.HasSuffix target "." then target else target ++ "."),
              dns.TypeA, dns.ClassINET⟩]) := by
  have hgen := body_at_most_one env r s _ (body_path env r s)
  have key : ∃ s', ServeDNS env r s = .ok () s' ∧
      (s'.stat "upstream_queries" = s.stat "upstream_queries" ∨
        s'.stat "upstream_queries" = int.add (s.stat "upstream_queries") 1) ∧
      (s'.exchanged = s.exchanged ∨
        ∃ m server, s'.exchanged = s.exchanged ++ [(m, server)]) := by
    rcases ServeDNS_cases env r s with ⟨s', hb, hs⟩ | ⟨s1, hb, hs⟩
    · rw [hb] at hgen
      exact ⟨s', hs, hgen⟩
    · rw [hb] at hgen
      refine ⟨_, hs, ?_, ?_⟩
      · simpa [refuseOnPanic_eq, stat_Count, Result.run] using hgen.1
      · simpa [refuseOnPanic_eq, Result.run] using hgen.2
  obtain ⟨s', hs', h1, h2⟩ := key
  refine ⟨s', hs', h2, h1, ?_, ?_⟩
  · intro hlo
    rcases h1 with h | h
    · rw [h]
      omega
    · rw [h]
      exact int_add_one_le _ hlo
  · intro q target hq hfound hdom
    have hdom' : looksLikeDomainName target = true :=
      (looksLikeDomainName_iff target).mpr hdom
    by_cases hname : strings.TrimSuffix q.Name "." = "panic.com"
    · have hp := (ServeDNS_panic env r q s hq hname).2
      rw [hs'] at hp
      cases hp
      exact ⟨by simp [refuseOnPanic_eq, stat_Count], Or.inl (by simp [refuseOnPanic_eq]),
        rfl, rfl⟩
    · obtain ⟨s'', hs'', h3, h4⟩ :=
        ServeDNS_redirect_trace env r q s target hq hname hfound hdom'
      rw [hs'] at hs''
      cases hs''
      exact ⟨h3, h4, rfl, rfl⟩

/-- In the scenario a redirect, and a proxied request whose exchange fails, each make
one exchange; the redirect of `a.bar.test.`, answered with a record of class CHAOS, is
refused after the one exchange for `baz.test.`. -/
theorem C11_no_retry_witness :
    (ServeDNS scenarioEnv (queryA "a.b.bar.test.") scenarioRun).run.exchanged.length = 1 ∧
    (ServeDNS scenarioEnv (queryA "other.test.") scenarioRun).run.exchanged.length = 1 ∧
    (ServeDNS chaosEnv (queryA "a.bar.test.") scenarioRun).run.exchanged.map
        (fun x => x.1.Question) = [[⟨"baz.test.", dns.TypeA, dns.ClassINET⟩]] ∧
    (ServeDNS chaosEnv (queryA "a.bar.test.") scenarioRun).run.stat "proxied_requests"
      = 0 ∧
    ∃ s', ServeDNS chaosEnv (queryA "a.bar.test.") scenarioRun = .ok () s' ∧
      (s'.exchanged = scenarioRun.exchanged ∨
        ∃ m server, s'.exchanged = scenarioRun.exchanged ++ [(m, server)]) ∧
      (s'.stat "upstream_queries" = scenarioRun.stat "upstream_queries" ∨
        s'.stat "upstream_queries" = int.add (scenarioRun.stat "upstream_queries") 1) ∧
      (math.MinInt ≤ scenarioRun.stat "upstream_queries" →
        s'.stat "upstream_queries" ≤ scenarioRun.stat "upstream_queries" + 1) ∧
      (∀ (q : dns.Question) (target : String),
        getSingleSimpleQuestion (queryA "a.bar.test.") = some q →
        lookup scenarioRun.self.Database (strings.TrimSuffix q.Name ".") = some target →
        (∃ c ∈ target.data, 'a' ≤ c ∧ c ≤ 'z') →
        s'.stat "proxied_requests" = scenarioRun.stat "proxied_requests" ∧
        (s'.exchanged = scenarioRun.exchanged ∨
          ∃ server,
            s'.exchanged
              = scenarioRun.exchanged
                ++ [(redirectQuestion chaosEnv.Id target, server)]) ∧
        (redirectQuestion chaosEnv.Id target).Id = chaosEnv.Id ∧
        (redirectQuestion chaosEnv.Id target).Question
          = [⟨dns.Fqdn (if strings.HasSuffix target "." then target else target ++ "."),
              dns.TypeA, dns.ClassINET⟩]) :=
  ⟨by decide, by decide, by decide, by decide,
    C11_no_retry chaosEnv (queryA "a.bar.test.") scenarioRun⟩

/-- C12, as stated, fails at the end of the range of a counter, a Go `int`: the
request `foo.test.` served when `requests` is `math.MaxInt` leaves it at
`math.MinInt`, which is not that value plus 1; and the refused request `other.test.`
does the same to `refusals`. -/
theorem C12_counterexample :
    saturatedRun.stat "requests" = math.MaxInt ∧
    (ServeDNS scenarioEnv (queryA "foo.test.") saturatedRun).run.stat "requests"
      = math.MinInt ∧
    saturatedRun.stat "refusals" = math.MaxInt ∧
    (ServeDNS scenarioEnv (queryA "other.test.") saturatedRun).run.written.map
      (fun m => m.Rcode) = [dns.RcodeRefused] ∧
    (ServeDNS scenarioEnv (queryA "other.test.") saturatedRun).run.stat "refusals"
      = math.MinInt ∧
    math.MinInt ≠ math.MaxInt + 1 :=
  ⟨by decide, by decide, by decide, by decide, by decide, by decide⟩

/-- C12, amended. Counter accounting of one call of `ServeDNS`, for every request and
every upstream behaviour: `requests` is counted once (on the fault paths too);
`refusals` is counted once on the paths where the engine itself writes the REFUSED
response (redirect failure, redirect without a usable answer, proxy failure) and is
unchanged on every other path; `panic_refusals` is counted once on the fault paths,
those on which the body panics, and is unchanged on every other path; the two never
change for the same request.  A counter counted once grows by 1 as a Go `int`
(`int.add`): by exactly 1 from any `int` value below `math.MaxInt`, and from `math.MaxInt`
to `math.MinInt`. -/
theorem C12_counter_accounting (env : Env) (r : dns.Msg) (s : Run) :
    (∀ v : Int, math.MinInt ≤ v → v < math.MaxInt → int.add v 1 = v + 1) ∧
    int.add math.MaxInt 1 = math.MinInt ∧
    ∃ s' m, ServeDNS env r s = .ok () s' ∧ s'.written = s.written ++ [m] ∧
      s'.stat "requests" = int.add (s.stat "requests") 1 ∧
      s'.stat "refusals"
        = (if (pathOf env r s).refuses then int.add (s.stat "refusals") 1
           else s.stat "refusals") ∧
      s'.stat "panic_refusals"
        = (if (pathOf env r s).faults then int.add (s.stat "panic_refusals") 1
           else s.stat "panic_refusals") ∧
      (s'.stat "refusals" ≠ s.stat "refusals" ↔ (pathOf env r s).refuses = true) ∧
      (s'.stat "panic_refusals" ≠ s.stat "panic_refusals" ↔
        (pathOf env r s).faults = true) ∧
      ((pathOf env r s).refuses = true →
        m = refusalMsg r dns.RcodeRefused ∧ m.Rcode = dns.RcodeRefused) ∧
      ((pathOf env r s).faults = true →
        m = refusalMsg r dns.RcodeServerFailure ∧ m.Rcode = dns.RcodeServerFailure) ∧
      ((pathOf env r s).refuses = false → (pathOf env r s).faults = false →
        (m.Rcode = dns.RcodeSuccess ∧ m.Answer ≠ []) ∨
          ∃ server, env.Exchange r server = .ok m) ∧
      ((pathOf env r s).faults = true ↔ ∃ s1, ServeDNS.body env r s = .panic s1) ∧
      ¬ ((pathOf env r s).refuses = true ∧ (pathOf env r s).faults = true) := by
  refine ⟨int_add_one, int_add_MaxInt, ?_⟩
  obtain ⟨f1, _, _, _, _, _⟩ := refusalMsg_fields r dns.RcodeRefused
  obtain ⟨g1, _, _, _, _, _⟩ := refusalMsg_fields r dns.RcodeServerFailure
  have hS := ServeDNS_recovered env r s
  rcases pathOf_of_path env r s _ (body_path env r s) with
    ⟨hk, hb⟩ | ⟨hk, q, value, hb⟩ | ⟨hk, hb⟩ | ⟨hk, m, server, hb⟩ | ⟨hk, m, server, hb⟩ |
    ⟨hk, m, server, q, ip, hb⟩ | ⟨hk, hb⟩ | ⟨hk, server, hb⟩ |
    ⟨hk, server, response, hx, hb⟩
  · rw [hb] at hS
    refine ⟨_, refusalMsg r dns.RcodeServerFailure, hS, rfl, ?_⟩
    simp [hk, hb, PathKind.refuses, PathKind.faults, recovered, refuseOnPanic_eq,
      stat_Count, g1]
  · rw [hb] at hS
    obtain ⟨l1, _, _, _, l5, _⟩ := localReply_fields r q (env.ParseIP value)
    refine ⟨_, localReply r q (env.ParseIP value), hS, rfl, ?_⟩
    simp [hk, hb, PathKind.refuses, PathKind.faults, recovered, stat_Count, l1, l5]
  · rw [hb] at hS
    refine ⟨_, refusalMsg r dns.RcodeServerFailure, hS, rfl, ?_⟩
    simp [hk, hb, PathKind.refuses, PathKind.faults, recovered, refuseOnPanic_eq,
      stat_Count, g1]
  · rw [hb] at hS
    refine ⟨_, refusalMsg r dns.RcodeRefused, hS, rfl, ?_⟩
    simp [hk, hb, PathKind.refuses, PathKind.faults, recovered, refuse_eq, stat_Count, f1]
  · rw [hb] at hS
    refine ⟨_, refusalMsg r dns.RcodeRefused, hS, rfl, ?_⟩
    simp [hk, hb, PathKind.refuses, PathKind.faults, recovered, refuse_eq, stat_Count, f1]
  · rw [hb] at hS
    obtain ⟨l1, _, _, _, l5, _⟩ := localReply_fields r q ip
    refine ⟨_, localReply r q ip, hS, rfl, ?_⟩
    simp [hk, hb, PathKind.refuses, PathKind.faults, recovered, stat_Count, l1, l5]
  · rw [hb] at hS
    refine ⟨_, refusalMsg r dns.RcodeServerFailure, hS, rfl, ?_⟩
    simp [hk, hb, PathKind.refuses, PathKind.faults, recovered, refuseOnPanic_eq,
      stat_Count, g1]
  · rw [hb] at hS
    refine ⟨_, refusalMsg r dns.RcodeRefused, hS, rfl, ?_⟩
    simp [hk, hb, PathKind.refuses, PathKind.faults, recovered, refuse_eq, stat_Count, f1]
  · rw [hb] at hS
    refine ⟨_, response, hS, ?_, ?_⟩
    · simp only [recovered, written_WriteMsg, written_ite_Count]
      rfl
    · have hst : ∀ k : String, k ≠ "proxied_refusals" →
          (recovered r (.ok () ((if response.Answer.length = 0 then
            Count "proxied_refusals"
              ((Count "upstream_queries" (Count "proxied_requests"
                (Count "requests" s))).Exchange r server)
          else (Count "upstream_queries" (Count "proxied_requests"
            (Count "requests" s))).Exchange r server).WriteMsg response))).stat k
            = ((Count "upstream_queries" (Count "proxied_requests"
                (Count "requests" s))).Exchange r server).stat k := by
        intro k hk'
        simp only [recovered, stat_WriteMsg]
        split
        · rw [stat_Count, if_neg (Ne.symm hk')]
        · rfl
      rw [hst _ (by decide), hst _ (by decide), hst _ (by decide)]
      simp [hk, hb, PathKind.refuses, PathKind.faults, stat_Count]
      exact Or.inr ⟨server, hx⟩

/-- The paths of four scenario requests, and the accounting of the refused one. -/
theorem C12_counter_accounting_witness :
    pathOf chaosEnv (queryA "a.bar.test.") scenarioRun = .redirectNowhere ∧
    pathOf scenarioEnv (queryA "other.test.") scenarioRun = .proxyError ∧
    pathOf scenarioEnv (queryA "panic.com.") scenarioRun = .faultTrigger ∧
    pathOf scenarioEnv (queryA "foo.test.") scenarioRun = .localAnswer ∧
    (ServeDNS chaosEnv (queryA "a.bar.test.") scenarioRun).run.self.stats
      = [("requests", 1), ("redirected_requests", 1), ("upstream_queries", 1),
         ("redirected_nowhere", 1), ("refusals", 1)] ∧
    (∀ v : Int, math.MinInt ≤ v → v < math.MaxInt → int.add v 1 = v + 1) ∧
    int.add math.MaxInt 1 = math.MinInt ∧
    ∃ s' m, ServeDNS chaosEnv (queryA "a.bar.test.") scenarioRun = .ok () s' ∧
      s'.written = scenarioRun.written ++ [m] ∧
      s'.stat "requests" = int.add (scenarioRun.stat "requests") 1 ∧
      s'.stat "refusals"
        = (if (pathOf chaosEnv (queryA "a.bar.test.") scenarioRun).refuses then
             int.add (scenarioRun.stat "refusals") 1
           else scenarioRun.stat "refusals") ∧
      s'.stat "panic_refusals"
        = (if (pathOf chaosEnv (queryA "a.bar.test.") scenarioRun).faults then
             int.add (scenarioRun.stat "panic_refusals") 1
           else scenarioRun.stat "panic_refusals") ∧
      (s'.stat "refusals" ≠ scenarioRun.stat "refusals" ↔
        (pathOf chaosEnv (queryA "a.bar.test.") scenarioRun).refuses = true) ∧
      (s'.stat "panic_refusals" ≠ scenarioRun.stat "panic_refusals" ↔
        (pathOf chaosEnv (queryA "a.bar.test.") scenarioRun).faults = true) ∧
      ((pathOf chaosEnv (queryA "a.bar.test.") scenarioRun).refuses = true →
        m = refusalMsg (queryA "a.bar.test.") dns.RcodeRefused ∧
          m.Rcode = dns.RcodeRefused) ∧
      ((pathOf chaosEnv (queryA "a.bar.test.") scenarioRun).faults = true →
        m = refusalMsg (queryA "a.bar.test.") dns.RcodeServerFailure ∧
          m.Rcode = dns.RcodeServerFailure) ∧
      ((pathOf chaosEnv (queryA "a.bar.test.") scenarioRun).refuses = false →
        (pathOf chaosEnv (queryA "a.bar.test.") scenarioRun).faults = false →
        (m.Rcode = dns.RcodeSuccess ∧ m.Answer ≠ []) ∨
          ∃ server, chaosEnv.Exchange (queryA "a.bar.test.") server = .ok m) ∧
      ((pathOf chaosEnv (queryA "a.bar.test.") scenarioRun).faults = true ↔
        ∃ s1, ServeDNS.body chaosEnv (queryA "a.bar.test.") scenarioRun = .panic s1) ∧
      ¬ ((pathOf chaosEnv (queryA "a.bar.test.") scenarioRun).refuses = true ∧
        (pathOf chaosEnv (queryA "a.bar.test.") scenarioRun).faults = true) :=
  ⟨by decide, by decide, by decide, by decide, by decide,
    C12_counter_accounting chaosEnv (queryA "a.bar.test.") scenarioRun⟩

/-- C13, as stated, fails at the end of the range of a Go `int`: `Count` applied to a
counter at `math.MaxInt` leaves it at `math.MinInt`, which is not that value plus
1. -/
theorem C13_counterexample :
    mapGet saturatedRun.self.stats "requests" = some math.MaxInt ∧
    mapGet (Count "requests" saturatedRun).self.stats "requests" = some math.MinInt ∧
    math.MinInt ≠ math.MaxInt + 1 :=
  ⟨by decide, by decide, by decide⟩

/-- C13, amended. `Count(name)` adds 1 to the counter `name` as a Go `int`, an absent
counter counting as 0 (so that it is 1 after the first call): a value below
`math.MaxInt` grows by exactly 1, and `math.MaxInt` becomes `math.MinInt`; it leaves
the presence and the value of every other counter as they were, and touches nothing
else; after `k` calls on an empty registry the counter `name` has the value `k`, for
every `k` up to `math.MaxInt`. -/
theorem C13_count_adds_one (name : String) (s : Run) :
    mapGet (Count name s).self.stats name
      = some (int.add (statValue s.self.stats name) 1) ∧
    (mapGet s.self.stats name = none →
      mapGet (Count name s).self.stats name = some 1) ∧
    (∀ v, mapGet s.self.stats name = some v → math.MinInt ≤ v → v < math.MaxInt →
      mapGet (Count name s).self.stats name = some (v + 1)) ∧
    (mapGet s.self.stats name = some math.MaxInt →
      mapGet (Count name s).self.stats name = some math.MinInt) ∧
    (∀ other, other ≠ name →
      mapGet (Count name s).self.stats other = mapGet s.self.stats other) ∧
    (Count name s).self.Servers = s.self.Servers ∧
    (Count name s).self.Database = s.self.Database ∧
    (Count name s).written = s.written ∧ (Count name s).exchanged = s.exchanged ∧
    (∀ k : Nat, s.self.stats = [] → (k : Int) ≤ math.MaxInt →
      statValue ((Count name)^[k] s).self.stats name = k ∧
      (0 < k → mapGet ((Count name)^[k] s).self.stats name = some (k : Int))) := by
  refine ⟨by simp [mapGet_Count], ?_, ?_, ?_, ?_, rfl, rfl, rfl, rfl, ?_⟩
  · intro h
    simp only [mapGet_Count, if_true, statValue, h, Option.getD_none]
    rfl
  · intro v h hlo hhi
    simp only [mapGet_Count, if_true, statValue, h, Option.getD_some,
      int_add_one v hlo hhi]
  · intro h
    simp only [mapGet_Count, if_true, statValue, h, Option.getD_some, int_add_MaxInt]
  · intro other h
    simp [mapGet_Count, Ne.symm h]
  · intro k hempty hk
    have h0 : s.stat name = 0 := by simp [Run.stat, statValue, hempty, mapGet]
    refine ⟨stat_iterate_Count name k s h0 hk, ?_⟩
    intro hpos
    obtain ⟨j, rfl⟩ : ∃ j, k = j + 1 := ⟨k - 1, by omega⟩
    have hj' : (j : Int) < math.MaxInt := by
      push_cast at hk
      omega
    have hj := stat_iterate_Count name j s h0 (le_of_lt hj')
    rw [Function.iterate_succ_apply', mapGet_Count, if_pos rfl,
      show statValue ((Count name)^[j] s).self.stats name = (j : Int) from hj,
      int_add_one _ (by unfold math.MinInt; omega) hj']
    push_cast
    rfl

/-- Three calls of `Count` on the empty registry of the scenario server. -/
theorem C13_count_adds_one_witness :
    scenarioRun.self.stats = [] ∧ ((3 : Nat) : Int) ≤ math.MaxInt ∧
    ((Count "requests")^[3] scenarioRun).self.stats = [("requests", 3)] ∧
    (Count "refusals" ((Count "requests")^[3] scenarioRun)).self.stats
      = [("requests", 3), ("refusals", 1)] ∧
    statValue ((Count "requests")^[3] scenarioRun).self.stats "requests" = (3 : Nat) ∧
    (0 < 3 → mapGet ((Count "requests")^[3] scenarioRun).self.stats "requests"
      = some ((3 : Nat) : Int)) :=
  ⟨rfl, by decide, by decide, by decide,
    (C13_count_adds_one "requests" scenarioRun).2.2.2.2.2.2.2.2.2 3 rfl (by decide)⟩

/-- C14. For every registry, `GetStats` returns exactly the pairs (name, value) of the
counters present, each with its current value and each once, in strictly ascending
order of name, whatever the order in which the map is ranged over; it leaves the
server as it was, so a second call returns the same sequence. -/
theorem C14_GetStats_snapshot (s : Run) :
    (GetStats s).2 = s ∧
    (∀ (k : String) (v : Int),
      (⟨k, v⟩ : StatTuple) ∈ (GetStats s).1 ↔ mapGet s.self.stats k = some v) ∧
    ((GetStats s).1.map (fun t => t.Key)).Sorted (· < ·) ∧
    ((GetStats s).1.map (fun t => t.Key)).Nodup ∧
    (GetStats (GetStats s).2).1 = (GetStats s).1 ∧
    (∀ keys : List String, keys.Perm (mapKeys s.self.stats) →
      (sort.Strings keys).map (fun k => (⟨k, statValue s.self.stats k⟩ : StatTuple))
        = (GetStats s).1) := by
  have hkeys : (GetStats s).1.map (fun t => t.Key) = sort.Strings (mapKeys s.self.stats) := by
    simp [GetStats, Function.comp_def]
  have hnodup : (sort.Strings (mapKeys s.self.stats)).Nodup :=
    (sort_Strings_perm _).nodup_iff.mpr (nodup_mapKeys _)
  refine ⟨rfl, ?_, ?_, ?_, rfl, ?_⟩
  · intro k v
    simp only [GetStats, List.mem_map, (sort_Strings_perm _).mem_iff, mem_mapKeys]
    constructor
    · rintro ⟨k', ⟨v', hv'⟩, heq⟩
      cases heq
      simp [statValue, hv']
    · intro h
      exact ⟨k, ⟨v, h⟩, by simp [statValue, h]⟩
  · rw [hkeys]
    exact (sort_Strings_sorted _).lt_of_le hnodup
  · rw [hkeys]
    exact hnodup
  · intro keys hperm
    simp only [GetStats]
    rw [sort_Strings_of_perm keys _ hperm]

/-- The snapshot of a registry with three counters, counted in another order. -/
theorem C14_GetStats_snapshot_witness :
    (GetStats (Count "b" (Count "a" (Count "b" (Count "requests" scenarioRun))))).1
      = [⟨"a", 1⟩, ⟨"b", 2⟩, ⟨"requests", 1⟩] ∧
    (Count "b" (Count "a" (Count "b" (Count "requests" scenarioRun)))).self.stats
      = [("requests", 1), ("b", 2), ("a", 1)] ∧
    ((GetStats (Count "b" (Count "a" (Count "b" (Count "requests" scenarioRun))))).1.map
      (fun t => t.Key)).Sorted (· < ·) :=
  ⟨by decide, by decide,
    (C14_GetStats_snapshot
      (Count "b" (Count "a" (Count "b" (Count "requests" scenarioRun))))).2.2.1⟩

/-- C15. The table `readDatabaseFromConfig` builds from the trimmed non-empty lines of
the hosts file: every line is cut at its first `#`, trimmed and split on white space,
and is written into the table as (field 1, field 2) exactly when it has two fields;
any other line leaves the table as it is and the loop goes on; the table maps a
domain to the target of the last contributing line with that domain and has no other
key. -/
theorem C15_override_table_parsing (scanned : List String) :
    readAllLinesFromFile (.ok scanned)
      = .ok ((scanned.map strings.TrimSpace).filter (fun line => line ≠ "")) ∧
    readDatabaseFromConfig (.ok scanned)
      = ((scanned.map strings.TrimSpace).filter (fun line => line ≠ "")).foldl
          readDatabaseFromConfig.step [] ∧
    (∀ (db : List (String × String)) (line : String),
      (∀ domain target,
        strings.Fields (strings.TrimSpace
            (String.mk (line.data.takeWhile (fun c => c ≠ '#')))) = [domain, target] →
        readDatabaseFromConfig.step db line = mapSet db domain target) ∧
      ((strings.Fields (strings.TrimSpace
            (String.mk (line.data.takeWhile (fun c => c ≠ '#'))))).length ≠ 2 →
        readDatabaseFromConfig.step db line = db)) ∧
    (∀ domain : String,
      mapGet (readDatabaseFromConfig (.ok scanned)) domain
        = lastTarget
            (((scanned.map strings.TrimSpace).filter (fun line => line ≠ "")).filterMap
              contribution) domain) ∧
    (∀ domain : String,
      (∃ target, mapGet (readDatabaseFromConfig (.ok scanned)) domain = some target) ↔
        ∃ line ∈ (scanned.map strings.TrimSpace).filter (fun line => line ≠ ""),
          ∃ target, contribution line = some (domain, target)) := by
  have hread := readAllLinesFromFile_ok scanned
  have hdb : readDatabaseFromConfig (.ok scanned)
      = ((scanned.map strings.TrimSpace).filter (fun line => line ≠ "")).foldl
          readDatabaseFromConfig.step [] := by
    simp only [readDatabaseFromConfig, hread]
  have hget : ∀ domain : String,
      mapGet (readDatabaseFromConfig (.ok scanned)) domain
        = lastTarget
            (((scanned.map strings.TrimSpace).filter (fun line => line ≠ "")).filterMap
              contribution) domain := by
    intro domain
    rw [hdb, mapGet_foldl_step]
    simp [mapGet]
  refine ⟨hread, hdb, ?_, hget, ?_⟩
  · intro db line
    constructor
    · intro domain target hf
      exact step_some db line domain target (by unfold contribution; rw [hf])
    · intro hlen
      apply step_none
      unfold contribution
      split
      · rename_i heq
        rw [heq] at hlen
        simp at hlen
      · rfl
  · intro domain
    rw [hget]
    unfold lastTarget
    rw [mapGet_isSome_iff]
    constructor
    · rintro ⟨p, hp, hk⟩
      rw [List.mem_reverse, List.mem_filterMap] at hp
      obtain ⟨line, hline, hc⟩ := hp
      obtain ⟨d, t⟩ := p
      simp only at hk
      subst hk
      exact ⟨line, hline, t, hc⟩
    · rintro ⟨line, hline, target, hc⟩
      exact ⟨(domain, target), by
        rw [List.mem_reverse, List.mem_filterMap]
        exact ⟨line, hline, hc⟩, rfl⟩

/-- A hosts file with a comment, a duplicate domain, a blank line and two lines that
do not have two fields. -/
theorem C15_override_table_parsing_witness :
    readDatabaseFromConfig
        (.ok ["# hosts", "foo.test 1.2.3.4", "   ", "one two three", "lonely # x y",
              "  foo.test   9.9.9.9  # newer", "*.bar.test baz.test"])
      = [("foo.test", "9.9.9.9"), ("*.bar.test", "baz.test")] ∧
    contribution "  foo.test   9.9.9.9  # newer" = some ("foo.test", "9.9.9.9") ∧
    contribution "one two three" = none ∧
    contribution "lonely # x y" = none ∧
    (∀ domain : String,
      mapGet (readDatabaseFromConfig (.ok ["foo.test 1.2.3.4", "foo.test 9.9.9.9"])) domain
        = lastTarget
            (((["foo.test 1.2.3.4", "foo.test 9.9.9.9"].map strings.TrimSpace).filter
              (fun line => line ≠ "")).filterMap contribution) domain) :=
  ⟨by decide, by decide, by decide, by decide,
    (C15_override_table_parsing ["foo.test 1.2.3.4", "foo.test 9.9.9.9"]).2.2.2.1⟩

/-- C16. The server list read by `readUpstreamServersFromConfig` has one address per
trimmed non-empty line of the nameservers file, in the same order; an address without
a colon gets `:53` appended, and an address that specifies a port is returned as it
is.  An address that has a colon and specifies no port is returned as it is too: the
IPv6 address `::1` stays `::1`, without the port 53. -/
theorem C16_upstream_server_list :
    (∀ scanned : List String,
      readUpstreamServersFromConfig (.ok scanned)
        = .ok (((scanned.map strings.TrimSpace).filter (fun line => line ≠ "")).map
            (fun line => if strings.Contains line ':' then line else line ++ ":53"))) ∧
    (∀ line : String, specifiesPort line = true →
      (if strings.Contains line ':' then line else line ++ ":53") = line) ∧
    (∀ line : String, strings.Contains line ':' = false →
      specifiesPort line = false ∧
        (if strings.Contains line ':' then line else line ++ ":53") = line ++ ":53") ∧
    specifiesPort "::1" = false ∧
    readUpstreamServersFromConfig (.ok ["8.8.8.8", " 1.1.1.1:5353", "", "::1"])
      = .ok ["8.8.8.8:53", "1.1.1.1:5353", "::1"] := by
  refine ⟨readUpstreamServersFromConfig_ok, ?_, ?_, by decide, by rfl⟩
  · intro line h
    rw [if_pos (Contains_of_specifiesPort line h)]
  · intro line h
    refine ⟨?_, by simp [h]⟩
    cases hs : specifiesPort line with
    | false => rfl
    | true =>
      rw [Contains_of_specifiesPort line hs] at h
      cases h

/-- C17. Fault freedom under the precondition: for a request whose question, if it is
eligible, is not for the fault trigger, and a server list that is not empty, under
every override table and upstream behaviour: the index drawn in
`exchangeWithUpstream` is within the server list; `respondSuccessively` does not
panic on an eligible request, and `tryAnswer` returns before reaching it on a request
that is not eligible; the body of `ServeDNS` returns without a panic, so the recovery
branch is not taken, and `panic_refusals` is unchanged. -/
theorem C17_fault_freedom (env : Env) (r : dns.Msg) (s : Run)
    (hsrv : s.self.Servers ≠ [])
    (hname : ∀ q, getSingleSimpleQuestion r = some q →
      strings.TrimSuffix q.Name "." ≠ "panic.com") :
    (∃ i server, env.Intn s.self.Servers.length = some i ∧ i < s.self.Servers.length ∧
      s.self.Servers[i]? = some server) ∧
    (∀ (q : dns.Question) (addr : net.IP) (s0 : Run),
      getSingleSimpleQuestion r = some q →
      ∃ s1, respondSuccessively r addr s0 = .ok () s1) ∧
    (getSingleSimpleQuestion r = none → ∀ s0, tryAnswer env r s0 = .ok false s0) ∧
    ∃ s', ServeDNS.body env r s = .ok () s' ∧ ServeDNS env r s = .ok () s' ∧
      s'.stat "panic_refusals" = s.stat "panic_refusals" := by
  refine ⟨?_, ?_, ?_, ?_⟩
  · have hpos : 0 < s.self.Servers.length := List.length_pos.mpr hsrv
    have hlt : env.seed % s.self.Servers.length < s.self.Servers.length :=
      Nat.mod_lt _ hpos
    refine ⟨env.seed % s.self.Servers.length, s.self.Servers[env.seed % s.self.Servers.length],
      ?_, hlt, List.getElem?_eq_getElem hlt⟩
    simp [Env.Intn, Nat.pos_iff_ne_zero.mp hpos]
  · intro q addr s0 hq
    exact ⟨_, respondSuccessively_localReply r q addr s0 hq⟩
  · intro hq s0
    exact tryAnswer_ineligible env r s0 hq
  · have hp := body_path env r s
    have hS := ServeDNS_recovered env r s
    generalize ServeDNS.body env r s = res at hp hS
    cases hp with
    | fault q hq hn => exact absurd hn (hname q hq)
    | localAnswer q value hq hn hfound hip =>
      exact ⟨_, rfl, hS, by simp [stat_Count]⟩
    | redirectEmpty q value hq hn hfound hdom hempty => exact absurd hempty hsrv
    | redirectError q value server e hq hn hfound hdom hpick hx =>
      exact ⟨_, rfl, hS, by simp [refuse_eq, stat_Count]⟩
    | redirectNowhere q value server response hq hn hfound hdom hpick hx ha =>
      exact ⟨_, rfl, hS, by simp [refuse_eq, stat_Count]⟩
    | redirectSuccess q value server response ip hq hn hfound hdom hpick hx ha =>
      exact ⟨_, rfl, hS, by simp [stat_Count]⟩
    | proxyEmpty ht hempty => exact absurd hempty hsrv
    | proxyError server e ht hpick hx =>
      exact ⟨_, rfl, hS, by simp [refuse_eq, stat_Count]⟩
    | proxySuccess server response ht hpick hx =>
      refine ⟨_, rfl, hS, ?_⟩
      rw [stat_WriteMsg]
      split <;> simp [stat_Count]

/-- The scenario redirect: no panic, `panic_refusals` stays as it is. -/
theorem C17_fault_freedom_witness :
    scenarioRun.self.Servers ≠ [] ∧
    (∀ q, getSingleSimpleQuestion (queryA "a.bar.test.") = some q →
      strings.TrimSuffix q.Name "." ≠ "panic.com") ∧
    (∃ i server, scenarioEnv.Intn scenarioRun.self.Servers.length = some i ∧
      i < scenarioRun.self.Servers.length ∧ scenarioRun.self.Servers[i]? = some server) ∧
    (∀ (q : dns.Question) (addr : net.IP) (s0 : Run),
      getSingleSimpleQuestion (queryA "a.bar.test.") = some q →
      ∃ s1, respondSuccessively (queryA "a.bar.test.") addr s0 = .ok () s1) ∧
    (getSingleSimpleQuestion (queryA "a.bar.test.") = none →
      ∀ s0, tryAnswer scenarioEnv (queryA "a.bar.test.") s0 = .ok false s0) ∧
    ∃ s', ServeDNS.body scenarioEnv (queryA "a.bar.test.") scenarioRun = .ok () s' ∧
      ServeDNS scenarioEnv (queryA "a.bar.test.") scenarioRun = .ok () s' ∧
      s'.stat "panic_refusals" = scenarioRun.stat "panic_refusals" :=
  have hname : ∀ q, getSingleSimpleQuestion (queryA "a.bar.test.") = some q →
      strings.TrimSuffix q.Name "." ≠ "panic.com" := by
    intro q hq
    have : q = ⟨"a.bar.test.", dns.TypeA, dns.ClassINET⟩ := by
      have h0 : getSingleSimpleQuestion (queryA "a.bar.test.")
          = some ⟨"a.bar.test.", dns.TypeA, dns.ClassINET⟩ := by decide
      rw [h0] at hq
      exact (Option.some.inj hq).symm
    subst this
    decide
  ⟨by decide, hname,
    C17_fault_freedom scenarioEnv (queryA "a.bar.test.") scenarioRun (by decide) hname⟩

/-- C18, as stated, fails for the fault trigger and for the two kinds of target.  On
the scenario server without upstream servers the name `panic.com` has no match, yet
the query `panic.com.` leaves `upstream_queries` at 0.  With the key `panic.com` bound
to `1.2.3.4` the query is not answered locally.  The IP literal `fe80::1` has a letter
`a..z`: the request for it is not answered locally but ends in SERVER-FAILURE.  And
the domain name `EXAMPLE.COM` has none: the request for it is answered and does not
end on the fault path. -/
theorem C18_counterexample :
    orphanRun.self.Servers = [] ∧
    (getSingleSimpleQuestion (queryA "panic.com.")
        = some ⟨"panic.com.", dns.TypeA, dns.ClassINET⟩ ∧
      lookup orphanRun.self.Database (strings.TrimSuffix "panic.com." ".") = none ∧
      (ServeDNS scenarioEnv (queryA "panic.com.") orphanRun).run.written.map
        (fun m => m.Rcode) = [dns.RcodeServerFailure] ∧
      (ServeDNS scenarioEnv (queryA "panic.com.") orphanRun).run.self.stats
        = [("requests", 1), ("panic_refusals", 1)] ∧
      (ServeDNS scenarioEnv (queryA "panic.com.") orphanRun).run.stat "upstream_queries"
        = orphanRun.stat "upstream_queries") ∧
    (lookup (triggerRun "1.2.3.4" []).self.Database (strings.TrimSuffix "panic.com." ".")
        = some "1.2.3.4" ∧
      (ServeDNS scenarioEnv (queryA "panic.com.") (triggerRun "1.2.3.4" [])).run.written.map
        (fun m => (m.Rcode, m.Answer)) = [(dns.RcodeServerFailure, [])]) ∧
    (getSingleSimpleQuestion (queryA "six.test.")
        = some ⟨"six.test.", dns.TypeA, dns.ClassINET⟩ ∧
      lookup (sixRun []).self.Database (strings.TrimSuffix "six.test." ".")
        = some "fe80::1" ∧
      sixEnv.ParseIP "fe80::1" = [254, 128, 0, 0, 0, 0, 0, 0, 0, 0, 0, 0, 0, 0, 0, 1] ∧
      (ServeDNS sixEnv (queryA "six.test.") (sixRun [])).run.written.map
        (fun m => (m.Rcode, m.Answer)) = [(dns.RcodeServerFailure, [])]) ∧
    (lookup [("shout.test", "EXAMPLE.COM")] (strings.TrimSuffix "shout.test." ".")
        = some "EXAMPLE.COM" ∧
      (ServeDNS scenarioEnv (queryA "shout.test.")
        (orphanRun.withDatabase [("shout.test", "EXAMPLE.COM")])).run.exchanged = [] ∧
      (ServeDNS scenarioEnv (queryA "shout.test.")
        (orphanRun.withDatabase [("shout.test", "EXAMPLE.COM")])).run.written.map
        (fun m => m.Rcode) = [dns.RcodeSuccess]) :=
  ⟨rfl, ⟨by decide, by decide, by decide, by decide, by decide⟩,
    ⟨by decide, by decide⟩, ⟨by decide, by decide, by decide, by decide⟩,
    ⟨by decide, by decide, by decide⟩⟩

/-- C18, amended. With an empty server list, a request that needs the upstream (one
that is not eligible, or an eligible one whose name, other than the fault trigger, has
no match or resolves to a target with a character in `a..z`) ends on a fault path:
the body panics, the client receives exactly one response, with rcode SERVER-FAILURE
and not REFUSED, `panic_refusals` is counted once, `refusals` and `upstream_errors`
are unchanged, and `upstream_queries` is counted once although no exchange was made.
An eligible request whose name, other than the fault trigger, resolves to a target
without a character in `a..z` is still answered locally.  A counter counted once
grows by 1 as a Go `int` (`int.add`): by exactly 1 from any `int` value below
`math.MaxInt`, and from `math.MaxInt` to `math.MinInt`. -/
theorem C18_empty_server_list (env : Env) (r : dns.Msg) (s : Run)
    (hsrv : s.self.Servers = []) :
    (∀ v : Int, math.MinInt ≤ v → v < math.MaxInt → int.add v 1 = v + 1) ∧
    int.add math.MaxInt 1 = math.MinInt ∧
    ((r.Question.length ≠ 1 ∨
        (∃ q ∈ r.Question, q.Qtype ≠ dns.TypeA ∨ q.Qclass ≠ dns.ClassINET) ∨
        ∃ q, getSingleSimpleQuestion r = some q ∧
          strings.TrimSuffix q.Name "." ≠ "panic.com" ∧
          (lookup s.self.Database (strings.TrimSuffix q.Name ".") = none ∨
            ∃ target,
              lookup s.self.Database (strings.TrimSuffix q.Name ".") = some target ∧
                ∃ c ∈ target.data, 'a' ≤ c ∧ c ≤ 'z')) →
      ∃ s1 s' m, ServeDNS.body env r s = .panic s1 ∧ ServeDNS env r s = .ok () s' ∧
        s'.written = s.written ++ [m] ∧
        m.Rcode = dns.RcodeServerFailure ∧ m.Rcode ≠ dns.RcodeRefused ∧
        m.Response = true ∧ m.Id = r.Id ∧
        s'.stat "panic_refusals" = int.add (s.stat "panic_refusals") 1 ∧
        s'.stat "refusals" = s.stat "refusals" ∧
        s'.stat "upstream_errors" = s.stat "upstream_errors" ∧
        s'.stat "upstream_queries" = int.add (s.stat "upstream_queries") 1 ∧
        s'.exchanged = s.exchanged) ∧
    (∀ (q : dns.Question) (target : String),
      getSingleSimpleQuestion r = some q →
      strings.TrimSuffix q.Name "." ≠ "panic.com" →
      lookup s.self.Database (strings.TrimSuffix q.Name ".") = some target →
      (∀ c ∈ target.data, ¬ ('a' ≤ c ∧ c ≤ 'z')) →
      ∃ s', ServeDNS.body env r s = .ok () s' ∧ ServeDNS env r s = .ok () s' ∧
        s'.written = s.written ++ [localReply r q (env.ParseIP target)] ∧
        s'.stat "local_responses" = int.add (s.stat "local_responses") 1 ∧
        s'.stat "panic_refusals" = s.stat "panic_refusals" ∧
        s'.stat "upstream_queries" = s.stat "upstream_queries") := by
  refine ⟨int_add_one, int_add_MaxInt, ?_⟩
  obtain ⟨g1, g2, g3, _, _, _⟩ := refusalMsg_fields r dns.RcodeServerFailure
  have hne : dns.RcodeServerFailure ≠ dns.RcodeRefused := by decide
  have proxied : tryAnswer env r (Count "requests" s) = .ok false (Count "requests" s) →
      ∃ s1 s' m, ServeDNS.body env r s = .panic s1 ∧ ServeDNS env r s = .ok () s' ∧
        s'.written = s.written ++ [m] ∧
        m.Rcode = dns.RcodeServerFailure ∧ m.Rcode ≠ dns.RcodeRefused ∧
        m.Response = true ∧ m.Id = r.Id ∧
        s'.stat "panic_refusals" = int.add (s.stat "panic_refusals") 1 ∧
        s'.stat "refusals" = s.stat "refusals" ∧
        s'.stat "upstream_errors" = s.stat "upstream_errors" ∧
        s'.stat "upstream_queries" = int.add (s.stat "upstream_queries") 1 ∧
        s'.exchanged = s.exchanged := by
    intro ht
    obtain ⟨hb, hS⟩ := ServeDNS_proxy_empty env r s ht hsrv
    refine ⟨_, _, refusalMsg r dns.RcodeServerFailure, hb, hS, rfl, g1, by rw [g1]; exact hne,
      g2, g3, ?_, ?_, ?_, ?_, rfl⟩ <;> simp [refuseOnPanic_eq, stat_Count]
  constructor
  · rintro (h | h | ⟨q, hq, hname, h | ⟨target, hfound, hdom⟩⟩)
    · exact proxied (tryAnswer_ineligible env r _
        (getSingleSimpleQuestion_ineligible r (Or.inl h)))
    · exact proxied (tryAnswer_ineligible env r _
        (getSingleSimpleQuestion_ineligible r (Or.inr h)))
    · exact proxied (tryAnswer_miss env r q _ hq hname (by simpa using h))
    · have hdom' : looksLikeDomainName target = true :=
        (looksLikeDomainName_iff target).mpr hdom
      obtain ⟨hb, hS⟩ := ServeDNS_redirect_empty env r q s target hq hname hfound hdom' hsrv
      refine ⟨_, _, refusalMsg r dns.RcodeServerFailure, hb, hS, rfl, g1,
        by rw [g1]; exact hne, g2, g3, ?_, ?_, ?_, ?_, rfl⟩ <;>
        simp [refuseOnPanic_eq, stat_Count]
  · intro q target hq hname hfound hlit
    have hip : looksLikeDomainName target = false := by
      cases h : looksLikeDomainName target with
      | false => rfl
      | true =>
        obtain ⟨c, hc, hcz⟩ := (looksLikeDomainName_iff target).mp h
        exact absurd hcz (hlit c hc)
    have ht := tryAnswer_local env r q (Count "requests" s) target hq hname
      (by simpa using hfound) hip
    refine ⟨_, body_of_answered env r s _ ht,
      ServeDNS_local env r q s target hq hname hfound hip, rfl, ?_, ?_, ?_⟩ <;>
      simp [stat_Count]

/-- The scenario server without upstream servers: a miss and a redirect end in
SERVER-FAILURE, and `foo.test.` is still answered. -/
theorem C18_empty_server_list_witness :
    orphanRun.self.Servers = [] ∧
    (ServeDNS scenarioEnv (queryA "other.test.") orphanRun).run.written.map
        (fun m => m.Rcode) = [dns.RcodeServerFailure] ∧
    (ServeDNS scenarioEnv (queryA "other.test.") orphanRun).run.self.stats
      = [("requests", 1), ("proxied_requests", 1), ("upstream_queries", 1),
         ("panic_refusals", 1)] ∧
    (ServeDNS scenarioEnv (queryA "a.bar.test.") orphanRun).run.self.stats
      = [("requests", 1), ("redirected_requests", 1), ("upstream_queries", 1),
         ("panic_refusals", 1)] ∧
    (ServeDNS scenarioEnv (queryA "foo.test.") orphanRun).run.written.map
        (fun m => (m.Rcode, m.Answer.map (fun rr => rr.A)))
      = [(dns.RcodeSuccess, [[0, 0, 0, 0, 0, 0, 0, 0, 0, 0, 255, 255, 1, 2, 3, 4]])] ∧
    ∃ s1 s' m, ServeDNS.body scenarioEnv (queryA "other.test.") orphanRun = .panic s1 ∧
      ServeDNS scenarioEnv (queryA "other.test.") orphanRun = .ok () s' ∧
      s'.written = orphanRun.written ++ [m] ∧
      m.Rcode = dns.RcodeServerFailure ∧ m.Rcode ≠ dns.RcodeRefused ∧
      m.Response = true ∧ m.Id = (queryA "other.test.").Id ∧
      s'.stat "panic_refusals" = int.add (orphanRun.stat "panic_refusals") 1 ∧
      s'.stat "refusals" = orphanRun.stat "refusals" ∧
      s'.stat "upstream_errors" = orphanRun.stat "upstream_errors" ∧
      s'.stat "upstream_queries" = int.add (orphanRun.stat "upstream_queries") 1 ∧
      s'.exchanged = orphanRun.exchanged :=
  ⟨rfl, by decide, by decide, by decide, by decide,
    (C18_empty_server_list scenarioEnv (queryA "other.test.") orphanRun rfl).2.2.1
      (Or.inr (Or.inr ⟨⟨"other.test.", dns.TypeA, dns.ClassINET⟩, by decide, by decide,
        Or.inl (by decide)⟩))⟩

/-- C19, as stated, fails for the fault trigger: with the key `panic.com` bound to
`EXAMPLE.COM`, a target without a character in `a..z` that is not an IP address, the
query `panic.com.` gets a SERVER-FAILURE response without any answer, and
`local_responses` stays 0.  And the counter is a Go `int`: the answer for
`shout.test.` given when `local_responses` is `math.MaxInt` leaves it at
`math.MinInt`. -/
theorem C19_counterexample :
    getSingleSimpleQuestion (queryA "panic.com.")
        = some ⟨"panic.com.", dns.TypeA, dns.ClassINET⟩ ∧
    lookup (triggerRun "EXAMPLE.COM" ["192.0.2.1:53"]).self.Database
        (strings.TrimSuffix "panic.com." ".") = some "EXAMPLE.COM" ∧
    (∀ c ∈ "EXAMPLE.COM".data, ¬ ('a' ≤ c ∧ c ≤ 'z')) ∧
    scenarioEnv.ParseIP "EXAMPLE.COM" = [] ∧
    (ServeDNS scenarioEnv (queryA "panic.com.")
        (triggerRun "EXAMPLE.COM" ["192.0.2.1:53"])).run.written.map
        (fun m => (m.Rcode, m.Answer)) = [(dns.RcodeServerFailure, [])] ∧
    (ServeDNS scenarioEnv (queryA "panic.com.")
        (triggerRun "EXAMPLE.COM" ["192.0.2.1:53"])).run.stat "local_responses" = 0 ∧
    (lookup oddTargetsRun.self.Database (strings.TrimSuffix "shout.test." ".")
        = some "EXAMPLE.COM" ∧
      (saturatedRun.withDatabase oddTargetsRun.self.Database).stat "local_responses"
        = math.MaxInt ∧
      (ServeDNS scenarioEnv (queryA "shout.test.")
        (saturatedRun.withDatabase oddTargetsRun.self.Database)).run.written.map
        (fun m => (m.Rcode, m.Answer.map (fun rr => rr.A)))
        = [(dns.RcodeSuccess, [[]])] ∧
      (ServeDNS scenarioEnv (queryA "shout.test.")
        (saturatedRun.withDatabase oddTargetsRun.self.Database)).run.stat
        "local_responses" = math.MinInt ∧
      math.MinInt ≠ math.MaxInt + 1) :=
  ⟨by decide, by decide, by decide, by decide, by decide, by decide,
    ⟨by decide, by decide, by decide, by decide, by decide⟩⟩

/-- C19, amended. An eligible request whose name, other than the fault trigger,
resolves to a target that has no character in `a..z` and that `net.ParseIP` does not
parse: the request is neither refused nor proxied; one success reply is written, with
exactly one A record under the name of the question, class IN, TTL 30, whose address
is the nil address, and `local_responses` grows by 1 as a Go `int` (by exactly 1 from
any value below `math.MaxInt`, and from `math.MaxInt` to `math.MinInt`). -/
theorem C19_unparsable_target (env : Env) (r : dns.Msg) (q : dns.Question) (s : Run)
    (target : String) (hq : getSingleSimpleQuestion r = some q)
    (hname : strings.TrimSuffix q.Name "." ≠ "panic.com")
    (hfound : lookup s.self.Database (strings.TrimSuffix q.Name ".") = some target)
    (hlow : ∀ c ∈ target.data, ¬ ('a' ≤ c ∧ c ≤ 'z'))
    (hparse : env.ParseIP target = []) :
    ∃ s' reply, ServeDNS env r s = .ok () s' ∧
      s'.written = s.written ++ [reply] ∧
      reply.Rcode = dns.RcodeSuccess ∧ reply.Response = true ∧ reply.Id = r.Id ∧
      reply.Question = [q] ∧
      reply.Answer
        = [{ Hdr := { Name := q.Name, Rrtype := dns.TypeA, Class := dns.ClassINET,
                      Ttl := 30, Rdlength := 4 },
             A := [] }] ∧
      s'.stat "local_responses" = int.add (s.stat "local_responses") 1 ∧
      (math.MinInt ≤ s.stat "local_responses" → s.stat "local_responses" < math.MaxInt →
        s'.stat "local_responses" = s.stat "local_responses" + 1) ∧
      (s.stat "local_responses" = math.MaxInt →
        s'.stat "local_responses" = math.MinInt) ∧
      s'.stat "refusals" = s.stat "refusals" ∧
      s'.stat "panic_refusals" = s.stat "panic_refusals" ∧
      s'.stat "proxied_requests" = s.stat "proxied_requests" ∧
      s'.stat "redirected_requests" = s.stat "redirected_requests" ∧
      s'.stat "upstream_queries" = s.stat "upstream_queries" ∧
      s'.exchanged = s.exchanged := by
  have hip : looksLikeDomainName target = false := by
    cases h : looksLikeDomainName target with
    | false => rfl
    | true =>
      obtain ⟨c, hc, hcz⟩ := (looksLikeDomainName_iff target).mp h
      exact absurd hcz (hlow c hc)
  obtain ⟨h1, _, h3, h4, h5, h6⟩ := localReply_fields r q (env.ParseIP target)
  have hst : ((Count "local_responses" (Count "requests" s)).WriteMsg
      (localReply r q (env.ParseIP target))).stat "local_responses"
        = int.add (s.stat "local_responses") 1 := by
    simp [stat_Count]
  refine ⟨_, localReply r q (env.ParseIP target),
    ServeDNS_local env r q s target hq hname hfound hip, rfl, h5, h3, h4, ?_, ?_, hst,
    ?_, ?_, ?_⟩
  · rw [h6, (eligible_question r q hq).1]
    rfl
  · rw [h1, hparse]
    rfl
  · intro hlo hhi
    rw [hst, int_add_one _ hlo hhi]
  · intro hmax
    rw [hst, hmax, int_add_MaxInt]
  · simp [stat_Count]

/-- The two examples of the claim, `EXAMPLE.COM` and `1.2.3`. -/
theorem C19_unparsable_target_witness :
    getSingleSimpleQuestion (queryA "shout.test.")
        = some ⟨"shout.test.", dns.TypeA, dns.ClassINET⟩ ∧
    strings.TrimSuffix "shout.test." "." ≠ "panic.com" ∧
    lookup oddTargetsRun.self.Database (strings.TrimSuffix "shout.test." ".")
        = some "EXAMPLE.COM" ∧
    (∀ c ∈ "EXAMPLE.COM".data, ¬ ('a' ≤ c ∧ c ≤ 'z')) ∧
    scenarioEnv.ParseIP "EXAMPLE.COM" = [] ∧
    (ServeDNS scenarioEnv (queryA "short.test.") oddTargetsRun).run.written.map
        (fun m => (m.Rcode, m.Answer))
      = [(dns.RcodeSuccess,
          [answerRecord ⟨"short.test.", dns.TypeA, dns.ClassINET⟩ []])] ∧
    (ServeDNS scenarioEnv (queryA "shout.test.") oddTargetsRun).run.self.stats
      = [("requests", 1), ("local_responses", 1)] ∧
    ∃ s' reply, ServeDNS scenarioEnv (queryA "shout.test.") oddTargetsRun = .ok () s' ∧
      s'.written = oddTargetsRun.written ++ [reply] ∧
      reply.Rcode = dns.RcodeSuccess ∧ reply.Response = true ∧
      reply.Id = (queryA "shout.test.").Id ∧
      reply.Question = [⟨"shout.test.", dns.TypeA, dns.ClassINET⟩] ∧
      reply.Answer
        = [{ Hdr := { Name := "shout.test.", Rrtype := dns.TypeA, Class := dns.ClassINET,
                      Ttl := 30, Rdlength := 4 },
             A := [] }] ∧
      s'.stat "local_responses" = int.add (oddTargetsRun.stat "local_responses") 1 ∧
      (math.MinInt ≤ oddTargetsRun.stat "local_responses" →
        oddTargetsRun.stat "local_responses" < math.MaxInt →
        s'.stat "local_responses" = oddTargetsRun.stat "local_responses" + 1) ∧
      (oddTargetsRun.stat "local_responses" = math.MaxInt →
        s'.stat "local_responses" = math.MinInt) ∧
      s'.stat "refusals" = oddTargetsRun.stat "refusals" ∧
      s'.stat "panic_refusals" = oddTargetsRun.stat "panic_refusals" ∧
      s'.stat "proxied_requests" = oddTargetsRun.stat "proxied_requests" ∧
      s'.stat "redirected_requests" = oddTargetsRun.stat "redirected_requests" ∧
      s'.stat "upstream_queries" = oddTargetsRun.stat "upstream_queries" ∧
      s'.exchanged = oddTargetsRun.exchanged :=
  ⟨by decide, by decide, by decide, by decide, by decide, by decide, by decide,
    C19_unparsable_target scenarioEnv (queryA "shout.test.")
      ⟨"shout.test.", dns.TypeA, dns.ClassINET⟩ oddTargetsRun "EXAMPLE.COM"
      (by decide) (by decide) (by decide) (by decide) (by decide)⟩

end TrivialDns
